import Mathlib

/-!
# The host/device mirrored memory block of APRIL-ANN

A shallow embedding of
`packages/basics/mathcore/c_src/gpu_mirrored_memory_block.h`
(build with `USE_CUDA` defined and `NO_POOL` undefined) and the properties
of its residency state machine.

Conventions of the embedding

* A C++ object is a record; a member function is a function from the record
  to the new record (and the returned value).
* `ERROR_EXIT` ends the process: a member function that can reach it returns
  `Except Abort _`, the error carrying the exit code, the message and the
  fields of the block at that moment; a constructor returns `Except Exit _`.
* The two overloads of a member function that differ in the `const`
  qualification of `this` are two Lean functions, the `const` one carrying the
  suffix `_const`.  Which one a caller reaches is decided by the C++ type of
  the handle it holds, not by the `CONST_MASK` bit of the block.
* The results of the CUDA driver, of `aligned_malloc` and of `mmap` are not
  computed by the program; every function that calls them takes a `Driver`
  record with the outcome of those calls.
* A memory region is a map from byte offsets to byte values.
* Every driver or allocator call that returns successfully is appended to the
  `log` field of the block, which plays the role of an instrumented copy
  counter.
* An asynchronous copy is given its effect on the bytes when it is issued; the
  field `pending` records that it has not been synchronised yet.
* The older class of `packages/basics/math/c_src/gpu_mirrored_memory_block.h`
  is embedded in the namespace `Math`, with the same conventions, for the
  comparison of the two versions.
-/

namespace AprilANN

/-! ## Process exit -/

/-- The exit code and message format passed to `ERROR_EXIT`. -/
structure Exit where
  code : Nat
  msg : String
deriving DecidableEq

namespace Exit

/-- Raised by the four mutable pointer accessors on a block with `CONST_MASK`. -/
def constWrite : Exit :=
  { code := 128, msg := "Impossible to write in a const memory block\n" }

/-- Raised by `getPPALForRead() const` and `getGPUForRead() const`. -/
def updateFromNonConst : Exit :=
  { code := 128, msg := "Update the memory from a non const pointer\n" }

/-- Raised by the `const` overloads of `updateMemPPAL`, `updateMemGPU`,
`copyPPALtoGPU` and `allocMemGPU`. -/
def needNonConst : Exit :=
  { code := 128, msg := "You need first to update the memory in a non const pointer\n" }

/-- Raised by `toMMappedDataWriter() const`. -/
def constSerialize : Exit :=
  { code := 128, msg := "Impossible to update memory from a const pointer\n" }

/-- Raised when `cuMemcpyDtoH` does not return `CUDA_SUCCESS`. -/
def copyDtoH : Exit :=
  { code := 160, msg := "Could not copy memory from device to host: %s\n" }

/-- Raised when the device-to-host `cudaMemcpyAsync` does not return `cudaSuccess`. -/
def copyDtoHAsync : Exit :=
  { code := 162, msg := "Could not copy memory from device to host: %s\n" }

/-- Raised when a host-to-device copy or `cudaHostAlloc` fails. -/
def copyHtoD : Exit :=
  { code := 162, msg := "Could not copy memory from host to device: %s\n" }

/-- Raised when `cuMemAlloc` does not return `CUDA_SUCCESS`. -/
def allocDevice : Exit :=
  { code := 161, msg := "Could not allocate memory in device.\n" }

/-- Raised when the anonymous `mmap` returns `MAP_FAILED`. -/
def mmapFailed : Exit :=
  { code := 128, msg := "Impossible to open required mmap memory: %s\n" }

/-- Raised by `pinnedMemoryPageLock() const`. -/
def pinFromConst : Exit :=
  { code := 128, msg := "Execute it from a non const pointer\n" }

/-- Raised by `pinnedMemoryPageLock()` on a const or mmapped block. -/
def pinForbidden : Exit :=
  { code := 128, msg := "Impossible to set as pinned a const or mmapped memory block\n" }

/-- Raised when `cuMemFree` does not return `CUDA_SUCCESS`. -/
def freeDevice : Exit :=
  { code := 163, msg := "Could not free memory from device.\n" }

/-- The header `april_assert.h` is not among the sources; `april_assert` is
taken to be an enabled assertion, which aborts the process (signal 6, exit
status 134) when its condition is false. -/
def assertFailed : Exit :=
  { code := 134, msg := "april_assert(mem_gpu != 0)" }

/-- Modelled from the spec: the reader of `mmapped_data.h` (not among the
sources) fails with `CorruptDataError` on a read past the mapped region. -/
def corruptData : Exit :=
  { code := 128, msg := "CorruptDataError" }

end Exit

/-! ## Instrumentation -/

/-- The driver and allocator calls a block makes, in the order it makes them. -/
inductive Effect where
  | cuMemcpyDtoH (bytes : Nat)
  | cuMemcpyHtoD (bytes : Nat)
  | cudaMemcpyAsyncDtoH (bytes : Nat)
  | cudaMemcpyAsyncHtoD (bytes : Nat)
  | cudaThreadSynchronize
  | cuMemAlloc (bytes : Nat)
  | cudaHostAlloc (bytes : Nat)
  | aligned_malloc (bytes : Nat)
  | mmap (bytes : Nat)
  | aligned_free (ptr : Nat)
  | munmap (ptr : Nat) (bytes : Nat)
  | cudaFreeHost (ptr : Nat)
  | cuMemFree (handle : Nat)
  | DecRef (reader : Nat)
deriving DecidableEq

/-- The byte count of a device-to-host copy, synchronous or not. -/
def Effect.dtoh : Effect → Option Nat
  | .cuMemcpyDtoH n => some n
  | .cudaMemcpyAsyncDtoH n => some n
  | _ => none

/-- The byte count of a host-to-device copy, synchronous or not. -/
def Effect.htod : Effect → Option Nat
  | .cuMemcpyHtoD n => some n
  | .cudaMemcpyAsyncHtoD n => some n
  | _ => none

/-- The byte count of a device allocation. -/
def Effect.alloc : Effect → Option Nat
  | .cuMemAlloc n => some n
  | _ => none

/-- Byte counts of the device-to-host copies of a log, oldest first. -/
def copiesDtoH (log : List Effect) : List Nat := log.filterMap Effect.dtoh

/-- Byte counts of the host-to-device copies of a log, oldest first. -/
def copiesHtoD (log : List Effect) : List Nat := log.filterMap Effect.htod

/-- Byte counts of the device allocations of a log, oldest first. -/
def deviceAllocs (log : List Effect) : List Nat := log.filterMap Effect.alloc

/-! ## The environment -/

/-- Outcome of the driver and allocator calls made during one member call.
A member function makes at most one call of each kind. -/
structure Driver where
  /-- Result of `cuMemAlloc`: `some h` is `CUDA_SUCCESS` with handle `h`. -/
  cuMemAlloc : Option Nat
  /-- Contents of a device region just allocated (not initialised). -/
  deviceJunk : Nat → Nat
  /-- Whether `cuMemcpyDtoH` returns `CUDA_SUCCESS`. -/
  cuMemcpyDtoH : Bool
  /-- Whether `cuMemcpyHtoD` returns `CUDA_SUCCESS`. -/
  cuMemcpyHtoD : Bool
  /-- Whether `cudaMemcpyAsync` returns `cudaSuccess`. -/
  cudaMemcpyAsync : Bool
  /-- Result of `cudaHostAlloc`: `some p` is `cudaSuccess` with pointer `p`. -/
  cudaHostAlloc : Option Nat
  /-- Pointer returned by `aligned_malloc`. -/
  aligned_malloc : Nat
  /-- Pointer returned by the anonymous `mmap`. -/
  mmap : Nat
  /-- Contents of a host region just allocated (not initialised). -/
  hostJunk : Nat → Nat
  /-- Whether `cudaFreeHost` returns `cudaSuccess`. -/
  cudaFreeHost : Bool
  /-- Whether `cuMemFree` returns `CUDA_SUCCESS`. -/
  cuMemFree : Bool

/-- The value `MAP_FAILED`, `(void*)-1` on a 64-bit target. -/
def MAP_FAILED : Nat := 2 ^ 64 - 1

/-- A driver all of whose calls succeed. -/
def Driver.succeeds (d : Driver) : Prop :=
  d.cuMemAlloc.isSome = true ∧ d.cuMemcpyDtoH = true ∧ d.cuMemcpyHtoD = true ∧
    d.cudaMemcpyAsync = true ∧ d.cudaHostAlloc.isSome = true ∧
    d.mmap ≠ MAP_FAILED ∧ d.cudaFreeHost = true ∧ d.cuMemFree = true

instance (d : Driver) : Decidable d.succeeds := by
  unfold Driver.succeeds; infer_instance

/-- The effect of copying `n` bytes from the start of `src` to the start of `dst`. -/
def memcpy (n : Nat) (src dst : Nat → Nat) : Nat → Nat :=
  fun i => if i < n then src i else dst i

/-! ## Status bits -/

def PPAL_MASK : Nat := 0x01
def GPU_MASK : Nat := 0x02
def CONST_MASK : Nat := 0x04
def ALLOC_MASK : Nat := 0x08
def MMAP_MASK : Nat := 0x10

/-- The operand `~mask` of `status & (~mask)`, seen through the 8 bits of the
`unsigned char` that receives the result. -/
def notMask (mask : Nat) : Nat := 0xFF ^^^ mask

/-! ## The block -/

/-- The fields of `GPUMirroredMemoryBlockBase`, the contents of the two regions
it points to, and the instrumentation. -/
structure GPUMirroredMemoryBlockBase where
  /-- Byte count, `size_t size`. -/
  size : Nat
  /-- Host pointer `mem_ppal` (same storage as `const_mem_ppal`). -/
  mem_ppal : Nat
  /-- Device handle `mem_gpu`; `0` when no device storage is allocated. -/
  mem_gpu : Nat
  pinned : Bool
  /-- Bit 0 host valid, bit 1 device valid, bit 2 const, bit 3 allocated, bit 4 mmapped. -/
  status : Nat
  /-- Address of the reader the block borrows from; `0` is the null pointer. -/
  mmapped_data : Nat
  /-- Contents of the region `mem_ppal` points to. -/
  hostMem : Nat → Nat
  /-- Contents of the region `mem_gpu` refers to. -/
  deviceMem : Nat → Nat
  /-- An asynchronous transfer has been issued and not yet synchronised. -/
  pending : Bool
  /-- The calls made so far, oldest first. -/
  log : List Effect

/-- The class template `GPUMirroredMemoryBlock<T>` adds no field to its base. -/
abbrev GPUMirroredMemoryBlock := GPUMirroredMemoryBlockBase

/-- What is left when `ERROR_EXIT` ends the process inside a member function:
the exit, and the block as it is at that moment. -/
structure Abort where
  exit : Exit
  block : GPUMirroredMemoryBlockBase

namespace GPUMirroredMemoryBlockBase

def setConst (b : GPUMirroredMemoryBlockBase) : GPUMirroredMemoryBlockBase :=
  { b with status := b.status ||| CONST_MASK }

def isConst (b : GPUMirroredMemoryBlockBase) : Bool :=
  b.status &&& CONST_MASK != 0

def setAllocated (b : GPUMirroredMemoryBlockBase) : GPUMirroredMemoryBlockBase :=
  { b with status := b.status ||| ALLOC_MASK }

def isAllocated (b : GPUMirroredMemoryBlockBase) : Bool :=
  b.status &&& ALLOC_MASK != 0

def setMMapped (b : GPUMirroredMemoryBlockBase) : GPUMirroredMemoryBlockBase :=
  { b with status := b.status ||| MMAP_MASK }

def isMMapped (b : GPUMirroredMemoryBlockBase) : Bool :=
  b.status &&& MMAP_MASK != 0

/-- The flag the specification calls `hostValid`. -/
def getUpdatedPPAL (b : GPUMirroredMemoryBlockBase) : Bool :=
  b.status &&& PPAL_MASK != 0

/-- The flag the specification calls `deviceValid`. -/
def getUpdatedGPU (b : GPUMirroredMemoryBlockBase) : Bool :=
  b.status &&& GPU_MASK != 0

def unsetUpdatedPPAL (b : GPUMirroredMemoryBlockBase) : GPUMirroredMemoryBlockBase :=
  { b with status := b.status &&& notMask PPAL_MASK }

def unsetUpdatedGPU (b : GPUMirroredMemoryBlockBase) : GPUMirroredMemoryBlockBase :=
  { b with status := b.status &&& notMask GPU_MASK }

def setUpdatedPPAL (b : GPUMirroredMemoryBlockBase) : GPUMirroredMemoryBlockBase :=
  { b with status := b.status ||| PPAL_MASK }

def setUpdatedGPU (b : GPUMirroredMemoryBlockBase) : GPUMirroredMemoryBlockBase :=
  { b with status := b.status ||| GPU_MASK }

/-- The overload `updateMemPPAL() const`. -/
def updateMemPPAL_const (b : GPUMirroredMemoryBlockBase) : Except Abort Unit :=
  if !b.getUpdatedPPAL then .error ⟨Exit.needNonConst, b⟩ else .ok ()

/-- The overload `updateMemPPAL()`. -/
def updateMemPPAL (d : Driver) (b : GPUMirroredMemoryBlockBase) :
    Except Abort GPUMirroredMemoryBlockBase :=
  if !b.getUpdatedPPAL then
    let b1 := b.setUpdatedPPAL
    if b1.mem_gpu = 0 then .error ⟨Exit.assertFailed, b1⟩
    else if !b1.pinned then
      if d.cuMemcpyDtoH then
        .ok { b1 with
              hostMem := memcpy b1.size b1.deviceMem b1.hostMem
              log := b1.log ++ [Effect.cuMemcpyDtoH b1.size] }
      else .error ⟨Exit.copyDtoH, b1⟩
    else
      if d.cudaMemcpyAsync then
        .ok { b1 with
              hostMem := memcpy b1.size b1.deviceMem b1.hostMem
              pending := false
              log := b1.log ++ [Effect.cudaMemcpyAsyncDtoH b1.size,
                                Effect.cudaThreadSynchronize] }
      else .error ⟨Exit.copyDtoHAsync, b1⟩
  else .ok b

/-- The overload `copyPPALtoGPU() const`. -/
def copyPPALtoGPU_const (b : GPUMirroredMemoryBlockBase) : Except Abort Unit :=
  .error ⟨Exit.needNonConst, b⟩

/-- The overload `copyPPALtoGPU()`. -/
def copyPPALtoGPU (d : Driver) (b : GPUMirroredMemoryBlockBase) :
    Except Abort GPUMirroredMemoryBlockBase :=
  if !b.pinned then
    if d.cuMemcpyHtoD then
      .ok { b with
            deviceMem := memcpy b.size b.hostMem b.deviceMem
            log := b.log ++ [Effect.cuMemcpyHtoD b.size] }
    else .error ⟨Exit.copyHtoD, b⟩
  else
    if d.cudaMemcpyAsync then
      .ok { b with
            deviceMem := memcpy b.size b.hostMem b.deviceMem
            pending := true
            log := b.log ++ [Effect.cudaThreadSynchronize,
                              Effect.cudaMemcpyAsyncHtoD b.size] }
    else .error ⟨Exit.copyHtoD,
      { b with pending := false, log := b.log ++ [Effect.cudaThreadSynchronize] }⟩

/-- The overload `allocMemGPU() const`. -/
def allocMemGPU_const (b : GPUMirroredMemoryBlockBase) : Except Abort Bool :=
  .error ⟨Exit.needNonConst, b⟩

/-- The overload `allocMemGPU()`; the boolean is the value it returns. -/
def allocMemGPU (d : Driver) (b : GPUMirroredMemoryBlockBase) :
    Except Abort (GPUMirroredMemoryBlockBase × Bool) :=
  if b.mem_gpu = 0 then
    match d.cuMemAlloc with
    | some h =>
      .ok ({ b with
             mem_gpu := h
             deviceMem := d.deviceJunk
             log := b.log ++ [Effect.cuMemAlloc b.size] }, true)
    | none => .error ⟨Exit.allocDevice, b⟩
  else .ok (b, false)

/-- The overload `updateMemGPU() const`. -/
def updateMemGPU_const (b : GPUMirroredMemoryBlockBase) : Except Abort Unit :=
  if !b.getUpdatedGPU then .error ⟨Exit.needNonConst, b⟩ else .ok ()

/-- The overload `updateMemGPU()`. -/
def updateMemGPU (d : Driver) (b : GPUMirroredMemoryBlockBase) :
    Except Abort GPUMirroredMemoryBlockBase :=
  if !b.getUpdatedGPU then
    match allocMemGPU d b with
    | .error e => .error e
    | .ok (b1, _) => copyPPALtoGPU d b1.setUpdatedGPU
  else .ok b

end GPUMirroredMemoryBlockBase

/-! ## Persisted segments -/

/-- Number of bytes of a `size_t` on the 64-bit target. -/
def SIZEOF_SIZE_T : Nat := 8

/-- The bytes of a `size_t` value in memory (little-endian). -/
def size_t_bytes (n : Nat) : List Nat :=
  (List.range SIZEOF_SIZE_T).map (fun i => n / 256 ^ i % 256)

/-- The `size_t` value stored in a run of bytes (little-endian). -/
def size_t_value (bs : List Nat) : Nat :=
  bs.foldr (fun x acc => x + 256 * acc) 0

/-- Modelled from the spec: `MMappedDataWriter` of `mmapped_data.h`, which is
not among the sources. Sequential `put` calls append to a growing buffer with
no random access. -/
structure MMappedDataWriter where
  data : List Nat

/-- Modelled from the spec: `put(&size)`, appending the bytes of one `size_t`. -/
def MMappedDataWriter.put_size_t (w : MMappedDataWriter) (n : Nat) : MMappedDataWriter :=
  { data := w.data ++ size_t_bytes n }

/-- Modelled from the spec: `put(ptr, n)`, appending the first `n` bytes of the
region `ptr` points to. -/
def MMappedDataWriter.put (w : MMappedDataWriter) (region : Nat → Nat) (n : Nat) :
    MMappedDataWriter :=
  { data := w.data ++ (List.range n).map region }

/-- Modelled from the spec: `MMappedDataReader` of `mmapped_data.h`, which is
not among the sources. It owns one mapped region, is consumed sequentially in
the order the bytes were written, and is reference counted. -/
structure MMappedDataReader where
  /-- Address of the reader object (what a block stores in `mmapped_data`). -/
  addr : Nat
  /-- Address of the first byte of the mapped region. -/
  base : Nat
  /-- The bytes of the mapped region. -/
  data : List Nat
  /-- Offset of the next byte to be consumed. -/
  pos : Nat
  /-- Reference count. -/
  refs : Nat

/-- Modelled from the spec: `get<size_t>()`, consuming one `size_t`; a read past
the mapped region fails. -/
def MMappedDataReader.get_size_t (r : MMappedDataReader) :
    Except Exit (Nat × MMappedDataReader) :=
  if r.pos + SIZEOF_SIZE_T ≤ r.data.length then
    .ok (size_t_value ((r.data.drop r.pos).take SIZEOF_SIZE_T),
         { r with pos := r.pos + SIZEOF_SIZE_T })
  else .error Exit.corruptData

/-- Modelled from the spec: `get<char>(n)`, consuming `n` bytes and returning a
pointer into the mapped region (no copy); a read past the region fails. The
second component is the content found at the returned pointer. -/
def MMappedDataReader.get_char (r : MMappedDataReader) (n : Nat) :
    Except Exit (Nat × (Nat → Nat) × MMappedDataReader) :=
  if r.pos + n ≤ r.data.length then
    .ok (r.base + r.pos, fun i => (r.data.drop r.pos).getD i 0, { r with pos := r.pos + n })
  else .error Exit.corruptData

/-- Modelled from the spec: `IncRef` on a reader. -/
def MMappedDataReader.IncRef (r : MMappedDataReader) : MMappedDataReader :=
  { r with refs := r.refs + 1 }

/-! ## The pool of released host buffers -/

def MAX_POOL_LIST_SIZE : Nat := 200 * 1024 * 1024
def MIN_MEMORY_TH_IN_POOL : Nat := 20

/-- The static members of `GPUMirroredMemoryBlockBase`. The table
`pool_lists` is keyed by `unsigned int`; a list is written front first. -/
structure Pool where
  pool_size : Nat
  pool_lists : Nat → List Nat
  use_mmap_allocation : Bool

/-- The key `pool_lists[size]` looks up: the `size_t` converted to `unsigned int`. -/
def poolKey (size : Nat) : Nat := size % 2 ^ 32

/-- The static member `setUseMMapAllocation`. -/
def Pool.setUseMMapAllocation (pool : Pool) (v : Bool) : Pool :=
  { pool with use_mmap_allocation := v }

namespace GPUMirroredMemoryBlockBase

/-! ## Constructors and destructor -/

/-- The fields before the body of a constructor runs: `status = 0`, no reader,
no device storage, not pinned. -/
def blank (sz mem : Nat) (content : Nat → Nat) : GPUMirroredMemoryBlockBase :=
  { size := sz, mem_ppal := mem, mem_gpu := 0, pinned := false, status := 0,
    mmapped_data := 0, hostMem := content, deviceMem := fun _ => 0,
    pending := false, log := [] }

/-- The constructor `GPUMirroredMemoryBlockBase(MMappedDataReader*)`. -/
def new_reader (r : MMappedDataReader) :
    Except Exit (GPUMirroredMemoryBlockBase × MMappedDataReader) :=
  match r.get_size_t with
  | .error e => .error e
  | .ok (sz, r1) =>
    match r1.get_char sz with
    | .error e => .error e
    | .ok (p, content, r2) =>
      .ok ({ blank sz p content with mmapped_data := r2.addr }.setMMapped.unsetUpdatedGPU.setUpdatedPPAL,
           r2.IncRef)

/-- The constructor `GPUMirroredMemoryBlockBase(size_t, void*)`; `content` is
what the caller's memory holds. -/
def new_mem (sz mem : Nat) (content : Nat → Nat) : GPUMirroredMemoryBlockBase :=
  (blank sz mem content).unsetUpdatedGPU.setUpdatedPPAL

/-- The constructor `GPUMirroredMemoryBlockBase(size_t, const void*)`. -/
def new_const_mem (sz mem : Nat) (content : Nat → Nat) : GPUMirroredMemoryBlockBase :=
  (blank sz mem content).setConst.unsetUpdatedGPU.setUpdatedPPAL

/-- The constructor `GPUMirroredMemoryBlockBase(size_t)`. -/
def new_size (d : Driver) (pool : Pool) (sz : Nat) :
    Except Exit (GPUMirroredMemoryBlockBase × Pool) :=
  let b := (blank sz 0 d.hostJunk).setAllocated.unsetUpdatedGPU.setUpdatedPPAL
  match pool.pool_lists (poolKey sz) with
  | [] =>
    if !pool.use_mmap_allocation then
      .ok ({ b with mem_ppal := d.aligned_malloc, log := [Effect.aligned_malloc sz] }, pool)
    else
      if d.mmap = MAP_FAILED then .error Exit.mmapFailed
      else .ok ({ b.setMMapped with mem_ppal := d.mmap, log := [Effect.mmap sz] }, pool)
  | p :: rest =>
    .ok ({ b with mem_ppal := p },
         { pool with
           pool_lists := Function.update pool.pool_lists (poolKey sz) rest
           pool_size := (pool.pool_size + 2 ^ 64 - sz) % 2 ^ 64 })

/-- The host part of the destructor in the build with `USE_CUDA`. -/
def releaseHost (d : Driver) (pool : Pool) (b : GPUMirroredMemoryBlockBase) :
    Except Exit (Pool × List Effect) :=
  if b.pinned then
    if d.cudaFreeHost then .ok (pool, [Effect.cudaFreeHost b.mem_ppal])
    else .error Exit.copyHtoD
  else if b.isAllocated then
    if !b.isMMapped then
      if pool.pool_size < MAX_POOL_LIST_SIZE && MIN_MEMORY_TH_IN_POOL ≤ b.size then
        .ok ({ pool with
               pool_size := (pool.pool_size + b.size) % 2 ^ 64
               pool_lists := Function.update pool.pool_lists (poolKey b.size)
                 (b.mem_ppal :: pool.pool_lists (poolKey b.size)) }, [])
      else .ok (pool, [Effect.aligned_free b.mem_ppal])
    else .ok (pool, [Effect.munmap b.mem_ppal b.size])
  else .ok (pool, [])

/-- The destructor in the build with `USE_CUDA`: the new pool and the calls made. -/
def destructor (d : Driver) (pool : Pool) (b : GPUMirroredMemoryBlockBase) :
    Except Exit (Pool × List Effect) :=
  match releaseHost d pool b with
  | .error e => .error e
  | .ok (pool1, log1) =>
    let tail := if b.isMMapped && b.mmapped_data != 0
      then [Effect.DecRef b.mmapped_data] else []
    if b.mem_gpu ≠ 0 then
      if d.cuMemFree then .ok (pool1, log1 ++ [Effect.cuMemFree b.mem_gpu] ++ tail)
      else .error Exit.freeDevice
    else .ok (pool1, log1 ++ tail)

/-- The destructor in the build without `USE_CUDA`. -/
def destructor_host_only (pool : Pool) (b : GPUMirroredMemoryBlockBase) :
    Pool × List Effect :=
  let tail := if b.isMMapped && b.mmapped_data != 0
    then [Effect.DecRef b.mmapped_data] else []
  if b.isAllocated then
    if !b.isMMapped then
      if pool.pool_size < MAX_POOL_LIST_SIZE then
        ({ pool with
           pool_size := (pool.pool_size + b.size) % 2 ^ 64
           pool_lists := Function.update pool.pool_lists (poolKey b.size)
             (b.mem_ppal :: pool.pool_lists (poolKey b.size)) }, tail)
      else (pool, [Effect.aligned_free b.mem_ppal] ++ tail)
    else (pool, [Effect.munmap b.mem_ppal b.size] ++ tail)
  else (pool, tail)

/-! ## Serialisation and pinning -/

/-- The overload `toMMappedDataWriter(...) const`. -/
def toMMappedDataWriter_const (b : GPUMirroredMemoryBlockBase) (w : MMappedDataWriter) :
    Except Abort MMappedDataWriter :=
  if !b.getUpdatedPPAL then .error ⟨Exit.constSerialize, b⟩
  else .ok ((w.put_size_t b.size).put b.hostMem b.size)

/-- The overload `toMMappedDataWriter(...)`. -/
def toMMappedDataWriter (d : Driver) (b : GPUMirroredMemoryBlockBase)
    (w : MMappedDataWriter) : Except Abort (GPUMirroredMemoryBlockBase × MMappedDataWriter) :=
  match updateMemPPAL d b with
  | .error e => .error e
  | .ok b1 => .ok (b1, (w.put_size_t b1.size).put b1.hostMem b1.size)

/-- The overload `pinnedMemoryPageLock() const`. -/
def pinnedMemoryPageLock_const (b : GPUMirroredMemoryBlockBase) : Except Abort Unit :=
  .error ⟨Exit.pinFromConst, b⟩

/-- The overload `pinnedMemoryPageLock()`. -/
def pinnedMemoryPageLock (d : Driver) (b : GPUMirroredMemoryBlockBase) :
    Except Abort GPUMirroredMemoryBlockBase :=
  if b.isConst || b.isMMapped then .error ⟨Exit.pinForbidden, b⟩
  else
    let log1 := if b.mem_ppal ≠ 0 then b.log ++ [Effect.aligned_free b.mem_ppal] else b.log
    match d.cudaHostAlloc with
    | some p =>
      .ok { b with
            mem_ppal := p
            hostMem := d.hostJunk
            pinned := true
            log := log1 ++ [Effect.cudaHostAlloc b.size] }
    | none => .error ⟨Exit.copyHtoD, { b with log := log1 }⟩

/-- The member `getCudaFlag`. -/
def getCudaFlag (b : GPUMirroredMemoryBlockBase) : Bool := b.getUpdatedGPU

end GPUMirroredMemoryBlockBase

/-! ## The typed block -/

namespace GPUMirroredMemoryBlock

open GPUMirroredMemoryBlockBase

/-- The static member `fromMMappedDataReader`. -/
def fromMMappedDataReader (r : MMappedDataReader) :
    Except Exit (GPUMirroredMemoryBlock × MMappedDataReader) :=
  new_reader r

/-- The constructor `GPUMirroredMemoryBlock(unsigned int sz, T *mem)`,
`sizeofT` being `sizeof(T)`. -/
def new_mem (sizeofT sz mem : Nat) (content : Nat → Nat) : GPUMirroredMemoryBlock :=
  GPUMirroredMemoryBlockBase.new_mem (sz * sizeofT % 2 ^ 64) mem content

/-- The constructor `GPUMirroredMemoryBlock(unsigned int sz, const T *mem)`. -/
def new_const_mem (sizeofT sz mem : Nat) (content : Nat → Nat) : GPUMirroredMemoryBlock :=
  GPUMirroredMemoryBlockBase.new_const_mem (sz * sizeofT % 2 ^ 64) mem content

/-- The constructor `GPUMirroredMemoryBlock(unsigned int sz)`. -/
def new_size (sizeofT : Nat) (d : Driver) (pool : Pool) (sz : Nat) :
    Except Exit (GPUMirroredMemoryBlock × Pool) :=
  GPUMirroredMemoryBlockBase.new_size d pool (sz * sizeofT % 2 ^ 64)

/-- The member `getSize`, whose result is an `unsigned int`. -/
def getSize (sizeofT : Nat) (b : GPUMirroredMemoryBlock) : Nat :=
  b.size / sizeofT % 2 ^ 32

/-- The overload `getPPALForRead() const`. -/
def getPPALForRead_const (b : GPUMirroredMemoryBlock) : Except Abort Nat :=
  if !b.getUpdatedPPAL then .error ⟨Exit.updateFromNonConst, b⟩ else .ok b.mem_ppal

/-- The overload `getPPALForRead()`: the new state and the pointer returned. -/
def getPPALForRead (d : Driver) (b : GPUMirroredMemoryBlock) :
    Except Abort (GPUMirroredMemoryBlock × Nat) :=
  match updateMemPPAL d b with
  | .error e => .error e
  | .ok b1 => .ok (b1, b1.mem_ppal)

/-- The overload `getGPUForRead() const`. -/
def getGPUForRead_const (b : GPUMirroredMemoryBlock) : Except Abort Nat :=
  if !b.getUpdatedGPU then .error ⟨Exit.updateFromNonConst, b⟩ else .ok b.mem_gpu

/-- The overload `getGPUForRead()`. -/
def getGPUForRead (d : Driver) (b : GPUMirroredMemoryBlock) :
    Except Abort (GPUMirroredMemoryBlock × Nat) :=
  match updateMemGPU d b with
  | .error e => .error e
  | .ok b1 => .ok (b1, b1.mem_gpu)

/-- The member `getPPALForWrite`. -/
def getPPALForWrite (b : GPUMirroredMemoryBlock) :
    Except Abort (GPUMirroredMemoryBlock × Nat) :=
  if b.isConst then .error ⟨Exit.constWrite, b⟩
  else
    let b1 := b.setUpdatedPPAL.unsetUpdatedGPU
    .ok (b1, b1.mem_ppal)

/-- The member `getGPUForWrite`. -/
def getGPUForWrite (d : Driver) (b : GPUMirroredMemoryBlock) :
    Except Abort (GPUMirroredMemoryBlock × Nat) :=
  if b.isConst then .error ⟨Exit.constWrite, b⟩
  else
    match allocMemGPU d b with
    | .error e => .error e
    | .ok (b1, fresh) =>
      match (if fresh then copyPPALtoGPU d b1 else .ok b1) with
      | .error e => .error e
      | .ok b2 =>
        let b3 := b2.setUpdatedGPU.unsetUpdatedPPAL
        .ok (b3, b3.mem_gpu)

/-- The member `getPPALForReadAndWrite`. -/
def getPPALForReadAndWrite (d : Driver) (b : GPUMirroredMemoryBlock) :
    Except Abort (GPUMirroredMemoryBlock × Nat) :=
  if b.isConst then .error ⟨Exit.constWrite, b⟩
  else
    match updateMemPPAL d b with
    | .error e => .error e
    | .ok b1 =>
      let b2 := b1.unsetUpdatedGPU
      .ok (b2, b2.mem_ppal)

/-- The member `getGPUForReadAndWrite`. -/
def getGPUForReadAndWrite (d : Driver) (b : GPUMirroredMemoryBlock) :
    Except Abort (GPUMirroredMemoryBlock × Nat) :=
  if b.isConst then .error ⟨Exit.constWrite, b⟩
  else
    match updateMemGPU d b with
    | .error e => .error e
    | .ok b1 =>
      let b2 := b1.unsetUpdatedPPAL
      .ok (b2, b2.mem_gpu)

/-- The overload `T &get(unsigned int pos)`: the new state and the address of
the element referred to. -/
def get (sizeofT : Nat) (d : Driver) (b : GPUMirroredMemoryBlock) (pos : Nat) :
    Except Abort (GPUMirroredMemoryBlock × Nat) :=
  match updateMemPPAL d b with
  | .error e => .error e
  | .ok b1 =>
    let b2 := b1.unsetUpdatedGPU
    .ok (b2, b2.mem_ppal + pos * sizeofT)

/-- The overload `T &operator[](unsigned int pos)`. -/
def operator_index (sizeofT : Nat) (d : Driver) (b : GPUMirroredMemoryBlock) (pos : Nat) :
    Except Abort (GPUMirroredMemoryBlock × Nat) :=
  get sizeofT d b pos

/-- The overload `const T &get(unsigned int pos) const`. -/
def get_const (sizeofT : Nat) (b : GPUMirroredMemoryBlock) (pos : Nat) : Except Abort Nat :=
  match updateMemPPAL_const b with
  | .error e => .error e
  | .ok _ => .ok (b.mem_ppal + pos * sizeofT)

/-- The overload `const T &operator[](unsigned int pos) const`. -/
def operator_index_const (sizeofT : Nat) (b : GPUMirroredMemoryBlock) (pos : Nat) :
    Except Abort Nat :=
  get_const sizeofT b pos

end GPUMirroredMemoryBlock

/-! ## What a caller does with a mutable pointer -/

/-- The caller stores through a pointer returned by a mutable host accessor:
inside the region of `size` bytes the host memory takes the values of `v`
(a caller that leaves a byte alone passes its current value). -/
def storeHost (b : GPUMirroredMemoryBlock) (v : Nat → Nat) : GPUMirroredMemoryBlock :=
  { b with hostMem := memcpy b.size v b.hostMem }

/-- The caller (a kernel) stores through a pointer returned by a mutable device
accessor. -/
def storeDevice (b : GPUMirroredMemoryBlock) (v : Nat → Nat) : GPUMirroredMemoryBlock :=
  { b with deviceMem := memcpy b.size v b.deviceMem }

/-- The first `size` bytes of the host region. -/
def hostBytes (b : GPUMirroredMemoryBlock) : List Nat :=
  (List.range b.size).map b.hostMem

/-- The first `size` bytes of the device region. -/
def deviceBytes (b : GPUMirroredMemoryBlock) : List Nat :=
  (List.range b.size).map b.deviceMem


/-! ## Runs of a block -/

/-- One step in the life of a block: a member call that returns, or a store of
the caller through a pointer it holds. The `const` overloads return without
changing the block and so add no step. -/
inductive Step : GPUMirroredMemoryBlock → GPUMirroredMemoryBlock → Prop where
  | getPPALForRead (d : Driver) (b b1 : GPUMirroredMemoryBlock) (p : Nat) :
      GPUMirroredMemoryBlock.getPPALForRead d b = .ok (b1, p) → Step b b1
  | getPPALForWrite (b b1 : GPUMirroredMemoryBlock) (p : Nat) :
      GPUMirroredMemoryBlock.getPPALForWrite b = .ok (b1, p) → Step b b1
  | getPPALForReadAndWrite (d : Driver) (b b1 : GPUMirroredMemoryBlock) (p : Nat) :
      GPUMirroredMemoryBlock.getPPALForReadAndWrite d b = .ok (b1, p) → Step b b1
  | getGPUForRead (d : Driver) (b b1 : GPUMirroredMemoryBlock) (p : Nat) :
      GPUMirroredMemoryBlock.getGPUForRead d b = .ok (b1, p) → Step b b1
  | getGPUForWrite (d : Driver) (b b1 : GPUMirroredMemoryBlock) (p : Nat) :
      GPUMirroredMemoryBlock.getGPUForWrite d b = .ok (b1, p) → Step b b1
  | getGPUForReadAndWrite (d : Driver) (b b1 : GPUMirroredMemoryBlock) (p : Nat) :
      GPUMirroredMemoryBlock.getGPUForReadAndWrite d b = .ok (b1, p) → Step b b1
  | get (sizeofT : Nat) (d : Driver) (b b1 : GPUMirroredMemoryBlock) (pos p : Nat) :
      GPUMirroredMemoryBlock.get sizeofT d b pos = .ok (b1, p) → Step b b1
  | toMMappedDataWriter (d : Driver) (b b1 : GPUMirroredMemoryBlock)
      (w w1 : MMappedDataWriter) :
      GPUMirroredMemoryBlockBase.toMMappedDataWriter d b w = .ok (b1, w1) → Step b b1
  | pinnedMemoryPageLock (d : Driver) (b b1 : GPUMirroredMemoryBlock) :
      GPUMirroredMemoryBlockBase.pinnedMemoryPageLock d b = .ok b1 → Step b b1
  | storeHost (b : GPUMirroredMemoryBlock) (v : Nat → Nat) : Step b (storeHost b v)
  | storeDevice (b : GPUMirroredMemoryBlock) (v : Nat → Nat) : Step b (storeDevice b v)

/-- The blocks the four constructors produce: fresh allocation, mutable wrap,
const wrap, and from a reader of a persisted segment. -/
inductive Constructed : GPUMirroredMemoryBlock → Prop where
  | new_size (d : Driver) (pool : Pool) (sz : Nat) (b : GPUMirroredMemoryBlock) (pool1 : Pool) :
      GPUMirroredMemoryBlockBase.new_size d pool sz = .ok (b, pool1) → Constructed b
  | new_mem (sz mem : Nat) (content : Nat → Nat) :
      Constructed (GPUMirroredMemoryBlockBase.new_mem sz mem content)
  | new_const_mem (sz mem : Nat) (content : Nat → Nat) :
      Constructed (GPUMirroredMemoryBlockBase.new_const_mem sz mem content)
  | new_reader (r r1 : MMappedDataReader) (b : GPUMirroredMemoryBlock) :
      GPUMirroredMemoryBlockBase.new_reader r = .ok (b, r1) → Constructed b

/-- The states a block can be in: a constructed block, followed by any finite
number of steps. -/
inductive Reachable : GPUMirroredMemoryBlock → Prop where
  | init (b : GPUMirroredMemoryBlock) : Constructed b → Reachable b
  | step (b b1 : GPUMirroredMemoryBlock) : Reachable b → Step b b1 → Reachable b1

/-- The states a block reaches from a constructor through the six pointer
accessors alone, the caller changing bytes only through the pointer a write or
read-write accessor has just returned: after such an accessor the caller may
store any bytes `v` into the side the pointer belongs to, before the next
call. -/
inductive PointerRun : GPUMirroredMemoryBlock → Prop where
  | new_size (d : Driver) (pool : Pool) (sz : Nat) (b : GPUMirroredMemoryBlock) (pool1 : Pool) :
      GPUMirroredMemoryBlockBase.new_size d pool sz = .ok (b, pool1) → PointerRun b
  | new_mem (sz mem : Nat) (content : Nat → Nat) :
      PointerRun (GPUMirroredMemoryBlockBase.new_mem sz mem content)
  | new_const_mem (sz mem : Nat) (content : Nat → Nat) :
      PointerRun (GPUMirroredMemoryBlockBase.new_const_mem sz mem content)
  | new_reader (r r1 : MMappedDataReader) (b : GPUMirroredMemoryBlock) :
      GPUMirroredMemoryBlockBase.new_reader r = .ok (b, r1) → PointerRun b
  | getPPALForRead (d : Driver) (b b1 : GPUMirroredMemoryBlock) (p : Nat) :
      PointerRun b → GPUMirroredMemoryBlock.getPPALForRead d b = .ok (b1, p) → PointerRun b1
  | getGPUForRead (d : Driver) (b b1 : GPUMirroredMemoryBlock) (p : Nat) :
      PointerRun b → GPUMirroredMemoryBlock.getGPUForRead d b = .ok (b1, p) → PointerRun b1
  | getPPALForWrite (b b1 : GPUMirroredMemoryBlock) (p : Nat) (v : Nat → Nat) :
      PointerRun b → GPUMirroredMemoryBlock.getPPALForWrite b = .ok (b1, p) →
      PointerRun (storeHost b1 v)
  | getPPALForReadAndWrite (d : Driver) (b b1 : GPUMirroredMemoryBlock) (p : Nat)
      (v : Nat → Nat) :
      PointerRun b → GPUMirroredMemoryBlock.getPPALForReadAndWrite d b = .ok (b1, p) →
      PointerRun (storeHost b1 v)
  | getGPUForWrite (d : Driver) (b b1 : GPUMirroredMemoryBlock) (p : Nat) (v : Nat → Nat) :
      PointerRun b → GPUMirroredMemoryBlock.getGPUForWrite d b = .ok (b1, p) →
      PointerRun (storeDevice b1 v)
  | getGPUForReadAndWrite (d : Driver) (b b1 : GPUMirroredMemoryBlock) (p : Nat)
      (v : Nat → Nat) :
      PointerRun b → GPUMirroredMemoryBlock.getGPUForReadAndWrite d b = .ok (b1, p) →
      PointerRun (storeDevice b1 v)

/-- Where both sides are valid they hold the same bytes; the invariant behind C2. -/
def Coherent (b : GPUMirroredMemoryBlock) : Prop :=
  b.getUpdatedPPAL = true → b.getUpdatedGPU = true →
    ∀ i, i < b.size → b.hostMem i = b.deviceMem i


/-! ## The transition table of the specification, for comparison -/

/-- The specification's row for `readWriteHost`: "same as readHost then clear
`deviceValid=false`". -/
def spec_readWriteHost (d : Driver) (b : GPUMirroredMemoryBlock) :
    Except Abort (GPUMirroredMemoryBlock × Nat) :=
  match GPUMirroredMemoryBlock.getPPALForRead d b with
  | .error e => .error e
  | .ok (b1, p) => .ok (b1.unsetUpdatedGPU, p)

/-- The specification's row for `readWriteDevice`: "same as readDevice then
clear `hostValid=false`". -/
def spec_readWriteDevice (d : Driver) (b : GPUMirroredMemoryBlock) :
    Except Abort (GPUMirroredMemoryBlock × Nat) :=
  match GPUMirroredMemoryBlock.getGPUForRead d b with
  | .error e => .error e
  | .ok (b1, p) => .ok (b1.unsetUpdatedPPAL, p)

/-- The fields fixed by the constructor are the same in both blocks. -/
def SameBuild (b b1 : GPUMirroredMemoryBlock) : Prop :=
  b1.size = b.size ∧ b1.isConst = b.isConst ∧ b1.isAllocated = b.isAllocated ∧
    b1.isMMapped = b.isMMapped

/-! ## Sample values -/

/-- A driver all of whose calls succeed. -/
def okDriver : Driver :=
  { cuMemAlloc := some 4096, deviceJunk := fun _ => 0, cuMemcpyDtoH := true,
    cuMemcpyHtoD := true, cudaMemcpyAsync := true, cudaHostAlloc := some 8192,
    aligned_malloc := 1024, mmap := 2048, hostJunk := fun _ => 0,
    cudaFreeHost := true, cuMemFree := true }

/-- A mutable block wrapping four bytes of caller memory that hold 1, 2, 3, 4. -/
def sampleBlock : GPUMirroredMemoryBlock :=
  GPUMirroredMemoryBlockBase.new_mem 4 1000 (fun i => i + 1)

/-- A const block wrapping four bytes of caller memory that hold 1, 2, 3, 4. -/
def sampleConstBlock : GPUMirroredMemoryBlock :=
  GPUMirroredMemoryBlockBase.new_const_mem 4 1000 (fun i => i + 1)

/-- The block a call returned; the block at the exit when the call ended the process. -/
def blockOf : Except Abort (GPUMirroredMemoryBlock × Nat) → GPUMirroredMemoryBlock
  | .ok (b, _) => b
  | .error a => a.block

/-- The sample block after `getGPUForWrite`: device side valid, host side stale. -/
def sampleOnDevice : GPUMirroredMemoryBlock :=
  blockOf (GPUMirroredMemoryBlock.getGPUForWrite okDriver sampleBlock)

/-- The sample block after `getGPUForRead`: both sides valid. -/
def sampleMirrored : GPUMirroredMemoryBlock :=
  blockOf (GPUMirroredMemoryBlock.getGPUForRead okDriver sampleBlock)

/-- The sample const block after the non-const `getGPUForRead`: both sides valid. -/
def sampleConstMirrored : GPUMirroredMemoryBlock :=
  blockOf (GPUMirroredMemoryBlock.getGPUForRead okDriver sampleConstBlock)

/-! ## Runs of reads, and the end-to-end run of the specification -/

/-- A read accessor called through a non-const handle, with the driver
outcome of that call. -/
inductive ReadCall where
  | readHost (d : Driver)
  | readDevice (d : Driver)

/-- The block after one read accessor, `getPPALForRead` or `getGPUForRead`. -/
def ReadCall.run : ReadCall → GPUMirroredMemoryBlock → Except Abort GPUMirroredMemoryBlock
  | .readHost d, b =>
    match GPUMirroredMemoryBlock.getPPALForRead d b with
    | .error e => .error e
    | .ok (b1, _) => .ok b1
  | .readDevice d, b =>
    match GPUMirroredMemoryBlock.getGPUForRead d b with
    | .error e => .error e
    | .ok (b1, _) => .ok b1

/-- The block after a sequence of read accessors, first call first. -/
def runReads : List ReadCall → GPUMirroredMemoryBlock → Except Abort GPUMirroredMemoryBlock
  | [], b => .ok b
  | c :: cs, b =>
    match c.run b with
    | .error e => .error e
    | .ok b1 => runReads cs b1

/-- The byte sequence `v` as the content a caller stores (bytes past the end
of `v` read as 0). -/
def bytesOf (v : List Nat) : Nat → Nat := fun i => v.getD i 0

/-- Number of copies, in either direction, a log records. -/
def copyCount (log : List Effect) : Nat :=
  (copiesDtoH log).length + (copiesHtoD log).length

/-- The static members before any block exists, with heap allocation selected. -/
def freshPool : Pool :=
  { pool_size := 0, pool_lists := fun _ => [], use_mmap_allocation := false }

/-- What the end-to-end run of the specification observes. -/
structure RunReport where
  /-- Copies recorded by each of the five accessor calls, in order. -/
  copies : List Nat
  /-- Device bytes after `readDevice`. -/
  deviceAfterRead : List Nat
  /-- Host bytes after the first `readHost`. -/
  hostAfterRead : List Nat
deriving DecidableEq

/-- The run "create a 16-byte block; writeHost([1..16]); readDevice();
writeDevice([16..1]); readHost(); readHost()" with a driver whose calls
succeed; `none` if a call ends the process. -/
def endToEnd : Option RunReport :=
  match GPUMirroredMemoryBlockBase.new_size okDriver freshPool 16 with
  | .error _ => none
  | .ok (b0, _) =>
    match GPUMirroredMemoryBlock.getPPALForWrite b0 with
    | .error _ => none
    | .ok (b1, _) =>
      let b1s := storeHost b1 (fun i => i + 1)
      match GPUMirroredMemoryBlock.getGPUForRead okDriver b1s with
      | .error _ => none
      | .ok (b2, _) =>
        match GPUMirroredMemoryBlock.getGPUForWrite okDriver b2 with
        | .error _ => none
        | .ok (b3, _) =>
          let b3s := storeDevice b3 (fun i => 16 - i)
          match GPUMirroredMemoryBlock.getPPALForRead okDriver b3s with
          | .error _ => none
          | .ok (b4, _) =>
            match GPUMirroredMemoryBlock.getPPALForRead okDriver b4 with
            | .error _ => none
            | .ok (b5, _) =>
              some { copies := [copyCount b1.log - copyCount b0.log,
                                copyCount b2.log - copyCount b1s.log,
                                copyCount b3.log - copyCount b2.log,
                                copyCount b4.log - copyCount b3s.log,
                                copyCount b5.log - copyCount b4.log]
                     deviceAfterRead := deviceBytes b2
                     hostAfterRead := hostBytes b4 }

/-! ## Serialised blocks -/

/-- The logical contents of a block: the bytes of the side that is valid (the
host side when both are). -/
def logicalBytes (b : GPUMirroredMemoryBlock) : List Nat :=
  if b.getUpdatedPPAL then hostBytes b else deviceBytes b

/-- A writer into which a 3-byte prefix has been put already. -/
def sampleWriter : MMappedDataWriter := { data := [7, 7, 7] }

/-- A reader over the bytes `sampleWriter` holds after the sample block has
been serialised into it, followed by one more byte, positioned after the
3-byte prefix. -/
def sampleReader : MMappedDataReader :=
  { addr := 500, base := 9000,
    data := [7, 7, 7, 4, 0, 0, 0, 0, 0, 0, 0, 1, 2, 3, 4, 99],
    pos := 3, refs := 1 }

/-! ## Runs of the pool -/

/-- The running total the pool should hold: the sum over all keys `k` of `k`
times the number of buffers in the free list for `k`. -/
def pooledBytes (pool : Pool) : Nat :=
  ∑ k in Finset.range (2 ^ 32), k * (pool.pool_lists k).length

/-- The pool states reached from the state before any block exists by
constructions (`GPUMirroredMemoryBlockBase(size_t)`) and destructions of
blocks whose byte size is below `bound`, with the destructor of either build,
and by calls of `setUseMMapAllocation`. -/
inductive PoolRun (bound : Nat) : Pool → Prop where
  | init (v : Bool) :
      PoolRun bound { pool_size := 0, pool_lists := fun _ => [], use_mmap_allocation := v }
  | new_size (d : Driver) (pool pool1 : Pool) (sz : Nat) (b : GPUMirroredMemoryBlock) :
      PoolRun bound pool → sz < bound →
      GPUMirroredMemoryBlockBase.new_size d pool sz = .ok (b, pool1) → PoolRun bound pool1
  | destructor (d : Driver) (pool pool1 : Pool) (b : GPUMirroredMemoryBlock)
      (log : List Effect) :
      PoolRun bound pool → b.size < bound →
      GPUMirroredMemoryBlockBase.destructor d pool b = .ok (pool1, log) → PoolRun bound pool1
  | destructor_host_only (pool : Pool) (b : GPUMirroredMemoryBlock) :
      PoolRun bound pool → b.size < bound →
      PoolRun bound (GPUMirroredMemoryBlockBase.destructor_host_only pool b).1
  | setUseMMapAllocation (pool : Pool) (v : Bool) :
      PoolRun bound pool → PoolRun bound (pool.setUseMMapAllocation v)

/-- The block a constructor returned (a blank block if it ended the process). -/
def blockOfNew : Except Exit (GPUMirroredMemoryBlock × Pool) → GPUMirroredMemoryBlock
  | .ok (b, _) => b
  | .error _ => GPUMirroredMemoryBlockBase.blank 0 0 (fun _ => 0)

/-- The pool a destructor left (the given pool if it ended the process). -/
def poolOf (r : Except Exit (Pool × List Effect)) (pool : Pool) : Pool :=
  match r with
  | .ok (p, _) => p
  | .error _ => pool

/-- A heap-allocated block of 1024 bytes. -/
def kiloBlock : GPUMirroredMemoryBlock :=
  blockOfNew (GPUMirroredMemoryBlockBase.new_size okDriver freshPool 1024)

/-- A heap-allocated block of 8 bytes. -/
def tinyBlock : GPUMirroredMemoryBlock :=
  blockOfNew (GPUMirroredMemoryBlockBase.new_size okDriver freshPool 8)

/-- The pool after `tinyBlock` has been destroyed in the build without `USE_CUDA`. -/
def poolAfterTiny : Pool :=
  (GPUMirroredMemoryBlockBase.destructor_host_only freshPool tinyBlock).1

/-- A heap-allocated block of 300 megabytes. -/
def bigBlock : GPUMirroredMemoryBlock :=
  blockOfNew (GPUMirroredMemoryBlockBase.new_size okDriver freshPool (300 * 1024 * 1024))

/-- The pool after `bigBlock` has been destroyed. -/
def poolAfterBig : Pool :=
  poolOf (GPUMirroredMemoryBlockBase.destructor okDriver freshPool bigBlock) freshPool

/-- A block of 5 `float` elements (20 bytes). -/
def fiveFloats : GPUMirroredMemoryBlock :=
  blockOfNew (GPUMirroredMemoryBlock.new_size 4 okDriver freshPool 5)

/-- The pool after `fiveFloats` has been destroyed. -/
def poolAfterFiveFloats : Pool :=
  poolOf (GPUMirroredMemoryBlockBase.destructor okDriver freshPool fiveFloats) freshPool

/-- A block of `2^30 + 5` `float` elements (`2^32 + 20` bytes) constructed
after `fiveFloats` has been destroyed. -/
def manyFloats : GPUMirroredMemoryBlock :=
  blockOfNew (GPUMirroredMemoryBlock.new_size 4 okDriver poolAfterFiveFloats (2 ^ 30 + 5))

/-- The pool a constructor left (the given pool if it ended the process). -/
def poolOfNew (r : Except Exit (GPUMirroredMemoryBlock × Pool)) (pool : Pool) : Pool :=
  match r with
  | .ok (_, p) => p
  | .error _ => pool

/-- The block the reader constructor returned (a blank block if it ended the
process). -/
def blockOfReader :
    Except Exit (GPUMirroredMemoryBlock × MMappedDataReader) → GPUMirroredMemoryBlock
  | .ok (b, _) => b
  | .error _ => GPUMirroredMemoryBlockBase.blank 0 0 (fun _ => 0)

/-- The block constructed from `sampleReader`: 4 bytes at offset 11 of the
mapped region. -/
def segmentBlock : GPUMirroredMemoryBlock :=
  blockOfReader (GPUMirroredMemoryBlockBase.new_reader sampleReader)

/-- The reader `sampleReader` after that construction. -/
def sampleReaderAfter : MMappedDataReader :=
  { sampleReader with pos := 15, refs := 2 }

/-- A driver whose `cudaHostAlloc` fails. -/
def noPinDriver : Driver := { okDriver with cudaHostAlloc := none }

/-! ## Further notions used by the properties -/

/-- The state every constructor leaves: host side valid, device side stale, no
device storage, not pinned. -/
def InitialState (b : GPUMirroredMemoryBlock) : Prop :=
  b.getUpdatedPPAL = true ∧ b.getUpdatedGPU = false ∧ b.mem_gpu = 0 ∧ b.pinned = false

/-- The member `reinterpretAs<O>`: the same object seen with another element
type. -/
def GPUMirroredMemoryBlock.reinterpretAs (b : GPUMirroredMemoryBlock) :
    GPUMirroredMemoryBlock := b

/-- A reader over a segment that holds one block of `2^32` zero bytes: the
header `2^32` followed by the payload. -/
def hugeReader : MMappedDataReader :=
  { addr := 500, base := 9000,
    data := size_t_bytes (2 ^ 32) ++ List.replicate (2 ^ 32) 0,
    pos := 0, refs := 1 }

/-- The pool after `kiloBlock` has been destroyed. -/
def poolAfterKilo : Pool :=
  poolOf (GPUMirroredMemoryBlockBase.destructor okDriver freshPool kiloBlock) freshPool

/-- The block a member call returned; the block at the exit when the call
ended the process. -/
def stateOf : Except Abort GPUMirroredMemoryBlock → GPUMirroredMemoryBlock
  | .ok b => b
  | .error a => a.block

/-- The sample block after `pinnedMemoryPageLock`. -/
def samplePinned : GPUMirroredMemoryBlock :=
  stateOf (GPUMirroredMemoryBlockBase.pinnedMemoryPageLock okDriver sampleBlock)

/-- The pinned sample block after `getGPUForRead`. -/
def samplePinnedMirrored : GPUMirroredMemoryBlock :=
  blockOf (GPUMirroredMemoryBlock.getGPUForRead okDriver samplePinned)

/-- A transfer can be outstanding only on a pinned block. -/
def PendingOnlyIfPinned (b : GPUMirroredMemoryBlock) : Prop :=
  b.pending = true → b.pinned = true

/-- One step in the life of a block in which every call to the driver is
answered by `d`. -/
inductive StepBy (d : Driver) : GPUMirroredMemoryBlock → GPUMirroredMemoryBlock → Prop where
  | getPPALForRead (b b1 : GPUMirroredMemoryBlock) (p : Nat) :
      GPUMirroredMemoryBlock.getPPALForRead d b = .ok (b1, p) → StepBy d b b1
  | getPPALForWrite (b b1 : GPUMirroredMemoryBlock) (p : Nat) :
      GPUMirroredMemoryBlock.getPPALForWrite b = .ok (b1, p) → StepBy d b b1
  | getPPALForReadAndWrite (b b1 : GPUMirroredMemoryBlock) (p : Nat) :
      GPUMirroredMemoryBlock.getPPALForReadAndWrite d b = .ok (b1, p) → StepBy d b b1
  | getGPUForRead (b b1 : GPUMirroredMemoryBlock) (p : Nat) :
      GPUMirroredMemoryBlock.getGPUForRead d b = .ok (b1, p) → StepBy d b b1
  | getGPUForWrite (b b1 : GPUMirroredMemoryBlock) (p : Nat) :
      GPUMirroredMemoryBlock.getGPUForWrite d b = .ok (b1, p) → StepBy d b b1
  | getGPUForReadAndWrite (b b1 : GPUMirroredMemoryBlock) (p : Nat) :
      GPUMirroredMemoryBlock.getGPUForReadAndWrite d b = .ok (b1, p) → StepBy d b b1
  | get (sizeofT : Nat) (b b1 : GPUMirroredMemoryBlock) (pos p : Nat) :
      GPUMirroredMemoryBlock.get sizeofT d b pos = .ok (b1, p) → StepBy d b b1
  | toMMappedDataWriter (b b1 : GPUMirroredMemoryBlock) (w w1 : MMappedDataWriter) :
      GPUMirroredMemoryBlockBase.toMMappedDataWriter d b w = .ok (b1, w1) → StepBy d b b1
  | pinnedMemoryPageLock (b b1 : GPUMirroredMemoryBlock) :
      GPUMirroredMemoryBlockBase.pinnedMemoryPageLock d b = .ok b1 → StepBy d b b1
  | storeHost (b : GPUMirroredMemoryBlock) (v : Nat → Nat) : StepBy d b (storeHost b v)
  | storeDevice (b : GPUMirroredMemoryBlock) (v : Nat → Nat) : StepBy d b (storeDevice b v)

/-- A driver whose successful device allocation returns a non-zero handle. -/
def Driver.handleNonZero (d : Driver) : Prop := d.cuMemAlloc ≠ some 0

instance (d : Driver) : Decidable d.handleNonZero := by
  unfold Driver.handleNonZero; infer_instance

/-- The states a block can be in when every successful device allocation
returns a non-zero handle: a constructed block, followed by any finite number
of steps, each answered by a driver of that kind (not necessarily the same one
at every step). -/
inductive ReachableNonZero : GPUMirroredMemoryBlock → Prop where
  | init (b : GPUMirroredMemoryBlock) : Constructed b → ReachableNonZero b
  | step (d : Driver) (b b1 : GPUMirroredMemoryBlock) :
      ReachableNonZero b → d.handleNonZero → StepBy d b b1 → ReachableNonZero b1

/-! ## The older block of package `math`

`src/packages/basics/math/c_src/gpu_mirrored_memory_block.h`, built with
`USE_CUDA`. The class template `GPUMirroredMemoryBlock<T>` keeps an element
count; every byte count it passes to the driver is `sizeof(T)*size`, computed
in `size_t`. The parameter `sizeofT` stands for `sizeof(T)`. -/

namespace Math

/-- The fields of the older `GPUMirroredMemoryBlock<T>`, the contents of the
two regions it points to, and the instrumentation. -/
structure GPUMirroredMemoryBlock where
  /-- Element count, `unsigned int size`. -/
  size : Nat
  /-- Host pointer `mem_ppal`. -/
  mem_ppal : Nat
  /-- Device handle `mem_gpu`; `0` when no device storage is allocated. -/
  mem_gpu : Nat
  /-- Bit 0 host valid, bit 1 device valid. -/
  updated : Nat
  pinned : Bool
  /-- Contents of the region `mem_ppal` points to, byte by byte. -/
  hostMem : Nat → Nat
  /-- Contents of the region `mem_gpu` refers to, byte by byte. -/
  deviceMem : Nat → Nat
  /-- An asynchronous transfer has been issued and not yet synchronised. -/
  pending : Bool
  /-- The calls made so far, oldest first. -/
  log : List Effect

/-- What is left when the process ends inside a member function: the exit, and
the block as it is at that moment. -/
structure Abort where
  exit : Exit
  block : GPUMirroredMemoryBlock

/-- The standard `assert(mem_gpu != 0)` of `updateMemPPAL`, taken to be
enabled: it aborts the process (signal 6, exit status 134) when its condition
is false. -/
def assertFailed : Exit :=
  { code := 134, msg := "assert(mem_gpu != 0)" }

namespace GPUMirroredMemoryBlock

/-- The byte count `sizeof(T)*size`. -/
def bytes (sizeofT : Nat) (b : GPUMirroredMemoryBlock) : Nat :=
  sizeofT * b.size % 2 ^ 64

def getUpdatedPPAL (b : GPUMirroredMemoryBlock) : Bool :=
  b.updated &&& 0x01 != 0

def getUpdatedGPU (b : GPUMirroredMemoryBlock) : Bool :=
  b.updated &&& 0x02 != 0

def unsetUpdatedPPAL (b : GPUMirroredMemoryBlock) : GPUMirroredMemoryBlock :=
  { b with updated := b.updated &&& 0xFE }

def unsetUpdatedGPU (b : GPUMirroredMemoryBlock) : GPUMirroredMemoryBlock :=
  { b with updated := b.updated &&& 0xFD }

def setUpdatedPPAL (b : GPUMirroredMemoryBlock) : GPUMirroredMemoryBlock :=
  { b with updated := b.updated ||| 0x01 }

def setUpdatedGPU (b : GPUMirroredMemoryBlock) : GPUMirroredMemoryBlock :=
  { b with updated := b.updated ||| 0x02 }

/-- The member `updateMemPPAL`. -/
def updateMemPPAL (sizeofT : Nat) (d : Driver) (b : GPUMirroredMemoryBlock) :
    Except Abort GPUMirroredMemoryBlock :=
  if !b.getUpdatedPPAL then
    let b1 := b.setUpdatedPPAL
    if b1.mem_gpu = 0 then .error ⟨assertFailed, b1⟩
    else if !b1.pinned then
      if d.cuMemcpyDtoH then
        .ok { b1 with
              hostMem := memcpy (b1.bytes sizeofT) b1.deviceMem b1.hostMem
              log := b1.log ++ [Effect.cuMemcpyDtoH (b1.bytes sizeofT)] }
      else .error ⟨Exit.copyDtoH, b1⟩
    else
      if d.cudaMemcpyAsync then
        .ok { b1 with
              hostMem := memcpy (b1.bytes sizeofT) b1.deviceMem b1.hostMem
              pending := false
              log := b1.log ++ [Effect.cudaMemcpyAsyncDtoH (b1.bytes sizeofT),
                                Effect.cudaThreadSynchronize] }
      else .error ⟨Exit.copyDtoHAsync, b1⟩
  else .ok b

/-- The member `copyPPALtoGPU`. -/
def copyPPALtoGPU (sizeofT : Nat) (d : Driver) (b : GPUMirroredMemoryBlock) :
    Except Abort GPUMirroredMemoryBlock :=
  if !b.pinned then
    if d.cuMemcpyHtoD then
      .ok { b with
            deviceMem := memcpy (b.bytes sizeofT) b.hostMem b.deviceMem
            log := b.log ++ [Effect.cuMemcpyHtoD (b.bytes sizeofT)] }
    else .error ⟨Exit.copyHtoD, b⟩
  else
    if d.cudaMemcpyAsync then
      .ok { b with
            deviceMem := memcpy (b.bytes sizeofT) b.hostMem b.deviceMem
            pending := true
            log := b.log ++ [Effect.cudaThreadSynchronize,
                              Effect.cudaMemcpyAsyncHtoD (b.bytes sizeofT)] }
    else .error ⟨Exit.copyHtoD,
      { b with pending := false, log := b.log ++ [Effect.cudaThreadSynchronize] }⟩

/-- The member `allocMemGPU`; the boolean is the value it returns. -/
def allocMemGPU (sizeofT : Nat) (d : Driver) (b : GPUMirroredMemoryBlock) :
    Except Abort (GPUMirroredMemoryBlock × Bool) :=
  if b.mem_gpu = 0 then
    match d.cuMemAlloc with
    | some h =>
      .ok ({ b with
             mem_gpu := h
             deviceMem := d.deviceJunk
             log := b.log ++ [Effect.cuMemAlloc (b.bytes sizeofT)] }, true)
    | none => .error ⟨Exit.allocDevice, b⟩
  else .ok (b, false)

/-- The member `updateMemGPU`. -/
def updateMemGPU (sizeofT : Nat) (d : Driver) (b : GPUMirroredMemoryBlock) :
    Except Abort GPUMirroredMemoryBlock :=
  if !b.getUpdatedGPU then
    match allocMemGPU sizeofT d b with
    | .error e => .error e
    | .ok (b1, _) => copyPPALtoGPU sizeofT d b1.setUpdatedGPU
  else .ok b

/-- The constructor `GPUMirroredMemoryBlock(unsigned int sz)`: the host region
comes from `aligned_malloc<T>(sz)` and every element is set to `T()`. -/
def new_size (sizeofT : Nat) (d : Driver) (sz : Nat) : GPUMirroredMemoryBlock :=
  let b0 : GPUMirroredMemoryBlock :=
    { size := sz % 2 ^ 32, mem_ppal := 0, mem_gpu := 0, updated := 0, pinned := false,
      hostMem := d.hostJunk, deviceMem := d.deviceJunk, pending := false, log := [] }
  let b1 := b0.unsetUpdatedGPU.setUpdatedPPAL
  { b1 with
    mem_ppal := d.aligned_malloc
    hostMem := memcpy (b1.bytes sizeofT) (fun _ => 0) b1.hostMem
    log := [Effect.aligned_malloc (b1.bytes sizeofT)] }

/-- The member `getPPALForRead`. -/
def getPPALForRead (sizeofT : Nat) (d : Driver) (b : GPUMirroredMemoryBlock) :
    Except Abort (GPUMirroredMemoryBlock × Nat) :=
  match updateMemPPAL sizeofT d b with
  | .error e => .error e
  | .ok b1 => .ok (b1, b1.mem_ppal)

/-- The member `getGPUForRead`. -/
def getGPUForRead (sizeofT : Nat) (d : Driver) (b : GPUMirroredMemoryBlock) :
    Except Abort (GPUMirroredMemoryBlock × Nat) :=
  match updateMemGPU sizeofT d b with
  | .error e => .error e
  | .ok b1 => .ok (b1, b1.mem_gpu)

/-- The member `getPPALForWrite`. -/
def getPPALForWrite (b : GPUMirroredMemoryBlock) :
    Except Abort (GPUMirroredMemoryBlock × Nat) :=
  let b1 := b.setUpdatedPPAL.unsetUpdatedGPU
  .ok (b1, b1.mem_ppal)

/-- The member `getGPUForWrite`. -/
def getGPUForWrite (sizeofT : Nat) (d : Driver) (b : GPUMirroredMemoryBlock) :
    Except Abort (GPUMirroredMemoryBlock × Nat) :=
  match allocMemGPU sizeofT d b with
  | .error e => .error e
  | .ok (b1, fresh) =>
    match (if fresh then copyPPALtoGPU sizeofT d b1 else .ok b1) with
    | .error e => .error e
    | .ok b2 =>
      let b3 := b2.setUpdatedGPU.unsetUpdatedPPAL
      .ok (b3, b3.mem_gpu)

/-- The member `getPPALForReadAndWrite`. -/
def getPPALForReadAndWrite (sizeofT : Nat) (d : Driver) (b : GPUMirroredMemoryBlock) :
    Except Abort (GPUMirroredMemoryBlock × Nat) :=
  match updateMemPPAL sizeofT d b with
  | .error e => .error e
  | .ok b1 =>
    let b2 := b1.unsetUpdatedGPU
    .ok (b2, b2.mem_ppal)

/-- The member `getGPUForReadAndWrite`. -/
def getGPUForReadAndWrite (sizeofT : Nat) (d : Driver) (b : GPUMirroredMemoryBlock) :
    Except Abort (GPUMirroredMemoryBlock × Nat) :=
  match updateMemGPU sizeofT d b with
  | .error e => .error e
  | .ok b1 =>
    let b2 := b1.unsetUpdatedPPAL
    .ok (b2, b2.mem_gpu)

end GPUMirroredMemoryBlock

end Math

/-! ## Comparing the two versions -/

/-- What the two versions are compared on: the two validity flags, whether
device storage is allocated, and the byte counts of the copies made so far in
each direction. The byte count of the newer block is that of the older one,
`sizeof(T)` times its element count; both are pinned or both are not; the newer
block is not const. -/
def Agree (sizeofT : Nat) (o : Math.GPUMirroredMemoryBlock) (b : GPUMirroredMemoryBlock) :
    Prop :=
  b.size = o.bytes sizeofT ∧ b.pinned = o.pinned ∧ b.isConst = false ∧
  b.getUpdatedPPAL = o.getUpdatedPPAL ∧ b.getUpdatedGPU = o.getUpdatedGPU ∧
  (b.mem_gpu = 0 ↔ o.mem_gpu = 0) ∧
  copiesHtoD b.log = copiesHtoD o.log ∧ copiesDtoH b.log = copiesDtoH o.log

/-- Two calls end alike: both return, in states that agree, or both end the
process with the same exit status, in states that agree. -/
def AgreeOutcome (sizeofT : Nat) :
    Except Math.Abort (Math.GPUMirroredMemoryBlock × Nat) →
    Except Abort (GPUMirroredMemoryBlock × Nat) → Prop
  | .ok (o1, _), .ok (b1, _) => Agree sizeofT o1 b1
  | .error a, .error a1 => a.exit.code = a1.exit.code ∧ Agree sizeofT a.block a1.block
  | _, _ => False

/-- Two internal calls end alike: both return, in states that agree, or both
end the process with the same exit status, in states that agree. -/
def AgreeState (sizeofT : Nat) :
    Except Math.Abort Math.GPUMirroredMemoryBlock →
    Except Abort GPUMirroredMemoryBlockBase → Prop
  | .ok o1, .ok b1 => Agree sizeofT o1 b1
  | .error a, .error a1 => a.exit.code = a1.exit.code ∧ Agree sizeofT a.block a1.block
  | _, _ => False

/-- An older block of four floats, as its constructor leaves it. -/
def mathSample : Math.GPUMirroredMemoryBlock :=
  Math.GPUMirroredMemoryBlock.new_size 4 okDriver 4

/-- A newer block of four floats, as its constructor leaves it. -/
def mathcoreSample : GPUMirroredMemoryBlock :=
  blockOfNew (GPUMirroredMemoryBlock.new_size 4 okDriver freshPool 4)

/-! ## Pointers kept across calls -/

/-- The states a block reaches from a constructor through the six pointer
accessors when the caller keeps the pointers it is given: `host` says that a
write or read-write accessor has returned it the host pointer, `device` that
one has returned it the device pointer, and at any later moment it may store
through a pointer it holds. Within these runs `mem_ppal` never changes and
`mem_gpu` changes only when it is null, so a pointer once returned keeps
referring to its region. -/
inductive RetainedPointerRun : GPUMirroredMemoryBlock → Bool → Bool → Prop where
  | init (b : GPUMirroredMemoryBlock) : Constructed b → RetainedPointerRun b false false
  | getPPALForRead (d : Driver) (b b1 : GPUMirroredMemoryBlock) (p : Nat) (host device : Bool) :
      RetainedPointerRun b host device →
      GPUMirroredMemoryBlock.getPPALForRead d b = .ok (b1, p) →
      RetainedPointerRun b1 host device
  | getGPUForRead (d : Driver) (b b1 : GPUMirroredMemoryBlock) (p : Nat) (host device : Bool) :
      RetainedPointerRun b host device →
      GPUMirroredMemoryBlock.getGPUForRead d b = .ok (b1, p) →
      RetainedPointerRun b1 host device
  | getPPALForWrite (b b1 : GPUMirroredMemoryBlock) (p : Nat) (host device : Bool) :
      RetainedPointerRun b host device →
      GPUMirroredMemoryBlock.getPPALForWrite b = .ok (b1, p) →
      RetainedPointerRun b1 true device
  | getPPALForReadAndWrite (d : Driver) (b b1 : GPUMirroredMemoryBlock) (p : Nat)
      (host device : Bool) :
      RetainedPointerRun b host device →
      GPUMirroredMemoryBlock.getPPALForReadAndWrite d b = .ok (b1, p) →
      RetainedPointerRun b1 true device
  | getGPUForWrite (d : Driver) (b b1 : GPUMirroredMemoryBlock) (p : Nat) (host device : Bool) :
      RetainedPointerRun b host device →
      GPUMirroredMemoryBlock.getGPUForWrite d b = .ok (b1, p) →
      RetainedPointerRun b1 host true
  | getGPUForReadAndWrite (d : Driver) (b b1 : GPUMirroredMemoryBlock) (p : Nat)
      (host device : Bool) :
      RetainedPointerRun b host device →
      GPUMirroredMemoryBlock.getGPUForReadAndWrite d b = .ok (b1, p) →
      RetainedPointerRun b1 host true
  | storeHost (b : GPUMirroredMemoryBlock) (v : Nat → Nat) (device : Bool) :
      RetainedPointerRun b true device → RetainedPointerRun (storeHost b v) true device
  | storeDevice (b : GPUMirroredMemoryBlock) (v : Nat → Nat) (host : Bool) :
      RetainedPointerRun b host true → RetainedPointerRun (storeDevice b v) host true

/-- The sample block after `getPPALForWrite`: the caller holds the host
pointer 1000. -/
def sampleHostWritten : GPUMirroredMemoryBlock :=
  blockOf (GPUMirroredMemoryBlock.getPPALForWrite sampleBlock)

/-- The block after a following `getGPUForRead`: the host bytes have been
copied to the device and both sides are valid. -/
def sampleHostWrittenMirrored : GPUMirroredMemoryBlock :=
  blockOf (GPUMirroredMemoryBlock.getGPUForRead okDriver sampleHostWritten)

/-- The block after the caller has then stored 9, 9, 9, 9 through the host
pointer it still holds. -/
def sampleLateStore : GPUMirroredMemoryBlock :=
  storeHost sampleHostWrittenMirrored (fun _ => 9)

/-! ## The status bits, one at a time -/

theorem land_two_pow_bne (s k : Nat) : (s &&& 2 ^ k != 0) = s.testBit k := by
  rw [Nat.and_two_pow]
  cases s.testBit k <;> simp

theorem flag_bit0 (s : Nat) : (s &&& 1 != 0) = s.testBit 0 := by
  simpa using land_two_pow_bne s 0

theorem flag_bit1 (s : Nat) : (s &&& 2 != 0) = s.testBit 1 := by
  simpa using land_two_pow_bne s 1

theorem flag_bit2 (s : Nat) : (s &&& 4 != 0) = s.testBit 2 := by
  have h := land_two_pow_bne s 2
  norm_num at h; exact h

theorem flag_bit3 (s : Nat) : (s &&& 8 != 0) = s.testBit 3 := by
  have h := land_two_pow_bne s 3
  norm_num at h; exact h

theorem flag_bit4 (s : Nat) : (s &&& 16 != 0) = s.testBit 4 := by
  have h := land_two_pow_bne s 4
  norm_num at h; exact h

namespace GPUMirroredMemoryBlockBase

@[simp]
theorem isConst_setConst (b : GPUMirroredMemoryBlockBase) :
    b.setConst.isConst = true := by
  simp only [isConst, setConst, PPAL_MASK, GPU_MASK, CONST_MASK, ALLOC_MASK, MMAP_MASK, notMask,
    flag_bit0, flag_bit1, flag_bit2, flag_bit3, flag_bit4, Nat.testBit_or, Nat.testBit_and,
    Nat.testBit_xor]
  have h1 : Nat.testBit 4 2 = true := by decide
  simp [*]

@[simp]
theorem isConst_setAllocated (b : GPUMirroredMemoryBlockBase) :
    b.setAllocated.isConst = b.isConst := by
  simp only [isConst, setAllocated, PPAL_MASK, GPU_MASK, CONST_MASK, ALLOC_MASK, MMAP_MASK, notMask,
    flag_bit0, flag_bit1, flag_bit2, flag_bit3, flag_bit4, Nat.testBit_or, Nat.testBit_and,
    Nat.testBit_xor]
  have h1 : Nat.testBit 8 2 = false := by decide
  simp [*]

@[simp]
theorem isConst_setMMapped (b : GPUMirroredMemoryBlockBase) :
    b.setMMapped.isConst = b.isConst := by
  simp only [isConst, setMMapped, PPAL_MASK, GPU_MASK, CONST_MASK, ALLOC_MASK, MMAP_MASK, notMask,
    flag_bit0, flag_bit1, flag_bit2, flag_bit3, flag_bit4, Nat.testBit_or, Nat.testBit_and,
    Nat.testBit_xor]
  have h1 : Nat.testBit 16 2 = false := by decide
  simp [*]

@[simp]
theorem isConst_setUpdatedPPAL (b : GPUMirroredMemoryBlockBase) :
    b.setUpdatedPPAL.isConst = b.isConst := by
  simp only [isConst, setUpdatedPPAL, PPAL_MASK, GPU_MASK, CONST_MASK, ALLOC_MASK, MMAP_MASK, notMask,
    flag_bit0, flag_bit1, flag_bit2, flag_bit3, flag_bit4, Nat.testBit_or, Nat.testBit_and,
    Nat.testBit_xor]
  have h1 : Nat.testBit 1 2 = false := by decide
  simp [*]

@[simp]
theorem isConst_setUpdatedGPU (b : GPUMirroredMemoryBlockBase) :
    b.setUpdatedGPU.isConst = b.isConst := by
  simp only [isConst, setUpdatedGPU, PPAL_MASK, GPU_MASK, CONST_MASK, ALLOC_MASK, MMAP_MASK, notMask,
    flag_bit0, flag_bit1, flag_bit2, flag_bit3, flag_bit4, Nat.testBit_or, Nat.testBit_and,
    Nat.testBit_xor]
  have h1 : Nat.testBit 2 2 = false := by decide
  simp [*]

@[simp]
theorem isConst_unsetUpdatedPPAL (b : GPUMirroredMemoryBlockBase) :
    b.unsetUpdatedPPAL.isConst = b.isConst := by
  simp only [isConst, unsetUpdatedPPAL, PPAL_MASK, GPU_MASK, CONST_MASK, ALLOC_MASK, MMAP_MASK, notMask,
    flag_bit0, flag_bit1, flag_bit2, flag_bit3, flag_bit4, Nat.testBit_or, Nat.testBit_and,
    Nat.testBit_xor]
  have h1 : Nat.testBit 1 2 = false := by decide
  have h2 : Nat.testBit 255 2 = true := by decide
  simp [*]

@[simp]
theorem isConst_unsetUpdatedGPU (b : GPUMirroredMemoryBlockBase) :
    b.unsetUpdatedGPU.isConst = b.isConst := by
  simp only [isConst, unsetUpdatedGPU, PPAL_MASK, GPU_MASK, CONST_MASK, ALLOC_MASK, MMAP_MASK, notMask,
    flag_bit0, flag_bit1, flag_bit2, flag_bit3, flag_bit4, Nat.testBit_or, Nat.testBit_and,
    Nat.testBit_xor]
  have h1 : Nat.testBit 2 2 = false := by decide
  have h2 : Nat.testBit 255 2 = true := by decide
  simp [*]

@[simp]
theorem isAllocated_setConst (b : GPUMirroredMemoryBlockBase) :
    b.setConst.isAllocated = b.isAllocated := by
  simp only [isAllocated, setConst, PPAL_MASK, GPU_MASK, CONST_MASK, ALLOC_MASK, MMAP_MASK, notMask,
    flag_bit0, flag_bit1, flag_bit2, flag_bit3, flag_bit4, Nat.testBit_or, Nat.testBit_and,
    Nat.testBit_xor]
  have h1 : Nat.testBit 4 3 = false := by decide
  simp [*]

@[simp]
theorem isAllocated_setAllocated (b : GPUMirroredMemoryBlockBase) :
    b.setAllocated.isAllocated = true := by
  simp only [isAllocated, setAllocated, PPAL_MASK, GPU_MASK, CONST_MASK, ALLOC_MASK, MMAP_MASK, notMask,
    flag_bit0, flag_bit1, flag_bit2, flag_bit3, flag_bit4, Nat.testBit_or, Nat.testBit_and,
    Nat.testBit_xor]
  have h1 : Nat.testBit 8 3 = true := by decide
  simp [*]

@[simp]
theorem isAllocated_setMMapped (b : GPUMirroredMemoryBlockBase) :
    b.setMMapped.isAllocated = b.isAllocated := by
  simp only [isAllocated, setMMapped, PPAL_MASK, GPU_MASK, CONST_MASK, ALLOC_MASK, MMAP_MASK, notMask,
    flag_bit0, flag_bit1, flag_bit2, flag_bit3, flag_bit4, Nat.testBit_or, Nat.testBit_and,
    Nat.testBit_xor]
  have h1 : Nat.testBit 16 3 = false := by decide
  simp [*]

@[simp]
theorem isAllocated_setUpdatedPPAL (b : GPUMirroredMemoryBlockBase) :
    b.setUpdatedPPAL.isAllocated = b.isAllocated := by
  simp only [isAllocated, setUpdatedPPAL, PPAL_MASK, GPU_MASK, CONST_MASK, ALLOC_MASK, MMAP_MASK, notMask,
    flag_bit0, flag_bit1, flag_bit2, flag_bit3, flag_bit4, Nat.testBit_or, Nat.testBit_and,
    Nat.testBit_xor]
  have h1 : Nat.testBit 1 3 = false := by decide
  simp [*]

@[simp]
theorem isAllocated_setUpdatedGPU (b : GPUMirroredMemoryBlockBase) :
    b.setUpdatedGPU.isAllocated = b.isAllocated := by
  simp only [isAllocated, setUpdatedGPU, PPAL_MASK, GPU_MASK, CONST_MASK, ALLOC_MASK, MMAP_MASK, notMask,
    flag_bit0, flag_bit1, flag_bit2, flag_bit3, flag_bit4, Nat.testBit_or, Nat.testBit_and,
    Nat.testBit_xor]
  have h1 : Nat.testBit 2 3 = false := by decide
  simp [*]

@[simp]
theorem isAllocated_unsetUpdatedPPAL (b : GPUMirroredMemoryBlockBase) :
    b.unsetUpdatedPPAL.isAllocated = b.isAllocated := by
  simp only [isAllocated, unsetUpdatedPPAL, PPAL_MASK, GPU_MASK, CONST_MASK, ALLOC_MASK, MMAP_MASK, notMask,
    flag_bit0, flag_bit1, flag_bit2, flag_bit3, flag_bit4, Nat.testBit_or, Nat.testBit_and,
    Nat.testBit_xor]
  have h1 : Nat.testBit 1 3 = false := by decide
  have h2 : Nat.testBit 255 3 = true := by decide
  simp [*]

@[simp]
theorem isAllocated_unsetUpdatedGPU (b : GPUMirroredMemoryBlockBase) :
    b.unsetUpdatedGPU.isAllocated = b.isAllocated := by
  simp only [isAllocated, unsetUpdatedGPU, PPAL_MASK, GPU_MASK, CONST_MASK, ALLOC_MASK, MMAP_MASK, notMask,
    flag_bit0, flag_bit1, flag_bit2, flag_bit3, flag_bit4, Nat.testBit_or, Nat.testBit_and,
    Nat.testBit_xor]
  have h1 : Nat.testBit 2 3 = false := by decide
  have h2 : Nat.testBit 255 3 = true := by decide
  simp [*]

@[simp]
theorem isMMapped_setConst (b : GPUMirroredMemoryBlockBase) :
    b.setConst.isMMapped = b.isMMapped := by
  simp only [isMMapped, setConst, PPAL_MASK, GPU_MASK, CONST_MASK, ALLOC_MASK, MMAP_MASK, notMask,
    flag_bit0, flag_bit1, flag_bit2, flag_bit3, flag_bit4, Nat.testBit_or, Nat.testBit_and,
    Nat.testBit_xor]
  have h1 : Nat.testBit 4 4 = false := by decide
  simp [*]

@[simp]
theorem isMMapped_setAllocated (b : GPUMirroredMemoryBlockBase) :
    b.setAllocated.isMMapped = b.isMMapped := by
  simp only [isMMapped, setAllocated, PPAL_MASK, GPU_MASK, CONST_MASK, ALLOC_MASK, MMAP_MASK, notMask,
    flag_bit0, flag_bit1, flag_bit2, flag_bit3, flag_bit4, Nat.testBit_or, Nat.testBit_and,
    Nat.testBit_xor]
  have h1 : Nat.testBit 8 4 = false := by decide
  simp [*]

@[simp]
theorem isMMapped_setMMapped (b : GPUMirroredMemoryBlockBase) :
    b.setMMapped.isMMapped = true := by
  simp only [isMMapped, setMMapped, PPAL_MASK, GPU_MASK, CONST_MASK, ALLOC_MASK, MMAP_MASK, notMask,
    flag_bit0, flag_bit1, flag_bit2, flag_bit3, flag_bit4, Nat.testBit_or, Nat.testBit_and,
    Nat.testBit_xor]
  have h1 : Nat.testBit 16 4 = true := by decide
  simp [*]

@[simp]
theorem isMMapped_setUpdatedPPAL (b : GPUMirroredMemoryBlockBase) :
    b.setUpdatedPPAL.isMMapped = b.isMMapped := by
  simp only [isMMapped, setUpdatedPPAL, PPAL_MASK, GPU_MASK, CONST_MASK, ALLOC_MASK, MMAP_MASK, notMask,
    flag_bit0, flag_bit1, flag_bit2, flag_bit3, flag_bit4, Nat.testBit_or, Nat.testBit_and,
    Nat.testBit_xor]
  have h1 : Nat.testBit 1 4 = false := by decide
  simp [*]

@[simp]
theorem isMMapped_setUpdatedGPU (b : GPUMirroredMemoryBlockBase) :
    b.setUpdatedGPU.isMMapped = b.isMMapped := by
  simp only [isMMapped, setUpdatedGPU, PPAL_MASK, GPU_MASK, CONST_MASK, ALLOC_MASK, MMAP_MASK, notMask,
    flag_bit0, flag_bit1, flag_bit2, flag_bit3, flag_bit4, Nat.testBit_or, Nat.testBit_and,
    Nat.testBit_xor]
  have h1 : Nat.testBit 2 4 = false := by decide
  simp [*]

@[simp]
theorem isMMapped_unsetUpdatedPPAL (b : GPUMirroredMemoryBlockBase) :
    b.unsetUpdatedPPAL.isMMapped = b.isMMapped := by
  simp only [isMMapped, unsetUpdatedPPAL, PPAL_MASK, GPU_MASK, CONST_MASK, ALLOC_MASK, MMAP_MASK, notMask,
    flag_bit0, flag_bit1, flag_bit2, flag_bit3, flag_bit4, Nat.testBit_or, Nat.testBit_and,
    Nat.testBit_xor]
  have h1 : Nat.testBit 1 4 = false := by decide
  have h2 : Nat.testBit 255 4 = true := by decide
  simp [*]

@[simp]
theorem isMMapped_unsetUpdatedGPU (b : GPUMirroredMemoryBlockBase) :
    b.unsetUpdatedGPU.isMMapped = b.isMMapped := by
  simp only [isMMapped, unsetUpdatedGPU, PPAL_MASK, GPU_MASK, CONST_MASK, ALLOC_MASK, MMAP_MASK, notMask,
    flag_bit0, flag_bit1, flag_bit2, flag_bit3, flag_bit4, Nat.testBit_or, Nat.testBit_and,
    Nat.testBit_xor]
  have h1 : Nat.testBit 2 4 = false := by decide
  have h2 : Nat.testBit 255 4 = true := by decide
  simp [*]

@[simp]
theorem getUpdatedPPAL_setConst (b : GPUMirroredMemoryBlockBase) :
    b.setConst.getUpdatedPPAL = b.getUpdatedPPAL := by
  simp only [getUpdatedPPAL, setConst, PPAL_MASK, GPU_MASK, CONST_MASK, ALLOC_MASK, MMAP_MASK, notMask,
    flag_bit0, flag_bit1, flag_bit2, flag_bit3, flag_bit4, Nat.testBit_or, Nat.testBit_and,
    Nat.testBit_xor]
  have h1 : Nat.testBit 4 0 = false := by decide
  simp [*]

@[simp]
theorem getUpdatedPPAL_setAllocated (b : GPUMirroredMemoryBlockBase) :
    b.setAllocated.getUpdatedPPAL = b.getUpdatedPPAL := by
  simp only [getUpdatedPPAL, setAllocated, PPAL_MASK, GPU_MASK, CONST_MASK, ALLOC_MASK, MMAP_MASK, notMask,
    flag_bit0, flag_bit1, flag_bit2, flag_bit3, flag_bit4, Nat.testBit_or, Nat.testBit_and,
    Nat.testBit_xor]
  have h1 : Nat.testBit 8 0 = false := by decide
  simp [*]

@[simp]
theorem getUpdatedPPAL_setMMapped (b : GPUMirroredMemoryBlockBase) :
    b.setMMapped.getUpdatedPPAL = b.getUpdatedPPAL := by
  simp only [getUpdatedPPAL, setMMapped, PPAL_MASK, GPU_MASK, CONST_MASK, ALLOC_MASK, MMAP_MASK, notMask,
    flag_bit0, flag_bit1, flag_bit2, flag_bit3, flag_bit4, Nat.testBit_or, Nat.testBit_and,
    Nat.testBit_xor]
  have h1 : Nat.testBit 16 0 = false := by decide
  simp [*]

@[simp]
theorem getUpdatedPPAL_setUpdatedPPAL (b : GPUMirroredMemoryBlockBase) :
    b.setUpdatedPPAL.getUpdatedPPAL = true := by
  simp only [getUpdatedPPAL, setUpdatedPPAL, PPAL_MASK, GPU_MASK, CONST_MASK, ALLOC_MASK, MMAP_MASK, notMask,
    flag_bit0, flag_bit1, flag_bit2, flag_bit3, flag_bit4, Nat.testBit_or, Nat.testBit_and,
    Nat.testBit_xor]
  have h1 : Nat.testBit 1 0 = true := by decide
  simp [*]

@[simp]
theorem getUpdatedPPAL_setUpdatedGPU (b : GPUMirroredMemoryBlockBase) :
    b.setUpdatedGPU.getUpdatedPPAL = b.getUpdatedPPAL := by
  simp only [getUpdatedPPAL, setUpdatedGPU, PPAL_MASK, GPU_MASK, CONST_MASK, ALLOC_MASK, MMAP_MASK, notMask,
    flag_bit0, flag_bit1, flag_bit2, flag_bit3, flag_bit4, Nat.testBit_or, Nat.testBit_and,
    Nat.testBit_xor]
  have h1 : Nat.testBit 2 0 = false := by decide
  simp [*]

@[simp]
theorem getUpdatedPPAL_unsetUpdatedPPAL (b : GPUMirroredMemoryBlockBase) :
    b.unsetUpdatedPPAL.getUpdatedPPAL = false := by
  simp only [getUpdatedPPAL, unsetUpdatedPPAL, PPAL_MASK, GPU_MASK, CONST_MASK, ALLOC_MASK, MMAP_MASK, notMask,
    flag_bit0, flag_bit1, flag_bit2, flag_bit3, flag_bit4, Nat.testBit_or, Nat.testBit_and,
    Nat.testBit_xor]
  have h1 : Nat.testBit 1 0 = true := by decide
  have h2 : Nat.testBit 255 0 = true := by decide
  simp [*]

@[simp]
theorem getUpdatedPPAL_unsetUpdatedGPU (b : GPUMirroredMemoryBlockBase) :
    b.unsetUpdatedGPU.getUpdatedPPAL = b.getUpdatedPPAL := by
  simp only [getUpdatedPPAL, unsetUpdatedGPU, PPAL_MASK, GPU_MASK, CONST_MASK, ALLOC_MASK, MMAP_MASK, notMask,
    flag_bit0, flag_bit1, flag_bit2, flag_bit3, flag_bit4, Nat.testBit_or, Nat.testBit_and,
    Nat.testBit_xor]
  have h1 : Nat.testBit 2 0 = false := by decide
  have h2 : Nat.testBit 255 0 = true := by decide
  simp [*]

@[simp]
theorem getUpdatedGPU_setConst (b : GPUMirroredMemoryBlockBase) :
    b.setConst.getUpdatedGPU = b.getUpdatedGPU := by
  simp only [getUpdatedGPU, setConst, PPAL_MASK, GPU_MASK, CONST_MASK, ALLOC_MASK, MMAP_MASK, notMask,
    flag_bit0, flag_bit1, flag_bit2, flag_bit3, flag_bit4, Nat.testBit_or, Nat.testBit_and,
    Nat.testBit_xor]
  have h1 : Nat.testBit 4 1 = false := by decide
  simp [*]

@[simp]
theorem getUpdatedGPU_setAllocated (b : GPUMirroredMemoryBlockBase) :
    b.setAllocated.getUpdatedGPU = b.getUpdatedGPU := by
  simp only [getUpdatedGPU, setAllocated, PPAL_MASK, GPU_MASK, CONST_MASK, ALLOC_MASK, MMAP_MASK, notMask,
    flag_bit0, flag_bit1, flag_bit2, flag_bit3, flag_bit4, Nat.testBit_or, Nat.testBit_and,
    Nat.testBit_xor]
  have h1 : Nat.testBit 8 1 = false := by decide
  simp [*]

@[simp]
theorem getUpdatedGPU_setMMapped (b : GPUMirroredMemoryBlockBase) :
    b.setMMapped.getUpdatedGPU = b.getUpdatedGPU := by
  simp only [getUpdatedGPU, setMMapped, PPAL_MASK, GPU_MASK, CONST_MASK, ALLOC_MASK, MMAP_MASK, notMask,
    flag_bit0, flag_bit1, flag_bit2, flag_bit3, flag_bit4, Nat.testBit_or, Nat.testBit_and,
    Nat.testBit_xor]
  have h1 : Nat.testBit 16 1 = false := by decide
  simp [*]

@[simp]
theorem getUpdatedGPU_setUpdatedPPAL (b : GPUMirroredMemoryBlockBase) :
    b.setUpdatedPPAL.getUpdatedGPU = b.getUpdatedGPU := by
  simp only [getUpdatedGPU, setUpdatedPPAL, PPAL_MASK, GPU_MASK, CONST_MASK, ALLOC_MASK, MMAP_MASK, notMask,
    flag_bit0, flag_bit1, flag_bit2, flag_bit3, flag_bit4, Nat.testBit_or, Nat.testBit_and,
    Nat.testBit_xor]
  have h1 : Nat.testBit 1 1 = false := by decide
  simp [*]

@[simp]
theorem getUpdatedGPU_setUpdatedGPU (b : GPUMirroredMemoryBlockBase) :
    b.setUpdatedGPU.getUpdatedGPU = true := by
  simp only [getUpdatedGPU, setUpdatedGPU, PPAL_MASK, GPU_MASK, CONST_MASK, ALLOC_MASK, MMAP_MASK, notMask,
    flag_bit0, flag_bit1, flag_bit2, flag_bit3, flag_bit4, Nat.testBit_or, Nat.testBit_and,
    Nat.testBit_xor]
  have h1 : Nat.testBit 2 1 = true := by decide
  simp [*]

@[simp]
theorem getUpdatedGPU_unsetUpdatedPPAL (b : GPUMirroredMemoryBlockBase) :
    b.unsetUpdatedPPAL.getUpdatedGPU = b.getUpdatedGPU := by
  simp only [getUpdatedGPU, unsetUpdatedPPAL, PPAL_MASK, GPU_MASK, CONST_MASK, ALLOC_MASK, MMAP_MASK, notMask,
    flag_bit0, flag_bit1, flag_bit2, flag_bit3, flag_bit4, Nat.testBit_or, Nat.testBit_and,
    Nat.testBit_xor]
  have h1 : Nat.testBit 1 1 = false := by decide
  have h2 : Nat.testBit 255 1 = true := by decide
  simp [*]

@[simp]
theorem getUpdatedGPU_unsetUpdatedGPU (b : GPUMirroredMemoryBlockBase) :
    b.unsetUpdatedGPU.getUpdatedGPU = false := by
  simp only [getUpdatedGPU, unsetUpdatedGPU, PPAL_MASK, GPU_MASK, CONST_MASK, ALLOC_MASK, MMAP_MASK, notMask,
    flag_bit0, flag_bit1, flag_bit2, flag_bit3, flag_bit4, Nat.testBit_or, Nat.testBit_and,
    Nat.testBit_xor]
  have h1 : Nat.testBit 2 1 = true := by decide
  have h2 : Nat.testBit 255 1 = true := by decide
  simp [*]

end GPUMirroredMemoryBlockBase


/-! ## The fields a status change leaves alone -/

namespace GPUMirroredMemoryBlockBase

@[simp]
theorem size_setConst (b : GPUMirroredMemoryBlockBase) : b.setConst.size = b.size := rfl

@[simp]
theorem mem_ppal_setConst (b : GPUMirroredMemoryBlockBase) : b.setConst.mem_ppal = b.mem_ppal := rfl

@[simp]
theorem mem_gpu_setConst (b : GPUMirroredMemoryBlockBase) : b.setConst.mem_gpu = b.mem_gpu := rfl

@[simp]
theorem pinned_setConst (b : GPUMirroredMemoryBlockBase) : b.setConst.pinned = b.pinned := rfl

@[simp]
theorem mmapped_data_setConst (b : GPUMirroredMemoryBlockBase) : b.setConst.mmapped_data = b.mmapped_data := rfl

@[simp]
theorem hostMem_setConst (b : GPUMirroredMemoryBlockBase) : b.setConst.hostMem = b.hostMem := rfl

@[simp]
theorem deviceMem_setConst (b : GPUMirroredMemoryBlockBase) : b.setConst.deviceMem = b.deviceMem := rfl

@[simp]
theorem pending_setConst (b : GPUMirroredMemoryBlockBase) : b.setConst.pending = b.pending := rfl

@[simp]
theorem log_setConst (b : GPUMirroredMemoryBlockBase) : b.setConst.log = b.log := rfl

@[simp]
theorem size_setAllocated (b : GPUMirroredMemoryBlockBase) : b.setAllocated.size = b.size := rfl

@[simp]
theorem mem_ppal_setAllocated (b : GPUMirroredMemoryBlockBase) : b.setAllocated.mem_ppal = b.mem_ppal := rfl

@[simp]
theorem mem_gpu_setAllocated (b : GPUMirroredMemoryBlockBase) : b.setAllocated.mem_gpu = b.mem_gpu := rfl

@[simp]
theorem pinned_setAllocated (b : GPUMirroredMemoryBlockBase) : b.setAllocated.pinned = b.pinned := rfl

@[simp]
theorem mmapped_data_setAllocated (b : GPUMirroredMemoryBlockBase) : b.setAllocated.mmapped_data = b.mmapped_data := rfl

@[simp]
theorem hostMem_setAllocated (b : GPUMirroredMemoryBlockBase) : b.setAllocated.hostMem = b.hostMem := rfl

@[simp]
theorem deviceMem_setAllocated (b : GPUMirroredMemoryBlockBase) : b.setAllocated.deviceMem = b.deviceMem := rfl

@[simp]
theorem pending_setAllocated (b : GPUMirroredMemoryBlockBase) : b.setAllocated.pending = b.pending := rfl

@[simp]
theorem log_setAllocated (b : GPUMirroredMemoryBlockBase) : b.setAllocated.log = b.log := rfl

@[simp]
theorem size_setMMapped (b : GPUMirroredMemoryBlockBase) : b.setMMapped.size = b.size := rfl

@[simp]
theorem mem_ppal_setMMapped (b : GPUMirroredMemoryBlockBase) : b.setMMapped.mem_ppal = b.mem_ppal := rfl

@[simp]
theorem mem_gpu_setMMapped (b : GPUMirroredMemoryBlockBase) : b.setMMapped.mem_gpu = b.mem_gpu := rfl

@[simp]
theorem pinned_setMMapped (b : GPUMirroredMemoryBlockBase) : b.setMMapped.pinned = b.pinned := rfl

@[simp]
theorem mmapped_data_setMMapped (b : GPUMirroredMemoryBlockBase) : b.setMMapped.mmapped_data = b.mmapped_data := rfl

@[simp]
theorem hostMem_setMMapped (b : GPUMirroredMemoryBlockBase) : b.setMMapped.hostMem = b.hostMem := rfl

@[simp]
theorem deviceMem_setMMapped (b : GPUMirroredMemoryBlockBase) : b.setMMapped.deviceMem = b.deviceMem := rfl

@[simp]
theorem pending_setMMapped (b : GPUMirroredMemoryBlockBase) : b.setMMapped.pending = b.pending := rfl

@[simp]
theorem log_setMMapped (b : GPUMirroredMemoryBlockBase) : b.setMMapped.log = b.log := rfl

@[simp]
theorem size_setUpdatedPPAL (b : GPUMirroredMemoryBlockBase) : b.setUpdatedPPAL.size = b.size := rfl

@[simp]
theorem mem_ppal_setUpdatedPPAL (b : GPUMirroredMemoryBlockBase) : b.setUpdatedPPAL.mem_ppal = b.mem_ppal := rfl

@[simp]
theorem mem_gpu_setUpdatedPPAL (b : GPUMirroredMemoryBlockBase) : b.setUpdatedPPAL.mem_gpu = b.mem_gpu := rfl

@[simp]
theorem pinned_setUpdatedPPAL (b : GPUMirroredMemoryBlockBase) : b.setUpdatedPPAL.pinned = b.pinned := rfl

@[simp]
theorem mmapped_data_setUpdatedPPAL (b : GPUMirroredMemoryBlockBase) : b.setUpdatedPPAL.mmapped_data = b.mmapped_data := rfl

@[simp]
theorem hostMem_setUpdatedPPAL (b : GPUMirroredMemoryBlockBase) : b.setUpdatedPPAL.hostMem = b.hostMem := rfl

@[simp]
theorem deviceMem_setUpdatedPPAL (b : GPUMirroredMemoryBlockBase) : b.setUpdatedPPAL.deviceMem = b.deviceMem := rfl

@[simp]
theorem pending_setUpdatedPPAL (b : GPUMirroredMemoryBlockBase) : b.setUpdatedPPAL.pending = b.pending := rfl

@[simp]
theorem log_setUpdatedPPAL (b : GPUMirroredMemoryBlockBase) : b.setUpdatedPPAL.log = b.log := rfl

@[simp]
theorem size_setUpdatedGPU (b : GPUMirroredMemoryBlockBase) : b.setUpdatedGPU.size = b.size := rfl

@[simp]
theorem mem_ppal_setUpdatedGPU (b : GPUMirroredMemoryBlockBase) : b.setUpdatedGPU.mem_ppal = b.mem_ppal := rfl

@[simp]
theorem mem_gpu_setUpdatedGPU (b : GPUMirroredMemoryBlockBase) : b.setUpdatedGPU.mem_gpu = b.mem_gpu := rfl

@[simp]
theorem pinned_setUpdatedGPU (b : GPUMirroredMemoryBlockBase) : b.setUpdatedGPU.pinned = b.pinned := rfl

@[simp]
theorem mmapped_data_setUpdatedGPU (b : GPUMirroredMemoryBlockBase) : b.setUpdatedGPU.mmapped_data = b.mmapped_data := rfl

@[simp]
theorem hostMem_setUpdatedGPU (b : GPUMirroredMemoryBlockBase) : b.setUpdatedGPU.hostMem = b.hostMem := rfl

@[simp]
theorem deviceMem_setUpdatedGPU (b : GPUMirroredMemoryBlockBase) : b.setUpdatedGPU.deviceMem = b.deviceMem := rfl

@[simp]
theorem pending_setUpdatedGPU (b : GPUMirroredMemoryBlockBase) : b.setUpdatedGPU.pending = b.pending := rfl

@[simp]
theorem log_setUpdatedGPU (b : GPUMirroredMemoryBlockBase) : b.setUpdatedGPU.log = b.log := rfl

@[simp]
theorem size_unsetUpdatedPPAL (b : GPUMirroredMemoryBlockBase) : b.unsetUpdatedPPAL.size = b.size := rfl

@[simp]
theorem mem_ppal_unsetUpdatedPPAL (b : GPUMirroredMemoryBlockBase) : b.unsetUpdatedPPAL.mem_ppal = b.mem_ppal := rfl

@[simp]
theorem mem_gpu_unsetUpdatedPPAL (b : GPUMirroredMemoryBlockBase) : b.unsetUpdatedPPAL.mem_gpu = b.mem_gpu := rfl

@[simp]
theorem pinned_unsetUpdatedPPAL (b : GPUMirroredMemoryBlockBase) : b.unsetUpdatedPPAL.pinned = b.pinned := rfl

@[simp]
theorem mmapped_data_unsetUpdatedPPAL (b : GPUMirroredMemoryBlockBase) : b.unsetUpdatedPPAL.mmapped_data = b.mmapped_data := rfl

@[simp]
theorem hostMem_unsetUpdatedPPAL (b : GPUMirroredMemoryBlockBase) : b.unsetUpdatedPPAL.hostMem = b.hostMem := rfl

@[simp]
theorem deviceMem_unsetUpdatedPPAL (b : GPUMirroredMemoryBlockBase) : b.unsetUpdatedPPAL.deviceMem = b.deviceMem := rfl

@[simp]
theorem pending_unsetUpdatedPPAL (b : GPUMirroredMemoryBlockBase) : b.unsetUpdatedPPAL.pending = b.pending := rfl

@[simp]
theorem log_unsetUpdatedPPAL (b : GPUMirroredMemoryBlockBase) : b.unsetUpdatedPPAL.log = b.log := rfl

@[simp]
theorem size_unsetUpdatedGPU (b : GPUMirroredMemoryBlockBase) : b.unsetUpdatedGPU.size = b.size := rfl

@[simp]
theorem mem_ppal_unsetUpdatedGPU (b : GPUMirroredMemoryBlockBase) : b.unsetUpdatedGPU.mem_ppal = b.mem_ppal := rfl

@[simp]
theorem mem_gpu_unsetUpdatedGPU (b : GPUMirroredMemoryBlockBase) : b.unsetUpdatedGPU.mem_gpu = b.mem_gpu := rfl

@[simp]
theorem pinned_unsetUpdatedGPU (b : GPUMirroredMemoryBlockBase) : b.unsetUpdatedGPU.pinned = b.pinned := rfl

@[simp]
theorem mmapped_data_unsetUpdatedGPU (b : GPUMirroredMemoryBlockBase) : b.unsetUpdatedGPU.mmapped_data = b.mmapped_data := rfl

@[simp]
theorem hostMem_unsetUpdatedGPU (b : GPUMirroredMemoryBlockBase) : b.unsetUpdatedGPU.hostMem = b.hostMem := rfl

@[simp]
theorem deviceMem_unsetUpdatedGPU (b : GPUMirroredMemoryBlockBase) : b.unsetUpdatedGPU.deviceMem = b.deviceMem := rfl

@[simp]
theorem pending_unsetUpdatedGPU (b : GPUMirroredMemoryBlockBase) : b.unsetUpdatedGPU.pending = b.pending := rfl

@[simp]
theorem log_unsetUpdatedGPU (b : GPUMirroredMemoryBlockBase) : b.unsetUpdatedGPU.log = b.log := rfl

end GPUMirroredMemoryBlockBase

/-! ## What a call that returns has done to the status byte -/

namespace GPUMirroredMemoryBlockBase

theorem getUpdatedPPAL_congr {b1 b2 : GPUMirroredMemoryBlockBase} (h : b1.status = b2.status) :
    b1.getUpdatedPPAL = b2.getUpdatedPPAL := by
  simp [getUpdatedPPAL, h]

theorem getUpdatedGPU_congr {b1 b2 : GPUMirroredMemoryBlockBase} (h : b1.status = b2.status) :
    b1.getUpdatedGPU = b2.getUpdatedGPU := by
  simp [getUpdatedGPU, h]

theorem isConst_congr {b1 b2 : GPUMirroredMemoryBlockBase} (h : b1.status = b2.status) :
    b1.isConst = b2.isConst := by
  simp [isConst, h]

theorem updateMemPPAL_flags {d : Driver} {b b1 : GPUMirroredMemoryBlockBase}
    (h : updateMemPPAL d b = .ok b1) :
    b1.getUpdatedPPAL = true ∧ b1.getUpdatedGPU = b.getUpdatedGPU := by
  unfold updateMemPPAL at h
  split at h
  · simp only at h
    split at h
    · cases h
    · split at h <;> split at h <;> cases h <;>
        exact ⟨getUpdatedPPAL_setUpdatedPPAL b, getUpdatedGPU_setUpdatedPPAL b⟩
  · cases h
    rename_i hp
    simp at hp
    exact ⟨hp, rfl⟩

theorem allocMemGPU_status {d : Driver} {b b1 : GPUMirroredMemoryBlockBase} {fresh : Bool}
    (h : allocMemGPU d b = .ok (b1, fresh)) : b1.status = b.status := by
  unfold allocMemGPU at h
  split at h
  · split at h
    · cases h; rfl
    · cases h
  · cases h; rfl

theorem copyPPALtoGPU_status {d : Driver} {b b1 : GPUMirroredMemoryBlockBase}
    (h : copyPPALtoGPU d b = .ok b1) : b1.status = b.status := by
  unfold copyPPALtoGPU at h
  split at h <;> split at h <;> cases h <;> rfl

theorem updateMemGPU_flags {d : Driver} {b b1 : GPUMirroredMemoryBlockBase}
    (h : updateMemGPU d b = .ok b1) :
    b1.getUpdatedGPU = true ∧ b1.getUpdatedPPAL = b.getUpdatedPPAL := by
  unfold updateMemGPU at h
  split at h
  · split at h
    · cases h
    · rename_i b2 fresh ha
      have h1 := copyPPALtoGPU_status h
      have h2 := allocMemGPU_status ha
      have h3 : b1.status = (b.setUpdatedGPU).status := by
        rw [h1]; simp only [setUpdatedGPU, h2]
      rw [getUpdatedGPU_congr h3, getUpdatedPPAL_congr h3]
      simp
  · cases h
    rename_i hp
    simp at hp
    exact ⟨hp, rfl⟩

end GPUMirroredMemoryBlockBase

namespace GPUMirroredMemoryBlock

open GPUMirroredMemoryBlockBase

theorem getPPALForRead_flags {d : Driver} {b b1 : GPUMirroredMemoryBlock} {p : Nat}
    (h : getPPALForRead d b = .ok (b1, p)) :
    b1.getUpdatedPPAL = true ∧ b1.getUpdatedGPU = b.getUpdatedGPU := by
  unfold getPPALForRead at h
  split at h
  · cases h
  · rename_i b2 hu
    cases h
    exact updateMemPPAL_flags hu

theorem getPPALForWrite_flags {b b1 : GPUMirroredMemoryBlock} {p : Nat}
    (h : getPPALForWrite b = .ok (b1, p)) :
    b1.getUpdatedPPAL = true ∧ b1.getUpdatedGPU = false := by
  unfold getPPALForWrite at h
  split at h
  · cases h
  · cases h
    simp

theorem getPPALForReadAndWrite_flags {d : Driver} {b b1 : GPUMirroredMemoryBlock} {p : Nat}
    (h : getPPALForReadAndWrite d b = .ok (b1, p)) :
    b1.getUpdatedPPAL = true ∧ b1.getUpdatedGPU = false := by
  unfold getPPALForReadAndWrite at h
  split at h
  · cases h
  · split at h
    · cases h
    · rename_i b2 hu
      cases h
      simp [(updateMemPPAL_flags hu).1]

theorem getGPUForRead_flags {d : Driver} {b b1 : GPUMirroredMemoryBlock} {p : Nat}
    (h : getGPUForRead d b = .ok (b1, p)) :
    b1.getUpdatedGPU = true ∧ b1.getUpdatedPPAL = b.getUpdatedPPAL := by
  unfold getGPUForRead at h
  split at h
  · cases h
  · rename_i b2 hu
    cases h
    exact updateMemGPU_flags hu

theorem getGPUForWrite_flags {d : Driver} {b b1 : GPUMirroredMemoryBlock} {p : Nat}
    (h : getGPUForWrite d b = .ok (b1, p)) :
    b1.getUpdatedGPU = true ∧ b1.getUpdatedPPAL = false := by
  unfold getGPUForWrite at h
  split at h
  · cases h
  · split at h
    · cases h
    · split at h
      · cases h
      · cases h
        simp

theorem getGPUForReadAndWrite_flags {d : Driver} {b b1 : GPUMirroredMemoryBlock} {p : Nat}
    (h : getGPUForReadAndWrite d b = .ok (b1, p)) :
    b1.getUpdatedGPU = true ∧ b1.getUpdatedPPAL = false := by
  unfold getGPUForReadAndWrite at h
  split at h
  · cases h
  · split at h
    · cases h
    · rename_i b2 hu
      cases h
      simp [(updateMemGPU_flags hu).1]

theorem get_flags {sizeofT : Nat} {d : Driver} {b b1 : GPUMirroredMemoryBlock} {pos p : Nat}
    (h : get sizeofT d b pos = .ok (b1, p)) :
    b1.getUpdatedPPAL = true ∧ b1.getUpdatedGPU = false := by
  unfold get at h
  split at h
  · cases h
  · rename_i b2 hu
    cases h
    simp [(updateMemPPAL_flags hu).1]

end GPUMirroredMemoryBlock

namespace GPUMirroredMemoryBlockBase

theorem toMMappedDataWriter_flags {d : Driver} {b b1 : GPUMirroredMemoryBlockBase}
    {w w1 : MMappedDataWriter} (h : toMMappedDataWriter d b w = .ok (b1, w1)) :
    b1.getUpdatedPPAL = true ∧ b1.getUpdatedGPU = b.getUpdatedGPU := by
  unfold toMMappedDataWriter at h
  split at h
  · cases h
  · rename_i b2 hu
    cases h
    exact updateMemPPAL_flags hu

theorem pinnedMemoryPageLock_status {d : Driver} {b b1 : GPUMirroredMemoryBlockBase}
    (h : pinnedMemoryPageLock d b = .ok b1) : b1.status = b.status := by
  unfold pinnedMemoryPageLock at h
  split at h
  · cases h
  · simp only at h
    split at h
    · cases h; rfl
    · cases h

theorem new_size_flags {d : Driver} {pool pool1 : Pool} {sz : Nat}
    {b : GPUMirroredMemoryBlockBase} (h : new_size d pool sz = .ok (b, pool1)) :
    b.getUpdatedPPAL = true ∧ b.getUpdatedGPU = false := by
  unfold new_size at h
  simp only at h
  split at h
  · split at h
    · cases h
      exact ⟨getUpdatedPPAL_setUpdatedPPAL _, by
        show ((blank sz 0 d.hostJunk).setAllocated.unsetUpdatedGPU.setUpdatedPPAL).getUpdatedGPU
          = false
        simp⟩
    · split at h
      · cases h
      · cases h
        constructor
        · show ((blank sz 0 d.hostJunk).setAllocated.unsetUpdatedGPU.setUpdatedPPAL.setMMapped).getUpdatedPPAL
            = true
          simp
        · show ((blank sz 0 d.hostJunk).setAllocated.unsetUpdatedGPU.setUpdatedPPAL.setMMapped).getUpdatedGPU
            = false
          simp
  · cases h
    constructor
    · exact getUpdatedPPAL_setUpdatedPPAL _
    · show ((blank sz 0 d.hostJunk).setAllocated.unsetUpdatedGPU.setUpdatedPPAL).getUpdatedGPU
        = false
      simp

theorem new_mem_flags (sz mem : Nat) (content : Nat → Nat) :
    (new_mem sz mem content).getUpdatedPPAL = true ∧
      (new_mem sz mem content).getUpdatedGPU = false := by
  simp [new_mem]

theorem new_const_mem_flags (sz mem : Nat) (content : Nat → Nat) :
    (new_const_mem sz mem content).getUpdatedPPAL = true ∧
      (new_const_mem sz mem content).getUpdatedGPU = false := by
  simp [new_const_mem]

theorem new_reader_flags {r r1 : MMappedDataReader} {b : GPUMirroredMemoryBlockBase}
    (h : new_reader r = .ok (b, r1)) :
    b.getUpdatedPPAL = true ∧ b.getUpdatedGPU = false := by
  unfold new_reader at h
  split at h
  · cases h
  · split at h
    · cases h
    · cases h
      simp

end GPUMirroredMemoryBlockBase

/-! ## What a call that returns has done to the two regions -/

namespace GPUMirroredMemoryBlockBase

theorem updateMemPPAL_mem {d : Driver} {b b1 : GPUMirroredMemoryBlockBase}
    (h : updateMemPPAL d b = .ok b1) :
    b1.size = b.size ∧ b1.deviceMem = b.deviceMem ∧
      (b.getUpdatedPPAL = true → b1.hostMem = b.hostMem) ∧
      (b.getUpdatedPPAL = false → b1.hostMem = memcpy b.size b.deviceMem b.hostMem) := by
  unfold updateMemPPAL at h
  split at h
  · rename_i hp
    simp at hp
    simp only at h
    split at h
    · cases h
    · split at h <;> split at h <;> cases h <;>
        exact ⟨rfl, rfl, fun h1 => by simp [hp] at h1, fun _ => rfl⟩
  · rename_i hp
    simp at hp
    cases h
    exact ⟨rfl, rfl, fun _ => rfl, fun h1 => by simp [hp] at h1⟩

theorem allocMemGPU_mem {d : Driver} {b b1 : GPUMirroredMemoryBlockBase} {fresh : Bool}
    (h : allocMemGPU d b = .ok (b1, fresh)) :
    b1.size = b.size ∧ b1.hostMem = b.hostMem := by
  unfold allocMemGPU at h
  split at h
  · split at h
    · cases h; exact ⟨rfl, rfl⟩
    · cases h
  · cases h; exact ⟨rfl, rfl⟩

theorem copyPPALtoGPU_mem {d : Driver} {b b1 : GPUMirroredMemoryBlockBase}
    (h : copyPPALtoGPU d b = .ok b1) :
    b1.size = b.size ∧ b1.hostMem = b.hostMem ∧
      b1.deviceMem = memcpy b.size b.hostMem b.deviceMem := by
  unfold copyPPALtoGPU at h
  split at h <;> split at h <;> cases h <;> exact ⟨rfl, rfl, rfl⟩

theorem updateMemGPU_mem {d : Driver} {b b1 : GPUMirroredMemoryBlockBase}
    (h : updateMemGPU d b = .ok b1) :
    b1.size = b.size ∧ b1.hostMem = b.hostMem ∧
      (b.getUpdatedGPU = true → b1.deviceMem = b.deviceMem) ∧
      (b.getUpdatedGPU = false → ∀ i, i < b.size → b1.deviceMem i = b.hostMem i) := by
  unfold updateMemGPU at h
  split at h
  · rename_i hp
    simp at hp
    split at h
    · cases h
    · rename_i b2 fresh ha
      obtain ⟨hs, hm⟩ := allocMemGPU_mem ha
      obtain ⟨hs1, hm1, hd1⟩ := copyPPALtoGPU_mem h
      refine ⟨?_, ?_, fun h1 => by simp [hp] at h1, ?_⟩
      · rw [hs1]; exact hs
      · rw [hm1]; exact hm
      · intro _ i hi
        rw [hd1]
        simp [memcpy, hs, hm, hi]
  · rename_i hp
    simp at hp
    cases h
    exact ⟨rfl, rfl, fun _ => rfl, fun h1 => by simp [hp] at h1⟩

end GPUMirroredMemoryBlockBase

/-! ## The fields fixed by the constructor -/

theorem SameBuild.refl (b : GPUMirroredMemoryBlock) : SameBuild b b :=
  ⟨rfl, rfl, rfl, rfl⟩

theorem SameBuild.trans {b b1 b2 : GPUMirroredMemoryBlock} (h1 : SameBuild b b1)
    (h2 : SameBuild b1 b2) : SameBuild b b2 :=
  ⟨h2.1.trans h1.1, h2.2.1.trans h1.2.1, h2.2.2.1.trans h1.2.2.1, h2.2.2.2.trans h1.2.2.2⟩

theorem SameBuild.of_status {b b1 : GPUMirroredMemoryBlock} (hs : b1.size = b.size)
    (h : b1.status = b.status) : SameBuild b b1 := by
  refine ⟨hs, ?_, ?_, ?_⟩
  · simp [GPUMirroredMemoryBlockBase.isConst, h]
  · simp [GPUMirroredMemoryBlockBase.isAllocated, h]
  · simp [GPUMirroredMemoryBlockBase.isMMapped, h]

namespace GPUMirroredMemoryBlockBase

theorem sameBuild_setUpdatedPPAL (b : GPUMirroredMemoryBlockBase) :
    SameBuild b b.setUpdatedPPAL := by
  simp [SameBuild]

theorem sameBuild_setUpdatedGPU (b : GPUMirroredMemoryBlockBase) :
    SameBuild b b.setUpdatedGPU := by
  simp [SameBuild]

theorem sameBuild_unsetUpdatedPPAL (b : GPUMirroredMemoryBlockBase) :
    SameBuild b b.unsetUpdatedPPAL := by
  simp [SameBuild]

theorem sameBuild_unsetUpdatedGPU (b : GPUMirroredMemoryBlockBase) :
    SameBuild b b.unsetUpdatedGPU := by
  simp [SameBuild]

theorem updateMemPPAL_sameBuild {d : Driver} {b b1 : GPUMirroredMemoryBlockBase}
    (h : updateMemPPAL d b = .ok b1) : SameBuild b b1 := by
  unfold updateMemPPAL at h
  split at h
  · simp only at h
    split at h
    · cases h
    · split at h <;> split at h <;> cases h <;>
        exact (sameBuild_setUpdatedPPAL b).trans (SameBuild.of_status rfl rfl)
  · cases h
    exact SameBuild.refl b

theorem allocMemGPU_sameBuild {d : Driver} {b b1 : GPUMirroredMemoryBlockBase} {fresh : Bool}
    (h : allocMemGPU d b = .ok (b1, fresh)) : SameBuild b b1 :=
  SameBuild.of_status (allocMemGPU_mem h).1 (allocMemGPU_status h)

theorem copyPPALtoGPU_sameBuild {d : Driver} {b b1 : GPUMirroredMemoryBlockBase}
    (h : copyPPALtoGPU d b = .ok b1) : SameBuild b b1 :=
  SameBuild.of_status (copyPPALtoGPU_mem h).1 (copyPPALtoGPU_status h)

theorem updateMemGPU_sameBuild {d : Driver} {b b1 : GPUMirroredMemoryBlockBase}
    (h : updateMemGPU d b = .ok b1) : SameBuild b b1 := by
  unfold updateMemGPU at h
  split at h
  · split at h
    · cases h
    · rename_i b2 fresh ha
      exact ((allocMemGPU_sameBuild ha).trans (sameBuild_setUpdatedGPU b2)).trans
        (copyPPALtoGPU_sameBuild h)
  · cases h
    exact SameBuild.refl b

theorem toMMappedDataWriter_sameBuild {d : Driver} {b b1 : GPUMirroredMemoryBlockBase}
    {w w1 : MMappedDataWriter} (h : toMMappedDataWriter d b w = .ok (b1, w1)) :
    SameBuild b b1 := by
  unfold toMMappedDataWriter at h
  split at h
  · cases h
  · rename_i b2 hu
    cases h
    exact updateMemPPAL_sameBuild hu

theorem pinnedMemoryPageLock_sameBuild {d : Driver} {b b1 : GPUMirroredMemoryBlockBase}
    (h : pinnedMemoryPageLock d b = .ok b1) : SameBuild b b1 := by
  refine SameBuild.of_status ?_ (pinnedMemoryPageLock_status h)
  unfold pinnedMemoryPageLock at h
  split at h
  · cases h
  · simp only at h
    split at h
    · cases h; rfl
    · cases h

end GPUMirroredMemoryBlockBase

namespace GPUMirroredMemoryBlock

open GPUMirroredMemoryBlockBase

theorem getPPALForRead_sameBuild {d : Driver} {b b1 : GPUMirroredMemoryBlock} {p : Nat}
    (h : getPPALForRead d b = .ok (b1, p)) : SameBuild b b1 := by
  unfold getPPALForRead at h
  split at h
  · cases h
  · rename_i b2 hu
    cases h
    exact updateMemPPAL_sameBuild hu

theorem getPPALForWrite_sameBuild {b b1 : GPUMirroredMemoryBlock} {p : Nat}
    (h : getPPALForWrite b = .ok (b1, p)) : SameBuild b b1 := by
  unfold getPPALForWrite at h
  split at h
  · cases h
  · cases h
    exact (sameBuild_setUpdatedPPAL b).trans (sameBuild_unsetUpdatedGPU _)

theorem getPPALForReadAndWrite_sameBuild {d : Driver} {b b1 : GPUMirroredMemoryBlock}
    {p : Nat} (h : getPPALForReadAndWrite d b = .ok (b1, p)) : SameBuild b b1 := by
  unfold getPPALForReadAndWrite at h
  split at h
  · cases h
  · split at h
    · cases h
    · rename_i b2 hu
      cases h
      exact (updateMemPPAL_sameBuild hu).trans (sameBuild_unsetUpdatedGPU _)

theorem getGPUForRead_sameBuild {d : Driver} {b b1 : GPUMirroredMemoryBlock} {p : Nat}
    (h : getGPUForRead d b = .ok (b1, p)) : SameBuild b b1 := by
  unfold getGPUForRead at h
  split at h
  · cases h
  · rename_i b2 hu
    cases h
    exact updateMemGPU_sameBuild hu

theorem getGPUForWrite_sameBuild {d : Driver} {b b1 : GPUMirroredMemoryBlock} {p : Nat}
    (h : getGPUForWrite d b = .ok (b1, p)) : SameBuild b b1 := by
  unfold getGPUForWrite at h
  split at h
  · cases h
  · split at h
    · cases h
    · rename_i b2 fresh ha
      split at h
      · cases h
      · rename_i b3 hc
        cases h
        have h23 : SameBuild b2 b3 := by
          cases fresh
          · simp at hc; cases hc; exact SameBuild.refl _
          · simp at hc; exact copyPPALtoGPU_sameBuild hc
        exact (((allocMemGPU_sameBuild ha).trans h23).trans
          (sameBuild_setUpdatedGPU b3)).trans (sameBuild_unsetUpdatedPPAL _)

theorem getGPUForReadAndWrite_sameBuild {d : Driver} {b b1 : GPUMirroredMemoryBlock}
    {p : Nat} (h : getGPUForReadAndWrite d b = .ok (b1, p)) : SameBuild b b1 := by
  unfold getGPUForReadAndWrite at h
  split at h
  · cases h
  · split at h
    · cases h
    · rename_i b2 hu
      cases h
      exact (updateMemGPU_sameBuild hu).trans (sameBuild_unsetUpdatedPPAL _)

theorem get_sameBuild {sizeofT : Nat} {d : Driver} {b b1 : GPUMirroredMemoryBlock}
    {pos p : Nat} (h : get sizeofT d b pos = .ok (b1, p)) : SameBuild b b1 := by
  unfold get at h
  split at h
  · cases h
  · rename_i b2 hu
    cases h
    exact (updateMemPPAL_sameBuild hu).trans (sameBuild_unsetUpdatedGPU _)

end GPUMirroredMemoryBlock

theorem step_sameBuild {b b1 : GPUMirroredMemoryBlock} (h : Step b b1) : SameBuild b b1 := by
  cases h with
  | getPPALForRead d _ _ p h => exact GPUMirroredMemoryBlock.getPPALForRead_sameBuild h
  | getPPALForWrite _ _ p h => exact GPUMirroredMemoryBlock.getPPALForWrite_sameBuild h
  | getPPALForReadAndWrite d _ _ p h =>
    exact GPUMirroredMemoryBlock.getPPALForReadAndWrite_sameBuild h
  | getGPUForRead d _ _ p h => exact GPUMirroredMemoryBlock.getGPUForRead_sameBuild h
  | getGPUForWrite d _ _ p h => exact GPUMirroredMemoryBlock.getGPUForWrite_sameBuild h
  | getGPUForReadAndWrite d _ _ p h =>
    exact GPUMirroredMemoryBlock.getGPUForReadAndWrite_sameBuild h
  | get sizeofT d _ _ pos p h => exact GPUMirroredMemoryBlock.get_sameBuild h
  | toMMappedDataWriter d _ _ w w1 h =>
    exact GPUMirroredMemoryBlockBase.toMMappedDataWriter_sameBuild h
  | pinnedMemoryPageLock d _ _ h =>
    exact GPUMirroredMemoryBlockBase.pinnedMemoryPageLock_sameBuild h
  | storeHost _ v => exact SameBuild.of_status rfl rfl
  | storeDevice _ v => exact SameBuild.of_status rfl rfl

theorem steps_sameBuild {b b1 : GPUMirroredMemoryBlock}
    (h : Relation.ReflTransGen Step b b1) : SameBuild b b1 := by
  induction h with
  | refl => exact SameBuild.refl b
  | tail _ hs ih => exact ih.trans (step_sameBuild hs)

open GPUMirroredMemoryBlockBase GPUMirroredMemoryBlock

/-! ## C1: the validity invariant -/

theorem constructed_flags {b : GPUMirroredMemoryBlock} (h : Constructed b) :
    b.getUpdatedPPAL = true ∧ b.getUpdatedGPU = false := by
  cases h with
  | new_size d pool sz b pool1 h => exact new_size_flags h
  | new_mem sz mem content => exact new_mem_flags sz mem content
  | new_const_mem sz mem content => exact new_const_mem_flags sz mem content
  | new_reader r r1 b h => exact new_reader_flags h

theorem step_valid {b b1 : GPUMirroredMemoryBlock} (h : Step b b1)
    (hv : (b.getUpdatedPPAL || b.getUpdatedGPU) = true) :
    (b1.getUpdatedPPAL || b1.getUpdatedGPU) = true := by
  cases h with
  | getPPALForRead d _ _ p h => simp [(getPPALForRead_flags h).1]
  | getPPALForWrite _ _ p h => simp [(getPPALForWrite_flags h).1]
  | getPPALForReadAndWrite d _ _ p h => simp [(getPPALForReadAndWrite_flags h).1]
  | getGPUForRead d _ _ p h => simp [(getGPUForRead_flags h).1]
  | getGPUForWrite d _ _ p h => simp [(getGPUForWrite_flags h).1]
  | getGPUForReadAndWrite d _ _ p h => simp [(getGPUForReadAndWrite_flags h).1]
  | get sizeofT d _ _ pos p h => simp [(get_flags h).1]
  | toMMappedDataWriter d _ _ w w1 h => simp [(toMMappedDataWriter_flags h).1]
  | pinnedMemoryPageLock d _ _ h =>
    have hs := pinnedMemoryPageLock_status h
    rw [getUpdatedPPAL_congr hs, getUpdatedGPU_congr hs]
    exact hv
  | storeHost _ v => exact hv
  | storeDevice _ v => exact hv

/-- C1. In every state a block reaches from any of its four constructors by
calls of `getPPALForRead`, `getPPALForWrite`, `getPPALForReadAndWrite`,
`getGPUForRead`, `getGPUForWrite`, `getGPUForReadAndWrite`, `get`,
`toMMappedDataWriter` and `pinnedMemoryPageLock` that return (and by stores of
the caller), the host side or the device side is valid. -/
theorem validity_invariant (b : GPUMirroredMemoryBlock) (h : Reachable b) :
    (b.getUpdatedPPAL || b.getUpdatedGPU) = true := by
  induction h with
  | init b hc => simp [(constructed_flags hc).1]
  | step b b1 _ hs ih => exact step_valid hs ih

/-- C1 at the sample block after a device write: the state is reachable and
its device side is the valid one. -/
theorem validity_invariant_witness :
    Reachable sampleOnDevice ∧
      (sampleOnDevice.getUpdatedPPAL || sampleOnDevice.getUpdatedGPU) = true :=
  have h : Reachable sampleOnDevice :=
    Reachable.step sampleBlock sampleOnDevice
      (Reachable.init sampleBlock (Constructed.new_mem 4 1000 (fun i => i + 1)))
      (Step.getGPUForWrite okDriver sampleBlock sampleOnDevice 4096 rfl)
  ⟨h, validity_invariant sampleOnDevice h⟩

/-! ## C2: coherence -/


theorem coherent_of_pointerRun (b : GPUMirroredMemoryBlock) (h : PointerRun b) :
    Coherent b := by
  induction h with
  | new_size d pool sz b pool1 h =>
    intro _ hg; simp [(new_size_flags h).2] at hg
  | new_mem sz mem content =>
    intro _ hg; simp [(new_mem_flags sz mem content).2] at hg
  | new_const_mem sz mem content =>
    intro _ hg; simp [(new_const_mem_flags sz mem content).2] at hg
  | new_reader r r1 b h =>
    intro _ hg; simp [(new_reader_flags h).2] at hg
  | getPPALForRead d b b1 p _ h ih =>
    unfold GPUMirroredMemoryBlock.getPPALForRead at h
    split at h
    · cases h
    · rename_i b2 hu
      cases h
      obtain ⟨hs, hdm, hv, hst⟩ := updateMemPPAL_mem hu
      obtain ⟨_, hg⟩ := updateMemPPAL_flags hu
      intro _ hg1 i hi
      rw [hs] at hi
      rw [hdm]
      cases hp : b.getUpdatedPPAL
      · rw [hst hp]; simp [memcpy, hi]
      · rw [hv hp]
        exact ih hp (hg ▸ hg1) i hi
  | getGPUForRead d b b1 p _ h ih =>
    unfold GPUMirroredMemoryBlock.getGPUForRead at h
    split at h
    · cases h
    · rename_i b2 hu
      cases h
      obtain ⟨hs, hhm, hv, hst⟩ := updateMemGPU_mem hu
      obtain ⟨_, hpp⟩ := updateMemGPU_flags hu
      intro hp1 _ i hi
      rw [hs] at hi
      rw [hhm]
      cases hg : b.getUpdatedGPU
      · exact (hst hg i hi).symm
      · rw [hv hg]
        exact ih (hpp ▸ hp1) hg i hi
  | getPPALForWrite b b1 p v _ h _ =>
    intro _ hg
    have := (getPPALForWrite_flags h).2
    simp [storeHost, getUpdatedGPU] at hg
    simp [getUpdatedGPU, hg] at this
  | getPPALForReadAndWrite d b b1 p v _ h _ =>
    intro _ hg
    have := (getPPALForReadAndWrite_flags h).2
    simp [storeHost, getUpdatedGPU] at hg
    simp [getUpdatedGPU, hg] at this
  | getGPUForWrite d b b1 p v _ h _ =>
    intro hp _
    have := (getGPUForWrite_flags h).2
    simp [storeDevice, getUpdatedPPAL] at hp
    simp [getUpdatedPPAL, hp] at this
  | getGPUForReadAndWrite d b b1 p v _ h _ =>
    intro hp _
    have := (getGPUForReadAndWrite_flags h).2
    simp [storeDevice, getUpdatedPPAL] at hp
    simp [getUpdatedPPAL, hp] at this

/-- C2, amended. In every state a block reaches through the six pointer
accessors, the caller storing only through the pointer a write or read-write
accessor has just returned and only before the next accessor call, if the host
side and the device side are both valid then the `size` bytes of the host
region equal the `size` bytes of the device region. -/
theorem coherence (b : GPUMirroredMemoryBlock) (h : PointerRun b)
    (hh : b.getUpdatedPPAL = true) (hd : b.getUpdatedGPU = true) :
    hostBytes b = deviceBytes b := by
  have hc := coherent_of_pointerRun b h hh hd
  unfold hostBytes deviceBytes
  apply List.map_congr_left
  intro i hi
  exact hc i (List.mem_range.mp hi)

/-- C2, amended, at the sample block after a device read: both sides are valid
and hold the bytes 1, 2, 3, 4. -/
theorem coherence_witness :
    PointerRun sampleMirrored ∧ sampleMirrored.getUpdatedPPAL = true ∧
      sampleMirrored.getUpdatedGPU = true ∧
      hostBytes sampleMirrored = deviceBytes sampleMirrored :=
  have h : PointerRun sampleMirrored :=
    PointerRun.getGPUForRead okDriver sampleBlock sampleMirrored 4096
      (PointerRun.new_mem 4 1000 (fun i => i + 1)) rfl
  ⟨h, by decide, by decide, coherence sampleMirrored h (by decide) (by decide)⟩

/-- The runs in which a store follows at once the accessor that returned the
pointer are among the runs in which the caller keeps its pointers. -/
theorem pointerRun_retained {b : GPUMirroredMemoryBlock} (h : PointerRun b) :
    ∃ host device, RetainedPointerRun b host device := by
  induction h with
  | new_size d pool sz b pool1 h =>
    exact ⟨false, false, RetainedPointerRun.init _ (Constructed.new_size d pool sz b pool1 h)⟩
  | new_mem sz mem content =>
    exact ⟨false, false, RetainedPointerRun.init _ (Constructed.new_mem sz mem content)⟩
  | new_const_mem sz mem content =>
    exact ⟨false, false, RetainedPointerRun.init _ (Constructed.new_const_mem sz mem content)⟩
  | new_reader r r1 b h =>
    exact ⟨false, false, RetainedPointerRun.init _ (Constructed.new_reader r r1 b h)⟩
  | getPPALForRead d b b1 p _ h ih =>
    obtain ⟨ho, dv, hr⟩ := ih
    exact ⟨ho, dv, RetainedPointerRun.getPPALForRead d b b1 p ho dv hr h⟩
  | getGPUForRead d b b1 p _ h ih =>
    obtain ⟨ho, dv, hr⟩ := ih
    exact ⟨ho, dv, RetainedPointerRun.getGPUForRead d b b1 p ho dv hr h⟩
  | getPPALForWrite b b1 p v _ h ih =>
    obtain ⟨ho, dv, hr⟩ := ih
    exact ⟨true, dv, RetainedPointerRun.storeHost b1 v dv
      (RetainedPointerRun.getPPALForWrite b b1 p ho dv hr h)⟩
  | getPPALForReadAndWrite d b b1 p v _ h ih =>
    obtain ⟨ho, dv, hr⟩ := ih
    exact ⟨true, dv, RetainedPointerRun.storeHost b1 v dv
      (RetainedPointerRun.getPPALForReadAndWrite d b b1 p ho dv hr h)⟩
  | getGPUForWrite d b b1 p v _ h ih =>
    obtain ⟨ho, dv, hr⟩ := ih
    exact ⟨ho, true, RetainedPointerRun.storeDevice b1 v ho
      (RetainedPointerRun.getGPUForWrite d b b1 p ho dv hr h)⟩
  | getGPUForReadAndWrite d b b1 p v _ h ih =>
    obtain ⟨ho, dv, hr⟩ := ih
    exact ⟨ho, true, RetainedPointerRun.storeDevice b1 v ho
      (RetainedPointerRun.getGPUForReadAndWrite d b b1 p ho dv hr h)⟩

theorem sampleLateStore_run : RetainedPointerRun sampleLateStore true false :=
  RetainedPointerRun.storeHost sampleHostWrittenMirrored (fun _ => 9) false
    (RetainedPointerRun.getGPUForRead okDriver sampleHostWritten sampleHostWrittenMirrored 4096
      true false
      (RetainedPointerRun.getPPALForWrite sampleBlock sampleHostWritten 1000 false false
        (RetainedPointerRun.init _ (Constructed.new_mem 4 1000 (fun i => i + 1))) rfl)
      rfl)

theorem sampleLateStore_reachable : Reachable sampleLateStore :=
  Reachable.step sampleHostWrittenMirrored sampleLateStore
    (Reachable.step sampleHostWritten sampleHostWrittenMirrored
      (Reachable.step sampleBlock sampleHostWritten
        (Reachable.init _ (Constructed.new_mem 4 1000 (fun i => i + 1)))
        (Step.getPPALForWrite sampleBlock sampleHostWritten 1000 rfl))
      (Step.getGPUForRead okDriver sampleHostWritten sampleHostWrittenMirrored 4096 rfl))
    (Step.storeHost sampleHostWrittenMirrored (fun _ => 9))

/-- C2 as stated fails: `getPPALForWrite` on the sample block returns the host
pointer 1000 and marks the device side stale; `getGPUForRead` then copies the
host bytes 1, 2, 3, 4 to the device and sets both flags, the host pointer still
being 1000; the caller now stores 9, 9, 9, 9 through the host pointer it was
given by the write accessor. No member function is called by that store, so
both flags stay set while the host holds 9, 9, 9, 9 and the device
1, 2, 3, 4. -/
theorem coherence_counterexample :
    getPPALForWrite sampleBlock = .ok (sampleHostWritten, 1000) ∧
    sampleHostWritten.getUpdatedGPU = false ∧
    getGPUForRead okDriver sampleHostWritten = .ok (sampleHostWrittenMirrored, 4096) ∧
    sampleHostWrittenMirrored.mem_ppal = 1000 ∧
    copiesHtoD sampleHostWrittenMirrored.log = [4] ∧
    sampleLateStore = storeHost sampleHostWrittenMirrored (fun _ => 9) ∧
    RetainedPointerRun sampleLateStore true false ∧
    Reachable sampleLateStore ∧
    sampleLateStore.getUpdatedPPAL = true ∧ sampleLateStore.getUpdatedGPU = true ∧
    hostBytes sampleLateStore = [9, 9, 9, 9] ∧
    deviceBytes sampleLateStore = [1, 2, 3, 4] ∧
    hostBytes sampleLateStore ≠ deviceBytes sampleLateStore :=
  ⟨rfl, by decide, rfl, by decide, by decide, rfl, sampleLateStore_run,
    sampleLateStore_reachable, by decide, by decide, by decide, by decide, by decide⟩

/-! ## C3 and C4: the read accessors -/

theorem copiesDtoH_append (l1 l2 : List Effect) :
    copiesDtoH (l1 ++ l2) = copiesDtoH l1 ++ copiesDtoH l2 := by
  simp [copiesDtoH]

theorem copiesHtoD_append (l1 l2 : List Effect) :
    copiesHtoD (l1 ++ l2) = copiesHtoD l1 ++ copiesHtoD l2 := by
  simp [copiesHtoD]

theorem deviceAllocs_append (l1 l2 : List Effect) :
    deviceAllocs (l1 ++ l2) = deviceAllocs l1 ++ deviceAllocs l2 := by
  simp [deviceAllocs]

theorem bytes_memcpy (n : Nat) (src dst : Nat → Nat) :
    (List.range n).map (memcpy n src dst) = (List.range n).map src := by
  apply List.map_congr_left
  intro i hi
  simp [memcpy, List.mem_range.mp hi]

/-- C3. From a state in which the host side is valid or device storage exists
(the condition `updateMemPPAL` asserts), and with a driver whose calls
succeed, the non-const `getPPALForRead` returns the host pointer with the
host side valid and the validity of the device side unchanged. If the host
side was valid the block is unchanged (no copy at all); if it was stale the
log gains exactly one device-to-host copy, of `size` bytes, no host-to-device
copy and no allocation, and the host bytes are the device bytes. -/
theorem readHost_transition (d : Driver) (b : GPUMirroredMemoryBlock) (hd : d.succeeds)
    (hg : b.getUpdatedPPAL = true ∨ b.mem_gpu ≠ 0) :
    ∃ b1, getPPALForRead d b = .ok (b1, b.mem_ppal) ∧
      b1.getUpdatedPPAL = true ∧ b1.getUpdatedGPU = b.getUpdatedGPU ∧
      copiesDtoH b1.log = copiesDtoH b.log ++ (if b.getUpdatedPPAL then [] else [b.size]) ∧
      copiesHtoD b1.log = copiesHtoD b.log ∧
      deviceAllocs b1.log = deviceAllocs b.log ∧
      (if b.getUpdatedPPAL then b1 = b else hostBytes b1 = deviceBytes b) := by
  obtain ⟨_, hdh, _, hasync, _⟩ := hd
  cases hp : b.getUpdatedPPAL
  · have hg1 : b.mem_gpu ≠ 0 := by
      rcases hg with h | h
      · simp [hp] at h
      · exact h
    have hg2 : (b.setUpdatedPPAL).mem_gpu ≠ 0 := hg1
    cases hpin : b.pinned
    · have hpin2 : (b.setUpdatedPPAL).pinned = false := hpin
      refine ⟨{ b.setUpdatedPPAL with
                hostMem := memcpy b.size b.deviceMem b.hostMem
                log := b.log ++ [Effect.cuMemcpyDtoH b.size] }, ?_, ?_, ?_, ?_, ?_, ?_, ?_⟩
      · simp only [getPPALForRead, updateMemPPAL, hp, hg2, hpin2, hdh]
        rfl
      · exact getUpdatedPPAL_setUpdatedPPAL b
      · exact getUpdatedGPU_setUpdatedPPAL b
      · simp [copiesDtoH_append, copiesDtoH, Effect.dtoh]
      · simp [copiesHtoD_append, copiesHtoD, Effect.htod]
      · simp [deviceAllocs_append, deviceAllocs, Effect.alloc]
      · simp only [Bool.false_eq_true, if_false]
        exact bytes_memcpy b.size b.deviceMem b.hostMem
    · have hpin2 : (b.setUpdatedPPAL).pinned = true := hpin
      refine ⟨{ b.setUpdatedPPAL with
                hostMem := memcpy b.size b.deviceMem b.hostMem
                pending := false
                log := b.log ++ [Effect.cudaMemcpyAsyncDtoH b.size,
                                  Effect.cudaThreadSynchronize] }, ?_, ?_, ?_, ?_, ?_, ?_, ?_⟩
      · simp only [getPPALForRead, updateMemPPAL, hp, hg2, hpin2, hasync]
        rfl
      · exact getUpdatedPPAL_setUpdatedPPAL b
      · exact getUpdatedGPU_setUpdatedPPAL b
      · simp [copiesDtoH_append, copiesDtoH, Effect.dtoh]
      · simp [copiesHtoD_append, copiesHtoD, Effect.htod]
      · simp [deviceAllocs_append, deviceAllocs, Effect.alloc]
      · simp only [Bool.false_eq_true, if_false]
        exact bytes_memcpy b.size b.deviceMem b.hostMem
  · refine ⟨b, ?_, hp, rfl, ?_, rfl, rfl, ?_⟩
    · simp [getPPALForRead, updateMemPPAL, hp]
    · simp
    · simp

/-- C3 at the sample block after a device write (host side stale, device
storage present): the read copies once. -/
theorem readHost_transition_witness :
    okDriver.succeeds ∧ (sampleOnDevice.getUpdatedPPAL = true ∨ sampleOnDevice.mem_gpu ≠ 0) ∧
    ∃ b1, getPPALForRead okDriver sampleOnDevice = .ok (b1, sampleOnDevice.mem_ppal) ∧
      b1.getUpdatedPPAL = true ∧ b1.getUpdatedGPU = sampleOnDevice.getUpdatedGPU ∧
      copiesDtoH b1.log = copiesDtoH sampleOnDevice.log ++
        (if sampleOnDevice.getUpdatedPPAL then [] else [sampleOnDevice.size]) ∧
      copiesHtoD b1.log = copiesHtoD sampleOnDevice.log ∧
      deviceAllocs b1.log = deviceAllocs sampleOnDevice.log ∧
      (if sampleOnDevice.getUpdatedPPAL then b1 = sampleOnDevice
        else hostBytes b1 = deviceBytes sampleOnDevice) :=
  ⟨by decide, by decide, readHost_transition okDriver sampleOnDevice (by decide) (by decide)⟩

/-- C4. With a driver whose calls succeed, from every state the non-const
`getGPUForRead` returns the device handle with the device side valid and the
validity of the host side unchanged. If the device side was valid the block
is unchanged (no allocation, no copy); if it was stale, device storage is
allocated exactly when there was none, the log gains exactly one
host-to-device copy, of `size` bytes, and no device-to-host copy, and the
device bytes are the host bytes. -/
theorem readDevice_transition (d : Driver) (b : GPUMirroredMemoryBlock) (hd : d.succeeds) :
    ∃ b1, getGPUForRead d b = .ok (b1, b1.mem_gpu) ∧
      b1.getUpdatedGPU = true ∧ b1.getUpdatedPPAL = b.getUpdatedPPAL ∧
      copiesHtoD b1.log = copiesHtoD b.log ++ (if b.getUpdatedGPU then [] else [b.size]) ∧
      copiesDtoH b1.log = copiesDtoH b.log ∧
      deviceAllocs b1.log = deviceAllocs b.log ++
        (if b.getUpdatedGPU || b.mem_gpu != 0 then [] else [b.size]) ∧
      some b1.mem_gpu = (if b.getUpdatedGPU || b.mem_gpu != 0 then some b.mem_gpu
        else d.cuMemAlloc) ∧
      (if b.getUpdatedGPU then b1 = b else deviceBytes b1 = hostBytes b) := by
  obtain ⟨halloc, _, hhd, hasync, _⟩ := hd
  obtain ⟨h, halloc⟩ := Option.isSome_iff_exists.mp halloc
  cases hp : b.getUpdatedGPU
  · by_cases hm : b.mem_gpu = 0 <;> cases hpin : b.pinned <;>
      simp only [getGPUForRead, updateMemGPU, allocMemGPU, copyPPALtoGPU, hp, hm, halloc, hhd,
        hasync, hpin, pinned_setUpdatedGPU, size_setUpdatedGPU, log_setUpdatedGPU,
        hostMem_setUpdatedGPU, deviceMem_setUpdatedGPU, Bool.not_false, Bool.not_true,
        if_true, if_false, Bool.false_eq_true] <;>
      refine ⟨_, rfl, getUpdatedGPU_setUpdatedGPU _, getUpdatedPPAL_setUpdatedGPU _, ?_, ?_,
        ?_, ?_, ?_⟩ <;>
      simp [copiesDtoH, copiesHtoD, deviceAllocs, Effect.dtoh, Effect.htod, Effect.alloc, hm,
        deviceBytes, hostBytes, bytes_memcpy]
  · refine ⟨b, ?_, hp, rfl, ?_, rfl, ?_, ?_, ?_⟩ <;>
      simp [getGPUForRead, updateMemGPU, hp]

/-- C4 at the sample block (device side stale, no device storage): the read
allocates and copies once. -/
theorem readDevice_transition_witness :
    okDriver.succeeds ∧
    ∃ b1, getGPUForRead okDriver sampleBlock = .ok (b1, b1.mem_gpu) ∧
      b1.getUpdatedGPU = true ∧ b1.getUpdatedPPAL = sampleBlock.getUpdatedPPAL ∧
      copiesHtoD b1.log = copiesHtoD sampleBlock.log ++
        (if sampleBlock.getUpdatedGPU then [] else [sampleBlock.size]) ∧
      copiesDtoH b1.log = copiesDtoH sampleBlock.log ∧
      deviceAllocs b1.log = deviceAllocs sampleBlock.log ++
        (if sampleBlock.getUpdatedGPU || sampleBlock.mem_gpu != 0 then []
          else [sampleBlock.size]) ∧
      some b1.mem_gpu = (if sampleBlock.getUpdatedGPU || sampleBlock.mem_gpu != 0
        then some sampleBlock.mem_gpu else okDriver.cuMemAlloc) ∧
      (if sampleBlock.getUpdatedGPU then b1 = sampleBlock
        else deviceBytes b1 = hostBytes sampleBlock) :=
  ⟨by decide, readDevice_transition okDriver sampleBlock (by decide)⟩

/-! ## C5 and C6: the write accessors -/

/-- C5. On every block without the const bit, whatever its state,
`getPPALForWrite` returns the host pointer with the host side valid and the
device side stale; it calls nothing (the log is unchanged: no copy in either
direction, no allocation) and leaves the device handle and both regions as
they were. -/
theorem writeHost_transition (b : GPUMirroredMemoryBlock) (hc : b.isConst = false) :
    ∃ b1, getPPALForWrite b = .ok (b1, b.mem_ppal) ∧
      b1.getUpdatedPPAL = true ∧ b1.getUpdatedGPU = false ∧
      b1.log = b.log ∧ b1.mem_gpu = b.mem_gpu ∧
      b1.hostMem = b.hostMem ∧ b1.deviceMem = b.deviceMem := by
  refine ⟨b.setUpdatedPPAL.unsetUpdatedGPU, ?_, ?_, ?_, rfl, rfl, rfl, rfl⟩
  · simp [getPPALForWrite, hc]
  · simp
  · simp

/-- C5 at the sample block after a device write, whose host side is stale. -/
theorem writeHost_transition_witness :
    sampleOnDevice.isConst = false ∧
    ∃ b1, getPPALForWrite sampleOnDevice = .ok (b1, sampleOnDevice.mem_ppal) ∧
      b1.getUpdatedPPAL = true ∧ b1.getUpdatedGPU = false ∧
      b1.log = sampleOnDevice.log ∧ b1.mem_gpu = sampleOnDevice.mem_gpu ∧
      b1.hostMem = sampleOnDevice.hostMem ∧ b1.deviceMem = sampleOnDevice.deviceMem :=
  ⟨by decide, writeHost_transition sampleOnDevice (by decide)⟩

/-- C6 as stated fails: on the sample block, which is not const and has no
device storage, `getGPUForWrite` allocates and then copies the four host bytes
to the device. -/
theorem writeDevice_copies_counterexample :
    sampleBlock.isConst = false ∧ sampleBlock.mem_gpu = 0 ∧
    getGPUForWrite okDriver sampleBlock = .ok (sampleOnDevice, 4096) ∧
    copiesHtoD sampleBlock.log = [] ∧ copiesHtoD sampleOnDevice.log = [4] ∧
    sampleOnDevice.log = [Effect.cuMemAlloc 4, Effect.cuMemcpyHtoD 4] :=
  ⟨by decide, by decide, rfl, by decide, by decide, by decide⟩

/-- C6, amended. On every block without the const bit, with a driver whose
calls succeed, `getGPUForWrite` returns the device handle with the device side
valid and the host side stale and makes no device-to-host copy. When device
storage was absent it is allocated and the log gains one allocation followed
by exactly one host-to-device copy of `size` bytes; when device storage
existed nothing is called and the handle and the device bytes are unchanged. -/
theorem writeDevice_transition (d : Driver) (b : GPUMirroredMemoryBlock) (hd : d.succeeds)
    (hc : b.isConst = false) :
    ∃ b1, getGPUForWrite d b = .ok (b1, b1.mem_gpu) ∧
      b1.getUpdatedGPU = true ∧ b1.getUpdatedPPAL = false ∧
      copiesDtoH b1.log = copiesDtoH b.log ∧
      deviceAllocs b1.log = deviceAllocs b.log ++ (if b.mem_gpu = 0 then [b.size] else []) ∧
      copiesHtoD b1.log = copiesHtoD b.log ++ (if b.mem_gpu = 0 then [b.size] else []) ∧
      some b1.mem_gpu = (if b.mem_gpu = 0 then d.cuMemAlloc else some b.mem_gpu) ∧
      (if b.mem_gpu = 0 then deviceBytes b1 = hostBytes b
        else b1.log = b.log ∧ b1.deviceMem = b.deviceMem) := by
  obtain ⟨halloc, _, hhd, hasync, _⟩ := hd
  obtain ⟨h, halloc⟩ := Option.isSome_iff_exists.mp halloc
  by_cases hm : b.mem_gpu = 0 <;> cases hpin : b.pinned <;>
    simp only [getGPUForWrite, allocMemGPU, copyPPALtoGPU, hc, hm, halloc, hhd,
      hasync, hpin, Bool.not_false, Bool.not_true, if_true, if_false, Bool.false_eq_true] <;>
    refine ⟨_, rfl, ?_, ?_, ?_, ?_, ?_, ?_, ?_⟩ <;>
    simp [copiesDtoH, copiesHtoD, deviceAllocs, Effect.dtoh, Effect.htod, Effect.alloc, hm,
      deviceBytes, hostBytes, bytes_memcpy]

/-- C6, amended, at the sample block after a device read, whose device storage
exists: nothing is copied. -/
theorem writeDevice_transition_witness :
    okDriver.succeeds ∧ sampleMirrored.isConst = false ∧
    ∃ b1, getGPUForWrite okDriver sampleMirrored = .ok (b1, b1.mem_gpu) ∧
      b1.getUpdatedGPU = true ∧ b1.getUpdatedPPAL = false ∧
      copiesDtoH b1.log = copiesDtoH sampleMirrored.log ∧
      deviceAllocs b1.log = deviceAllocs sampleMirrored.log ++
        (if sampleMirrored.mem_gpu = 0 then [sampleMirrored.size] else []) ∧
      copiesHtoD b1.log = copiesHtoD sampleMirrored.log ++
        (if sampleMirrored.mem_gpu = 0 then [sampleMirrored.size] else []) ∧
      some b1.mem_gpu = (if sampleMirrored.mem_gpu = 0 then okDriver.cuMemAlloc
        else some sampleMirrored.mem_gpu) ∧
      (if sampleMirrored.mem_gpu = 0 then deviceBytes b1 = hostBytes sampleMirrored
        else b1.log = sampleMirrored.log ∧ b1.deviceMem = sampleMirrored.deviceMem) :=
  ⟨by decide, by decide, writeDevice_transition okDriver sampleMirrored (by decide) (by decide)⟩

/-! ## C7: the read-write accessors -/

/-- C7. On every block without the const bit, in every state and with every
driver, `getPPALForReadAndWrite` returns exactly what `getPPALForRead`
followed by clearing the device-valid bit returns (same block, same log, same
pointer, same exit when a call fails), and `getGPUForReadAndWrite` exactly
what `getGPUForRead` followed by clearing the host-valid bit returns. -/
theorem readWrite_is_read_then_invalidate (d : Driver) (b : GPUMirroredMemoryBlock)
    (hc : b.isConst = false) :
    getPPALForReadAndWrite d b = spec_readWriteHost d b ∧
      getGPUForReadAndWrite d b = spec_readWriteDevice d b := by
  constructor
  · simp only [getPPALForReadAndWrite, spec_readWriteHost, getPPALForRead, hc]
    cases updateMemPPAL d b <;> simp
  · simp only [getGPUForReadAndWrite, spec_readWriteDevice, getGPUForRead, hc]
    cases updateMemGPU d b <;> simp

/-- C7 at the sample block after a device write. -/
theorem readWrite_is_read_then_invalidate_witness :
    sampleOnDevice.isConst = false ∧
    getPPALForReadAndWrite okDriver sampleOnDevice = spec_readWriteHost okDriver sampleOnDevice ∧
    getGPUForReadAndWrite okDriver sampleOnDevice =
      spec_readWriteDevice okDriver sampleOnDevice :=
  ⟨by decide, readWrite_is_read_then_invalidate okDriver sampleOnDevice (by decide)⟩

/-! ## C8, C9 and C10: const blocks -/

theorem isConst_new_const_mem (sz mem : Nat) (content : Nat → Nat) :
    (GPUMirroredMemoryBlockBase.new_const_mem sz mem content).isConst = true := by
  simp [GPUMirroredMemoryBlockBase.new_const_mem]

/-- C8. In every state of a block built by the const-pointer constructor
(any number of steps later), each of `getPPALForWrite`,
`getPPALForReadAndWrite`, `getGPUForWrite` and `getGPUForReadAndWrite` ends
the process with "Impossible to write in a const memory block", whatever the
driver, and the block at the exit is the block as it was before the call:
flags, device handle, both regions and log unchanged, so nothing was
allocated or copied. -/
theorem const_enforcement (sz mem : Nat) (content : Nat → Nat) (d : Driver)
    (b : GPUMirroredMemoryBlock)
    (h : Relation.ReflTransGen Step (GPUMirroredMemoryBlockBase.new_const_mem sz mem content) b) :
    getPPALForWrite b = .error ⟨Exit.constWrite, b⟩ ∧
      getPPALForReadAndWrite d b = .error ⟨Exit.constWrite, b⟩ ∧
      getGPUForWrite d b = .error ⟨Exit.constWrite, b⟩ ∧
      getGPUForReadAndWrite d b = .error ⟨Exit.constWrite, b⟩ := by
  have hc : b.isConst = true :=
    (steps_sameBuild h).2.1.trans (isConst_new_const_mem sz mem content)
  simp [getPPALForWrite, getPPALForReadAndWrite, getGPUForWrite, getGPUForReadAndWrite, hc]

/-- C8 at the sample const block after a (non-const) device read. -/
theorem const_enforcement_witness :
    Relation.ReflTransGen Step
      (GPUMirroredMemoryBlockBase.new_const_mem 4 1000 (fun i => i + 1)) sampleConstMirrored ∧
    getPPALForWrite sampleConstMirrored = .error ⟨Exit.constWrite, sampleConstMirrored⟩ ∧
    getPPALForReadAndWrite okDriver sampleConstMirrored =
      .error ⟨Exit.constWrite, sampleConstMirrored⟩ ∧
    getGPUForWrite okDriver sampleConstMirrored =
      .error ⟨Exit.constWrite, sampleConstMirrored⟩ ∧
    getGPUForReadAndWrite okDriver sampleConstMirrored =
      .error ⟨Exit.constWrite, sampleConstMirrored⟩ :=
  have h : Relation.ReflTransGen Step
      (GPUMirroredMemoryBlockBase.new_const_mem 4 1000 (fun i => i + 1)) sampleConstMirrored :=
    Relation.ReflTransGen.single
      (Step.getGPUForRead okDriver sampleConstBlock sampleConstMirrored 4096 rfl)
  ⟨h, const_enforcement 4 1000 (fun i => i + 1) okDriver sampleConstMirrored h⟩

/-- C9 fails on the code. On the sample const block the non-const `get` and
`operator[]` do not end the process: they return the address of element 2 (a
mutable reference into the const memory); when both sides are valid they also
clear the device-valid bit. -/
theorem get_ignores_const :
    sampleConstBlock.isConst = true ∧
    GPUMirroredMemoryBlock.get 1 okDriver sampleConstBlock 2 =
      .ok (sampleConstBlock.unsetUpdatedGPU, 1002) ∧
    sampleConstMirrored.isConst = true ∧
    sampleConstMirrored.getUpdatedPPAL = true ∧ sampleConstMirrored.getUpdatedGPU = true ∧
    GPUMirroredMemoryBlock.get 1 okDriver sampleConstMirrored 2 =
      .ok (sampleConstMirrored.unsetUpdatedGPU, 1002) ∧
    operator_index 1 okDriver sampleConstMirrored 2 =
      .ok (sampleConstMirrored.unsetUpdatedGPU, 1002) ∧
    sampleConstMirrored.unsetUpdatedGPU.getUpdatedGPU = false :=
  ⟨by decide, rfl, by decide, by decide, by decide, rfl, rfl, by decide⟩

/-- C10 as stated fails: on the sample const block, whose device side is not
valid, the non-const `getGPUForRead` does not end the process; it allocates
device storage, copies the four host bytes and sets the device-valid bit. -/
theorem const_block_lazy_sync_counterexample :
    sampleConstBlock.isConst = true ∧ sampleConstBlock.getUpdatedGPU = false ∧
    getGPUForRead okDriver sampleConstBlock = .ok (sampleConstMirrored, 4096) ∧
    sampleConstMirrored.getUpdatedGPU = true ∧
    sampleConstMirrored.log = [Effect.cuMemAlloc 4, Effect.cuMemcpyHtoD 4] :=
  ⟨by decide, by decide, rfl, by decide, by decide⟩

/-- C10, amended. The read accessors reached through a const-qualified handle
(the `const` overloads of `getPPALForRead`, `getGPUForRead`, `get` and
`operator[]`) never synchronise: on every block, built as const or not, they
return the pointer when the requested side is valid and otherwise end the
process with exit code 128, the block at the exit being the block as it was
(no allocation, no copy, no flag change). -/
theorem const_overloads_never_synchronise (sizeofT pos : Nat) (b : GPUMirroredMemoryBlock) :
    getPPALForRead_const b =
        (if b.getUpdatedPPAL then .ok b.mem_ppal else .error ⟨Exit.updateFromNonConst, b⟩) ∧
      getGPUForRead_const b =
        (if b.getUpdatedGPU then .ok b.mem_gpu else .error ⟨Exit.updateFromNonConst, b⟩) ∧
      get_const sizeofT b pos =
        (if b.getUpdatedPPAL then .ok (b.mem_ppal + pos * sizeofT)
          else .error ⟨Exit.needNonConst, b⟩) ∧
      operator_index_const sizeofT b pos =
        (if b.getUpdatedPPAL then .ok (b.mem_ppal + pos * sizeofT)
          else .error ⟨Exit.needNonConst, b⟩) ∧
      Exit.updateFromNonConst.code = 128 ∧ Exit.needNonConst.code = 128 := by
  refine ⟨?_, ?_, ?_, ?_, rfl, rfl⟩
  · cases hp : b.getUpdatedPPAL <;> simp [getPPALForRead_const, hp]
  · cases hp : b.getUpdatedGPU <;> simp [getGPUForRead_const, hp]
  · cases hp : b.getUpdatedPPAL <;> simp [get_const, updateMemPPAL_const, hp]
  · cases hp : b.getUpdatedPPAL <;>
      simp [operator_index_const, get_const, updateMemPPAL_const, hp]

/-! ## C11, C12 and C13: consistency and the absence of redundant transfers -/

theorem getPPALForWrite_ok (b : GPUMirroredMemoryBlock) (hc : b.isConst = false) :
    getPPALForWrite b = .ok (b.setUpdatedPPAL.unsetUpdatedGPU, b.mem_ppal) := by
  simp [getPPALForWrite, hc]

theorem getPPALForRead_valid (d : Driver) (b : GPUMirroredMemoryBlock)
    (hp : b.getUpdatedPPAL = true) : getPPALForRead d b = .ok (b, b.mem_ppal) := by
  simp [getPPALForRead, updateMemPPAL, hp]

theorem getGPUForRead_valid (d : Driver) (b : GPUMirroredMemoryBlock)
    (hp : b.getUpdatedGPU = true) : getGPUForRead d b = .ok (b, b.mem_gpu) := by
  simp [getGPUForRead, updateMemGPU, hp]

theorem getGPUForWrite_allocated (d : Driver) (b : GPUMirroredMemoryBlock)
    (hc : b.isConst = false) (hm : b.mem_gpu ≠ 0) :
    getGPUForWrite d b = .ok (b.setUpdatedGPU.unsetUpdatedPPAL, b.mem_gpu) := by
  simp [getGPUForWrite, allocMemGPU, hc, hm]

theorem getGPUForRead_stale (d : Driver) (b : GPUMirroredMemoryBlock) (hd : d.succeeds)
    (hp : b.getUpdatedGPU = false) :
    ∃ b1, getGPUForRead d b = .ok (b1, b1.mem_gpu) ∧
      b1.getUpdatedGPU = true ∧ b1.getUpdatedPPAL = b.getUpdatedPPAL ∧
      b1.size = b.size ∧ b1.hostMem = b.hostMem ∧ b1.mem_ppal = b.mem_ppal ∧
      (∀ i, i < b.size → b1.deviceMem i = b.hostMem i) ∧
      copiesHtoD b1.log = copiesHtoD b.log ++ [b.size] ∧
      copiesDtoH b1.log = copiesDtoH b.log := by
  obtain ⟨halloc, _, hhd, hasync, _⟩ := hd
  obtain ⟨h, halloc⟩ := Option.isSome_iff_exists.mp halloc
  by_cases hm : b.mem_gpu = 0 <;> cases hpin : b.pinned <;>
    simp only [getGPUForRead, updateMemGPU, allocMemGPU, copyPPALtoGPU, hp, hm, halloc, hhd,
      hasync, hpin, pinned_setUpdatedGPU, size_setUpdatedGPU, log_setUpdatedGPU,
      hostMem_setUpdatedGPU, deviceMem_setUpdatedGPU, Bool.not_false, Bool.not_true,
      if_true, if_false, Bool.false_eq_true] <;>
    refine ⟨_, rfl, getUpdatedGPU_setUpdatedGPU _, getUpdatedPPAL_setUpdatedGPU _, rfl, rfl,
      rfl, ?_, ?_, ?_⟩ <;>
    first
      | (intro i hi; simp [memcpy, hi])
      | simp [copiesDtoH, copiesHtoD, Effect.dtoh, Effect.htod]

theorem getPPALForRead_stale (d : Driver) (b : GPUMirroredMemoryBlock) (hd : d.succeeds)
    (hp : b.getUpdatedPPAL = false) (hm : b.mem_gpu ≠ 0) :
    ∃ b1, getPPALForRead d b = .ok (b1, b.mem_ppal) ∧
      b1.getUpdatedPPAL = true ∧ b1.getUpdatedGPU = b.getUpdatedGPU ∧
      b1.size = b.size ∧ b1.deviceMem = b.deviceMem ∧ b1.mem_ppal = b.mem_ppal ∧
      (∀ i, i < b.size → b1.hostMem i = b.deviceMem i) ∧
      copiesDtoH b1.log = copiesDtoH b.log ++ [b.size] ∧
      copiesHtoD b1.log = copiesHtoD b.log := by
  obtain ⟨_, hdh, _, hasync, _⟩ := hd
  have hm2 : (b.setUpdatedPPAL).mem_gpu ≠ 0 := hm
  cases hpin : b.pinned <;>
    simp only [getPPALForRead, updateMemPPAL, hp, hm2, hdh, hasync, hpin, pinned_setUpdatedPPAL,
      size_setUpdatedPPAL, log_setUpdatedPPAL, hostMem_setUpdatedPPAL,
      deviceMem_setUpdatedPPAL, Bool.not_false, Bool.not_true, if_true, if_false,
      Bool.false_eq_true] <;>
    refine ⟨_, rfl, getUpdatedPPAL_setUpdatedPPAL _, getUpdatedGPU_setUpdatedPPAL _, rfl, rfl,
      rfl, ?_, ?_, ?_⟩ <;>
    first
      | (intro i hi; simp [memcpy, hi])
      | simp [copiesDtoH, copiesHtoD, Effect.dtoh, Effect.htod]

theorem map_range_bytesOf (v : List Nat) :
    (List.range v.length).map (bytesOf v) = v := by
  apply List.ext_getElem
  · simp
  · intro i h1 h2
    simp [bytesOf, List.getD_eq_getElem?_getD, List.getElem?_eq_getElem h2]

theorem runReads_both_valid (reads : List ReadCall) (b : GPUMirroredMemoryBlock)
    (hp : b.getUpdatedPPAL = true) (hg : b.getUpdatedGPU = true) :
    runReads reads b = .ok b := by
  induction reads with
  | nil => rfl
  | cons c cs ih =>
    cases c with
    | readHost d => simp [runReads, ReadCall.run, getPPALForRead_valid d b hp, ih]
    | readDevice d => simp [runReads, ReadCall.run, getGPUForRead_valid d b hg, ih]

/-- C11. On every block without the const bit, for every byte sequence `v` of
the block's size and a driver whose calls succeed: after `getPPALForWrite`
and the store of `v` through the pointer it returns, `getGPUForRead` returns a
block whose device bytes are `v`, whose host side is still valid (host bytes
`v`) and whose log has gained exactly one host-to-device copy; every further
sequence of `getPPALForRead` and `getGPUForRead` calls, whatever the driver,
returns that same block, so nothing more is copied. -/
theorem host_to_device_consistency (d : Driver) (b : GPUMirroredMemoryBlock) (v : List Nat)
    (reads : List ReadCall) (hd : d.succeeds) (hc : b.isConst = false)
    (hv : v.length = b.size) :
    ∃ b1 b2, getPPALForWrite b = .ok (b1, b.mem_ppal) ∧
      getGPUForRead d (storeHost b1 (bytesOf v)) = .ok (b2, b2.mem_gpu) ∧
      deviceBytes b2 = v ∧ hostBytes b2 = v ∧
      b2.getUpdatedPPAL = true ∧ b2.getUpdatedGPU = true ∧
      copiesHtoD b2.log = copiesHtoD b.log ++ [b.size] ∧
      copiesDtoH b2.log = copiesDtoH b.log ∧
      runReads reads b2 = .ok b2 := by
  have hstale : (storeHost (b.setUpdatedPPAL.unsetUpdatedGPU) (bytesOf v)).getUpdatedGPU
      = false := getUpdatedGPU_unsetUpdatedGPU _
  have hvalid : (storeHost (b.setUpdatedPPAL.unsetUpdatedGPU) (bytesOf v)).getUpdatedPPAL
      = true := by
    show (b.setUpdatedPPAL.unsetUpdatedGPU).getUpdatedPPAL = true
    simp
  obtain ⟨b2, h2, hg2, hp2, hs2, hh2, _, hd2, hl2, hl2'⟩ :=
    getGPUForRead_stale d (storeHost (b.setUpdatedPPAL.unsetUpdatedGPU) (bytesOf v)) hd hstale
  have hsz : (storeHost (b.setUpdatedPPAL.unsetUpdatedGPU) (bytesOf v)).size = b.size := rfl
  have hhost : ∀ i, i < b.size →
      (storeHost (b.setUpdatedPPAL.unsetUpdatedGPU) (bytesOf v)).hostMem i = bytesOf v i := by
    intro i hi
    simp [storeHost, memcpy, hi]
  have hbytes : (List.range b.size).map (bytesOf v) = v := by
    rw [← hv]; exact map_range_bytesOf v
  refine ⟨_, b2, getPPALForWrite_ok b hc, h2, ?_, ?_, ?_, hg2, hl2, hl2', ?_⟩
  · rw [← hbytes]
    unfold deviceBytes
    rw [hs2, hsz]
    apply List.map_congr_left
    intro i hi
    have hi' := List.mem_range.mp hi
    rw [hd2 i (hsz ▸ hi'), hhost i hi']
  · rw [← hbytes]
    unfold hostBytes
    rw [hs2, hsz, hh2]
    apply List.map_congr_left
    intro i hi
    exact hhost i (List.mem_range.mp hi)
  · rw [hp2]; exact hvalid
  · exact runReads_both_valid reads b2 (by rw [hp2]; exact hvalid) hg2

/-- C11 at the sample block with the bytes 9, 8, 7, 6, followed by a host
read and a device read. -/
theorem host_to_device_consistency_witness :
    okDriver.succeeds ∧ sampleBlock.isConst = false ∧
    [9, 8, 7, 6].length = sampleBlock.size ∧
    ∃ b1 b2, getPPALForWrite sampleBlock = .ok (b1, sampleBlock.mem_ppal) ∧
      getGPUForRead okDriver (storeHost b1 (bytesOf [9, 8, 7, 6])) = .ok (b2, b2.mem_gpu) ∧
      deviceBytes b2 = [9, 8, 7, 6] ∧ hostBytes b2 = [9, 8, 7, 6] ∧
      b2.getUpdatedPPAL = true ∧ b2.getUpdatedGPU = true ∧
      copiesHtoD b2.log = copiesHtoD sampleBlock.log ++ [sampleBlock.size] ∧
      copiesDtoH b2.log = copiesDtoH sampleBlock.log ∧
      runReads [ReadCall.readHost okDriver, ReadCall.readDevice okDriver] b2 = .ok b2 :=
  ⟨by decide, by decide, by decide,
    host_to_device_consistency okDriver sampleBlock [9, 8, 7, 6]
      [ReadCall.readHost okDriver, ReadCall.readDevice okDriver]
      (by decide) (by decide) (by decide)⟩

/-- C12. With a driver whose calls succeed on the first call, two consecutive
`getGPUForRead` calls return the same block and the same handle: the first
adds one host-to-device copy (of `size` bytes) to the log exactly when the
device side was stale, and the second, whatever its driver, changes nothing,
so it copies nothing and allocates nothing. -/
theorem no_redundant_transfer (d1 d2 : Driver) (b : GPUMirroredMemoryBlock)
    (hd : d1.succeeds) :
    ∃ b1, getGPUForRead d1 b = .ok (b1, b1.mem_gpu) ∧
      getGPUForRead d2 b1 = .ok (b1, b1.mem_gpu) ∧
      copiesHtoD b1.log = copiesHtoD b.log ++ (if b.getUpdatedGPU then [] else [b.size]) := by
  cases hp : b.getUpdatedGPU
  · obtain ⟨b1, h1, hg1, _, _, _, _, _, hl, _⟩ := getGPUForRead_stale d1 b hd hp
    exact ⟨b1, h1, getGPUForRead_valid d2 b1 hg1, by simpa using hl⟩
  · exact ⟨b, getGPUForRead_valid d1 b hp, getGPUForRead_valid d2 b hp, by simp⟩

/-- C12 at the sample block, whose device side is stale: one copy in total. -/
theorem no_redundant_transfer_witness :
    okDriver.succeeds ∧
    ∃ b1, getGPUForRead okDriver sampleBlock = .ok (b1, b1.mem_gpu) ∧
      getGPUForRead okDriver b1 = .ok (b1, b1.mem_gpu) ∧
      copiesHtoD b1.log = copiesHtoD sampleBlock.log ++
        (if sampleBlock.getUpdatedGPU then [] else [sampleBlock.size]) :=
  ⟨by decide, no_redundant_transfer okDriver okDriver sampleBlock (by decide)⟩

/-- C13. On every block without the const bit whose device storage exists, for
every byte sequence `w` of the block's size and a driver whose calls succeed:
`getGPUForWrite` calls nothing; after the store of `w` through the handle it
returns, `getPPALForRead` returns a block whose host bytes are `w` and whose
log has gained exactly one device-to-host copy (of `size` bytes) and no
host-to-device copy; a second `getPPALForRead`, whatever its driver, returns
the same block. On the 16-byte run of the specification the five accessor
calls record 0, 1, 0, 1, 0 copies, the device bytes after `readDevice` are
1..16 and the host bytes after `readHost` are 16..1. -/
theorem device_to_host_consistency (d d2 : Driver) (b : GPUMirroredMemoryBlock) (w : List Nat)
    (hd : d.succeeds) (hc : b.isConst = false) (hm : b.mem_gpu ≠ 0)
    (hw : w.length = b.size) :
    (∃ b1 b2, getGPUForWrite d b = .ok (b1, b.mem_gpu) ∧ b1.log = b.log ∧
      getPPALForRead d (storeDevice b1 (bytesOf w)) = .ok (b2, b.mem_ppal) ∧
      hostBytes b2 = w ∧
      copiesDtoH b2.log = copiesDtoH b.log ++ [b.size] ∧
      copiesHtoD b2.log = copiesHtoD b.log ∧
      getPPALForRead d2 b2 = .ok (b2, b.mem_ppal)) ∧
    endToEnd = some
      { copies := [0, 1, 0, 1, 0]
        deviceAfterRead := [1, 2, 3, 4, 5, 6, 7, 8, 9, 10, 11, 12, 13, 14, 15, 16]
        hostAfterRead := [16, 15, 14, 13, 12, 11, 10, 9, 8, 7, 6, 5, 4, 3, 2, 1] } := by
  refine ⟨?_, by decide⟩
  have hstale : (storeDevice (b.setUpdatedGPU.unsetUpdatedPPAL) (bytesOf w)).getUpdatedPPAL
      = false := getUpdatedPPAL_unsetUpdatedPPAL _
  have hmg : (storeDevice (b.setUpdatedGPU.unsetUpdatedPPAL) (bytesOf w)).mem_gpu ≠ 0 := hm
  obtain ⟨b2, h2, hp2, _, hs2, _, hmp2, hh2, hl2, hl2'⟩ :=
    getPPALForRead_stale d (storeDevice (b.setUpdatedGPU.unsetUpdatedPPAL) (bytesOf w)) hd
      hstale hmg
  have hsz : (storeDevice (b.setUpdatedGPU.unsetUpdatedPPAL) (bytesOf w)).size = b.size := rfl
  have hdev : ∀ i, i < b.size →
      (storeDevice (b.setUpdatedGPU.unsetUpdatedPPAL) (bytesOf w)).deviceMem i
        = bytesOf w i := by
    intro i hi
    simp [storeDevice, memcpy, hi]
  have hbytes : (List.range b.size).map (bytesOf w) = w := by
    rw [← hw]; exact map_range_bytesOf w
  refine ⟨_, b2, getGPUForWrite_allocated d b hc hm, rfl, h2, ?_, hl2, hl2', ?_⟩
  · rw [← hbytes]
    unfold hostBytes
    rw [hs2, hsz]
    apply List.map_congr_left
    intro i hi
    have hi' := List.mem_range.mp hi
    rw [hh2 i (hsz ▸ hi'), hdev i hi']
  · have := getPPALForRead_valid d2 b2 hp2
    rw [hmp2] at this
    exact this

/-- C13 at the sample block after a device read (device storage present),
with the bytes 4, 3, 2, 1 written on the device. -/
theorem device_to_host_consistency_witness :
    okDriver.succeeds ∧ sampleMirrored.isConst = false ∧ sampleMirrored.mem_gpu ≠ 0 ∧
    [4, 3, 2, 1].length = sampleMirrored.size ∧
    (∃ b1 b2, getGPUForWrite okDriver sampleMirrored = .ok (b1, sampleMirrored.mem_gpu) ∧
      b1.log = sampleMirrored.log ∧
      getPPALForRead okDriver (storeDevice b1 (bytesOf [4, 3, 2, 1]))
        = .ok (b2, sampleMirrored.mem_ppal) ∧
      hostBytes b2 = [4, 3, 2, 1] ∧
      copiesDtoH b2.log = copiesDtoH sampleMirrored.log ++ [sampleMirrored.size] ∧
      copiesHtoD b2.log = copiesHtoD sampleMirrored.log ∧
      getPPALForRead okDriver b2 = .ok (b2, sampleMirrored.mem_ppal)) ∧
    endToEnd = some
      { copies := [0, 1, 0, 1, 0]
        deviceAfterRead := [1, 2, 3, 4, 5, 6, 7, 8, 9, 10, 11, 12, 13, 14, 15, 16]
        hostAfterRead := [16, 15, 14, 13, 12, 11, 10, 9, 8, 7, 6, 5, 4, 3, 2, 1] } :=
  ⟨by decide, by decide, by decide, by decide,
    device_to_host_consistency okDriver okDriver sampleMirrored [4, 3, 2, 1]
      (by decide) (by decide) (by decide) (by decide)⟩

/-! ## C14: the serialisation round trip -/

theorem size_t_bytes_length (n : Nat) : (size_t_bytes n).length = SIZEOF_SIZE_T := by
  simp [size_t_bytes, SIZEOF_SIZE_T]

theorem size_t_value_bytes (n : Nat) (h : n < 2 ^ 64) : size_t_value (size_t_bytes n) = n := by
  have h8 : List.range 8 = [0, 1, 2, 3, 4, 5, 6, 7] := by decide
  simp only [size_t_bytes, SIZEOF_SIZE_T, h8, List.map, size_t_value, List.foldr]
  norm_num
  omega

theorem map_range_getD_append (l rest : List Nat) (n : Nat) (hn : l.length = n) :
    (List.range n).map (fun i => (l ++ rest).getD i 0) = l := by
  subst hn
  apply List.ext_getElem
  · simp
  · intro i h1 h2
    simp [List.getD_eq_getElem?_getD, List.getElem?_append_left h2, List.getElem?_eq_getElem h2]

theorem hostBytes_length (b : GPUMirroredMemoryBlock) : (hostBytes b).length = b.size := by
  simp [hostBytes]

theorem logicalBytes_length (b : GPUMirroredMemoryBlock) : (logicalBytes b).length = b.size := by
  unfold logicalBytes
  split <;> simp [hostBytes, deviceBytes]

theorem updateMemPPAL_total (d : Driver) (b : GPUMirroredMemoryBlock) (hd : d.succeeds)
    (hg : b.getUpdatedPPAL = true ∨ b.mem_gpu ≠ 0) :
    ∃ b1, updateMemPPAL d b = .ok b1 ∧ b1.size = b.size ∧ hostBytes b1 = logicalBytes b ∧
      b1.getUpdatedPPAL = true ∧ b1.getUpdatedGPU = b.getUpdatedGPU ∧
      copiesDtoH b1.log = copiesDtoH b.log ++ (if b.getUpdatedPPAL then [] else [b.size]) := by
  cases hp : b.getUpdatedPPAL
  · have hm : b.mem_gpu ≠ 0 := by
      rcases hg with h | h
      · simp [hp] at h
      · exact h
    obtain ⟨b1, h1, hp1, hg1, hs1, _, _, hh1, hl1, _⟩ := getPPALForRead_stale d b hd hp hm
    have hu : updateMemPPAL d b = .ok b1 := by
      unfold getPPALForRead at h1
      split at h1
      · cases h1
      · rename_i b2 hu
        simp only [Except.ok.injEq, Prod.mk.injEq] at h1
        rw [← h1.1]
        exact hu
    refine ⟨b1, hu, hs1, ?_, hp1, hg1, by simpa using hl1⟩
    simp only [logicalBytes, hp, Bool.false_eq_true, if_false]
    unfold hostBytes deviceBytes
    rw [hs1]
    apply List.map_congr_left
    intro i hi
    exact hh1 i (List.mem_range.mp hi)
  · refine ⟨b, by simp [updateMemPPAL, hp], rfl, by simp [logicalBytes, hp], hp, rfl, by simp⟩

/-- C14. For every block of byte size `N` below `2^64` (a `size_t`), in a
state in which `updateMemPPAL` can return, and a driver whose calls succeed:
`toMMappedDataWriter` appends to the writer the 8 bytes of `N` followed by the
`N` bytes of the block's logical contents, and the reader constructor, applied
to a reader over those bytes (and any bytes after them) positioned where the
writer stood, returns a block of size `N` whose host side is valid and whose
host bytes are the logical contents of the original; it leaves the reader
positioned just after the `N` payload bytes, with one more reference. -/
theorem serialization_round_trip (d : Driver) (b : GPUMirroredMemoryBlock)
    (w : MMappedDataWriter) (r : MMappedDataReader) (rest : List Nat)
    (hd : d.succeeds) (hg : b.getUpdatedPPAL = true ∨ b.mem_gpu ≠ 0)
    (hN : b.size < 2 ^ 64) (hpos : r.pos = w.data.length)
    (hr : r.data = w.data ++ size_t_bytes b.size ++ logicalBytes b ++ rest) :
    ∃ b1 w1 b2 r2, toMMappedDataWriter d b w = .ok (b1, w1) ∧
      w1.data = w.data ++ size_t_bytes b.size ++ logicalBytes b ∧
      GPUMirroredMemoryBlockBase.new_reader r = .ok (b2, r2) ∧
      b2.size = b.size ∧ hostBytes b2 = logicalBytes b ∧ b2.getUpdatedPPAL = true ∧
      b2.mem_ppal = r.base + r.pos + SIZEOF_SIZE_T ∧
      r2.pos = r.pos + SIZEOF_SIZE_T + b.size ∧ r2.refs = r.refs + 1 := by
  obtain ⟨b1, hu, hs1, hb1, _, _, _⟩ := updateMemPPAL_total d b hd hg
  have hlen : (size_t_bytes b.size).length = SIZEOF_SIZE_T := size_t_bytes_length b.size
  have hllen : (logicalBytes b).length = b.size := logicalBytes_length b
  have hdrop1 : r.data.drop r.pos = size_t_bytes b.size ++ (logicalBytes b ++ rest) := by
    rw [hr, hpos, List.append_assoc, List.append_assoc, List.drop_left]
  have htake : (r.data.drop r.pos).take SIZEOF_SIZE_T = size_t_bytes b.size := by
    rw [hdrop1, ← hlen, List.take_left]
  have hdrop2 : r.data.drop (r.pos + SIZEOF_SIZE_T) = logicalBytes b ++ rest := by
    rw [← List.drop_drop, hdrop1, ← hlen, List.drop_left]
  have hrlen : r.data.length = r.pos + SIZEOF_SIZE_T + b.size + rest.length := by
    rw [hr, hpos]
    simp only [List.length_append, hlen, hllen]
  have hc1 : r.pos + SIZEOF_SIZE_T ≤ r.data.length := by omega
  have hc2 : r.pos + SIZEOF_SIZE_T + b.size ≤ r.data.length := by omega
  simp only [toMMappedDataWriter, hu, GPUMirroredMemoryBlockBase.new_reader,
    MMappedDataReader.get_size_t, MMappedDataReader.get_char, hc1, htake,
    size_t_value_bytes b.size hN, hc2, if_true]
  refine ⟨b1, _, _, _, rfl, ?_, rfl, rfl, ?_, ?_, ?_, ?_, ?_⟩
  · have : (List.range b.size).map b1.hostMem = logicalBytes b := hs1 ▸ hb1
    simp [MMappedDataWriter.put, MMappedDataWriter.put_size_t, this, hs1]
  · show (List.range b.size).map (fun i => (r.data.drop (r.pos + SIZEOF_SIZE_T)).getD i 0)
      = logicalBytes b
    rw [hdrop2]
    exact map_range_getD_append (logicalBytes b) rest b.size hllen
  · simp
  · rfl
  · rfl
  · rfl

/-- C14 at the sample block (4 bytes 1, 2, 3, 4), a writer holding a 3-byte
prefix and a reader over the written bytes followed by one more byte. -/
theorem serialization_round_trip_witness :
    okDriver.succeeds ∧ (sampleBlock.getUpdatedPPAL = true ∨ sampleBlock.mem_gpu ≠ 0) ∧
    sampleBlock.size < 2 ^ 64 ∧ sampleReader.pos = sampleWriter.data.length ∧
    sampleReader.data =
      sampleWriter.data ++ size_t_bytes sampleBlock.size ++ logicalBytes sampleBlock ++ [99] ∧
    ∃ b1 w1 b2 r2, toMMappedDataWriter okDriver sampleBlock sampleWriter = .ok (b1, w1) ∧
      w1.data = sampleWriter.data ++ size_t_bytes sampleBlock.size ++ logicalBytes sampleBlock ∧
      GPUMirroredMemoryBlockBase.new_reader sampleReader = .ok (b2, r2) ∧
      b2.size = sampleBlock.size ∧ hostBytes b2 = logicalBytes sampleBlock ∧
      b2.getUpdatedPPAL = true ∧
      b2.mem_ppal = sampleReader.base + sampleReader.pos + SIZEOF_SIZE_T ∧
      r2.pos = sampleReader.pos + SIZEOF_SIZE_T + sampleBlock.size ∧
      r2.refs = sampleReader.refs + 1 :=
  ⟨by decide, by decide, by decide, by decide, by decide,
    serialization_round_trip okDriver sampleBlock sampleWriter sampleReader [99]
      (by decide) (by decide) (by decide) (by decide) (by decide)⟩

/-! ## C15 and C16: reuse of pooled buffers -/

theorem new_size_hit (d : Driver) (pool : Pool) (sz p : Nat) (rest : List Nat)
    (h : pool.pool_lists (poolKey sz) = p :: rest) :
    GPUMirroredMemoryBlockBase.new_size d pool sz =
      .ok ({ (blank sz 0 d.hostJunk).setAllocated.unsetUpdatedGPU.setUpdatedPPAL with
             mem_ppal := p },
           { pool with
             pool_lists := Function.update pool.pool_lists (poolKey sz) rest
             pool_size := (pool.pool_size + 2 ^ 64 - sz) % 2 ^ 64 }) := by
  simp only [GPUMirroredMemoryBlockBase.new_size, h]

theorem new_size_miss (d : Driver) (pool : Pool) (sz : Nat)
    (h : pool.pool_lists (poolKey sz) = []) (hm : pool.use_mmap_allocation = false) :
    GPUMirroredMemoryBlockBase.new_size d pool sz =
      .ok ({ (blank sz 0 d.hostJunk).setAllocated.unsetUpdatedGPU.setUpdatedPPAL with
             mem_ppal := d.aligned_malloc, log := [Effect.aligned_malloc sz] }, pool) := by
  simp [GPUMirroredMemoryBlockBase.new_size, h, hm]

theorem destructor_pools (d : Driver) (pool : Pool) (b : GPUMirroredMemoryBlock)
    (hd : d.succeeds) (hmin : MIN_MEMORY_TH_IN_POOL ≤ b.size)
    (hp : pool.pool_size < MAX_POOL_LIST_SIZE) (ha : b.isAllocated = true)
    (hm : b.isMMapped = false) (hpin : b.pinned = false) :
    GPUMirroredMemoryBlockBase.destructor d pool b =
      .ok ({ pool with
             pool_size := (pool.pool_size + b.size) % 2 ^ 64
             pool_lists := Function.update pool.pool_lists (poolKey b.size)
               (b.mem_ppal :: pool.pool_lists (poolKey b.size)) },
           if b.mem_gpu ≠ 0 then [Effect.cuMemFree b.mem_gpu] else []) := by
  obtain ⟨_, _, _, _, _, _, _, hfree⟩ := hd
  by_cases hg : b.mem_gpu = 0 <;>
    simp [GPUMirroredMemoryBlockBase.destructor, releaseHost, hpin, ha, hm, hp, hmin, hg, hfree]

/-- C15. For every heap-allocated block (allocated, not mmapped, not pinned)
of a byte size `s` with `20 ≤ s < 2^64`, every pool whose `pool_size` is below
`MAX_POOL_LIST_SIZE` and a driver whose calls succeed: the destructor frees no
host memory and puts the block's buffer at the front of the free list for
`s`; a constructor call for `s` bytes right after it, whatever its driver,
returns a block at the very same host pointer, calls neither `aligned_malloc`
nor `mmap` (empty log), and leaves `pool_size` and the free lists as they were
before the destruction. -/
theorem pool_reuse (d d2 : Driver) (pool : Pool) (b : GPUMirroredMemoryBlock)
    (hd : d.succeeds) (hmin : MIN_MEMORY_TH_IN_POOL ≤ b.size) (h64 : b.size < 2 ^ 64)
    (hp : pool.pool_size < MAX_POOL_LIST_SIZE) (ha : b.isAllocated = true)
    (hm : b.isMMapped = false) (hpin : b.pinned = false) :
    ∃ pool1 log1 b2 pool2,
      GPUMirroredMemoryBlockBase.destructor d pool b = .ok (pool1, log1) ∧
      log1 = (if b.mem_gpu ≠ 0 then [Effect.cuMemFree b.mem_gpu] else []) ∧
      pool1.pool_lists (poolKey b.size) = b.mem_ppal :: pool.pool_lists (poolKey b.size) ∧
      pool1.pool_size = (pool.pool_size + b.size) % 2 ^ 64 ∧
      GPUMirroredMemoryBlockBase.new_size d2 pool1 b.size = .ok (b2, pool2) ∧
      b2.mem_ppal = b.mem_ppal ∧ b2.size = b.size ∧ b2.log = [] ∧
      pool2.pool_size = pool.pool_size ∧ pool2.pool_lists = pool.pool_lists := by
  have hp1 : pool.pool_size < 209715200 := hp
  refine ⟨_, _, _, _, destructor_pools d pool b hd hmin hp ha hm hpin, rfl, ?_, rfl,
    new_size_hit d2 _ b.size b.mem_ppal (pool.pool_lists (poolKey b.size)) ?_, rfl, rfl, rfl,
    ?_, ?_⟩
  · simp only [Function.update_same]
  · simp only [Function.update_same]
  · show ((pool.pool_size + b.size) % 2 ^ 64 + 2 ^ 64 - b.size) % 2 ^ 64 = pool.pool_size
    norm_num at h64 ⊢
    omega
  · show Function.update (Function.update pool.pool_lists (poolKey b.size)
        (b.mem_ppal :: pool.pool_lists (poolKey b.size))) (poolKey b.size)
        (pool.pool_lists (poolKey b.size)) = pool.pool_lists
    simp only [Function.update_idem, Function.update_eq_self]

/-- C15 at the block of 1024 bytes and the pool before any block exists. -/
theorem pool_reuse_witness :
    okDriver.succeeds ∧ MIN_MEMORY_TH_IN_POOL ≤ kiloBlock.size ∧ kiloBlock.size < 2 ^ 64 ∧
    freshPool.pool_size < MAX_POOL_LIST_SIZE ∧ kiloBlock.isAllocated = true ∧
    kiloBlock.isMMapped = false ∧ kiloBlock.pinned = false ∧
    ∃ pool1 log1 b2 pool2,
      GPUMirroredMemoryBlockBase.destructor okDriver freshPool kiloBlock = .ok (pool1, log1) ∧
      log1 = (if kiloBlock.mem_gpu ≠ 0 then [Effect.cuMemFree kiloBlock.mem_gpu] else []) ∧
      pool1.pool_lists (poolKey kiloBlock.size)
        = kiloBlock.mem_ppal :: freshPool.pool_lists (poolKey kiloBlock.size) ∧
      pool1.pool_size = (freshPool.pool_size + kiloBlock.size) % 2 ^ 64 ∧
      GPUMirroredMemoryBlockBase.new_size okDriver pool1 kiloBlock.size = .ok (b2, pool2) ∧
      b2.mem_ppal = kiloBlock.mem_ppal ∧ b2.size = kiloBlock.size ∧ b2.log = [] ∧
      pool2.pool_size = freshPool.pool_size ∧ pool2.pool_lists = freshPool.pool_lists :=
  ⟨by decide, by decide, by decide, by decide, by decide, by decide, by decide,
    pool_reuse okDriver okDriver freshPool kiloBlock (by decide) (by decide) (by decide)
      (by decide) (by decide) (by decide) (by decide)⟩

/-- With `USE_CUDA`, a heap-allocated block below the minimum size is freed,
not pooled: the pool is unchanged. -/
theorem releaseHost_below_threshold (d : Driver) (pool : Pool) (b : GPUMirroredMemoryBlock)
    (hs : b.size < MIN_MEMORY_TH_IN_POOL) (ha : b.isAllocated = true)
    (hm : b.isMMapped = false) (hpin : b.pinned = false) :
    releaseHost d pool b = .ok (pool, [Effect.aligned_free b.mem_ppal]) := by
  have : ¬ MIN_MEMORY_TH_IN_POOL ≤ b.size := by omega
  simp [releaseHost, hpin, ha, hm, this]

/-- C16 fails on the code in the build without `USE_CUDA`. With `USE_CUDA` the
destructor frees the heap-allocated 8-byte block and leaves the pool as it
was; without it the destructor puts the 8-byte buffer in the free list for 8
and raises `pool_size` to 8, and the next constructor call for 8 bytes gets
that buffer back without calling `aligned_malloc`. -/
theorem tiny_buffer_pooled_without_cuda :
    tinyBlock.size = 8 ∧ tinyBlock.isAllocated = true ∧ tinyBlock.isMMapped = false ∧
    tinyBlock.pinned = false ∧ tinyBlock.mem_ppal = 1024 ∧
    GPUMirroredMemoryBlockBase.destructor okDriver freshPool tinyBlock
      = .ok (freshPool, [Effect.aligned_free 1024]) ∧
    (GPUMirroredMemoryBlockBase.destructor_host_only freshPool tinyBlock).2 = [] ∧
    poolAfterTiny.pool_size = 8 ∧ poolAfterTiny.pool_lists 8 = [1024] ∧
    (blockOfNew (GPUMirroredMemoryBlockBase.new_size okDriver poolAfterTiny 8)).mem_ppal
      = 1024 ∧
    (blockOfNew (GPUMirroredMemoryBlockBase.new_size okDriver poolAfterTiny 8)).log = [] :=
  ⟨by decide, by decide, by decide, by decide, by decide, rfl, by decide, by decide,
    by decide, by decide, by decide⟩

/-! ## C17: the capacity ceiling -/

theorem pooledBytes_update (pool : Pool) (k : Nat) (l : List Nat) (n : Nat) (v : Bool)
    (hk : k < 2 ^ 32) :
    pooledBytes { pool_size := n, pool_lists := Function.update pool.pool_lists k l,
                  use_mmap_allocation := v } + k * (pool.pool_lists k).length
      = pooledBytes pool + k * l.length := by
  unfold pooledBytes
  have hmem : k ∈ Finset.range (2 ^ 32) := Finset.mem_range.mpr hk
  rw [← Finset.add_sum_erase _ _ hmem, ← Finset.add_sum_erase (Finset.range (2 ^ 32)) _ hmem]
  have herase : ∑ x in (Finset.range (2 ^ 32)).erase k,
        x * (Function.update pool.pool_lists k l x).length
      = ∑ x in (Finset.range (2 ^ 32)).erase k, x * (pool.pool_lists x).length := by
    apply Finset.sum_congr rfl
    intro x hx
    rw [Function.update_noteq (Finset.ne_of_mem_erase hx)]
  simp only [Function.update_same]
  rw [herase]
  omega

theorem pooledBytes_ge (pool : Pool) (k : Nat) (hk : k < 2 ^ 32) :
    k * (pool.pool_lists k).length ≤ pooledBytes pool := by
  unfold pooledBytes
  exact Finset.single_le_sum (f := fun x => x * (pool.pool_lists x).length)
    (fun _ _ => Nat.zero_le _) (Finset.mem_range.mpr hk)

theorem poolKey_of_lt (sz : Nat) (h : sz < 2 ^ 32) : poolKey sz = sz :=
  Nat.mod_eq_of_lt h

theorem pool_insert_invariant (bound : Nat) (hb : bound ≤ 2 ^ 32) (pool : Pool) (sz p : Nat)
    (hsz : sz < bound) (hacc : pool.pool_size = pooledBytes pool)
    (hps : pool.pool_size < MAX_POOL_LIST_SIZE) :
    (pool.pool_size + sz) % 2 ^ 64 =
        pooledBytes { pool with
          pool_size := (pool.pool_size + sz) % 2 ^ 64
          pool_lists := Function.update pool.pool_lists (poolKey sz)
            (p :: pool.pool_lists (poolKey sz)) } ∧
      (pool.pool_size + sz) % 2 ^ 64 < MAX_POOL_LIST_SIZE + bound := by
  have hsz32 : sz < 2 ^ 32 := Nat.lt_of_lt_of_le hsz hb
  have hps1 : pool.pool_size < 209715200 := hps
  have hmod : (pool.pool_size + sz) % 2 ^ 64 = pool.pool_size + sz := by
    apply Nat.mod_eq_of_lt
    norm_num at hsz32 ⊢
    omega
  have hu := pooledBytes_update pool (poolKey sz) (p :: pool.pool_lists (poolKey sz))
    ((pool.pool_size + sz) % 2 ^ 64) pool.use_mmap_allocation (Nat.mod_lt _ (by norm_num))
  rw [poolKey_of_lt sz hsz32] at hu ⊢
  simp only [List.length_cons, Nat.mul_add, Nat.mul_one] at hu
  have hmax : MAX_POOL_LIST_SIZE = 209715200 := rfl
  constructor
  · omega
  · omega

theorem pool_remove_invariant (bound : Nat) (hb : bound ≤ 2 ^ 32) (pool : Pool) (sz p : Nat)
    (rest : List Nat) (hsz : sz < bound) (hacc : pool.pool_size = pooledBytes pool)
    (hlt : pool.pool_size < MAX_POOL_LIST_SIZE + bound)
    (hl : pool.pool_lists (poolKey sz) = p :: rest) :
    (pool.pool_size + 2 ^ 64 - sz) % 2 ^ 64 =
        pooledBytes { pool with
          pool_lists := Function.update pool.pool_lists (poolKey sz) rest
          pool_size := (pool.pool_size + 2 ^ 64 - sz) % 2 ^ 64 } ∧
      (pool.pool_size + 2 ^ 64 - sz) % 2 ^ 64 < MAX_POOL_LIST_SIZE + bound := by
  have hsz32 : sz < 2 ^ 32 := Nat.lt_of_lt_of_le hsz hb
  have hlt1 : pool.pool_size < 209715200 + bound := hlt
  have hu := pooledBytes_update pool (poolKey sz) rest
    ((pool.pool_size + 2 ^ 64 - sz) % 2 ^ 64) pool.use_mmap_allocation
    (Nat.mod_lt _ (by norm_num))
  have hge := pooledBytes_ge pool (poolKey sz) (Nat.mod_lt _ (by norm_num))
  rw [hl] at hu hge
  rw [poolKey_of_lt sz hsz32] at hu hge ⊢
  simp only [List.length_cons, Nat.mul_add, Nat.mul_one] at hu hge
  have hle : sz ≤ pool.pool_size := by rw [hacc]; omega
  have hmod : (pool.pool_size + 2 ^ 64 - sz) % 2 ^ 64 = pool.pool_size - sz := by
    norm_num at hb ⊢
    omega
  have hmax : MAX_POOL_LIST_SIZE = 209715200 := rfl
  constructor
  · omega
  · omega

theorem releaseHost_pool {d : Driver} {pool pool1 : Pool} {b : GPUMirroredMemoryBlock}
    {log : List Effect} (h : releaseHost d pool b = .ok (pool1, log)) :
    pool1 = pool ∨ (pool.pool_size < MAX_POOL_LIST_SIZE ∧
      pool1 = { pool with
        pool_size := (pool.pool_size + b.size) % 2 ^ 64
        pool_lists := Function.update pool.pool_lists (poolKey b.size)
          (b.mem_ppal :: pool.pool_lists (poolKey b.size)) }) := by
  unfold releaseHost at h
  split at h
  · split at h
    · cases h; exact Or.inl rfl
    · cases h
  · split at h
    · split at h
      · split at h
        · rename_i hc
          simp only [Bool.and_eq_true, decide_eq_true_eq] at hc
          cases h
          exact Or.inr ⟨hc.1, rfl⟩
        · cases h; exact Or.inl rfl
      · cases h; exact Or.inl rfl
    · cases h; exact Or.inl rfl

theorem destructor_pool {d : Driver} {pool pool1 : Pool} {b : GPUMirroredMemoryBlock}
    {log : List Effect} (h : GPUMirroredMemoryBlockBase.destructor d pool b = .ok (pool1, log)) :
    pool1 = pool ∨ (pool.pool_size < MAX_POOL_LIST_SIZE ∧
      pool1 = { pool with
        pool_size := (pool.pool_size + b.size) % 2 ^ 64
        pool_lists := Function.update pool.pool_lists (poolKey b.size)
          (b.mem_ppal :: pool.pool_lists (poolKey b.size)) }) := by
  unfold GPUMirroredMemoryBlockBase.destructor at h
  split at h
  · cases h
  · rename_i p1 l1 hr
    have hp : pool1 = p1 := by
      simp only at h
      split at h
      · split at h
        · cases h; rfl
        · cases h
      · cases h; rfl
    rw [hp]
    exact releaseHost_pool hr

theorem destructor_host_only_pool (pool : Pool) (b : GPUMirroredMemoryBlock) :
    (destructor_host_only pool b).1 = pool ∨ (pool.pool_size < MAX_POOL_LIST_SIZE ∧
      (destructor_host_only pool b).1 = { pool with
        pool_size := (pool.pool_size + b.size) % 2 ^ 64
        pool_lists := Function.update pool.pool_lists (poolKey b.size)
          (b.mem_ppal :: pool.pool_lists (poolKey b.size)) }) := by
  unfold destructor_host_only
  simp only
  split
  · split
    · split
      · rename_i hc
        exact Or.inr ⟨hc, rfl⟩
      · exact Or.inl rfl
    · exact Or.inl rfl
  · exact Or.inl rfl

theorem poolRun_invariant (bound : Nat) (hb : bound ≤ 2 ^ 32) (pool : Pool)
    (h : PoolRun bound pool) :
    pool.pool_size = pooledBytes pool ∧ pool.pool_size < MAX_POOL_LIST_SIZE + bound := by
  induction h with
  | init v =>
    constructor
    · simp [pooledBytes]
    · show 0 < 209715200 + bound
      omega
  | new_size d pool pool1 sz b _ hsz hn ih =>
    unfold GPUMirroredMemoryBlockBase.new_size at hn
    simp only at hn
    split at hn
    · split at hn
      · cases hn; exact ih
      · split at hn
        · cases hn
        · cases hn; exact ih
    · rename_i p rest hl
      cases hn
      exact pool_remove_invariant bound hb pool sz p rest hsz ih.1 ih.2 hl
  | destructor d pool pool1 b log _ hsz hd ih =>
    rcases destructor_pool hd with h1 | ⟨hps, h1⟩
    · rw [h1]; exact ih
    · rw [h1]
      exact pool_insert_invariant bound hb pool b.size b.mem_ppal hsz ih.1 hps
  | destructor_host_only pool b _ hsz ih =>
    rcases destructor_host_only_pool pool b with h1 | ⟨hps, h1⟩
    · rw [h1]; exact ih
    · rw [h1]
      exact pool_insert_invariant bound hb pool b.size b.mem_ppal hsz ih.1 hps
  | setUseMMapAllocation pool v _ ih => exact ih

/-- C17 as stated fails: from the pool before any block exists, constructing a
heap-allocated block of 300 megabytes and destroying it leaves `pool_size` at
314572800, above `MAX_POOL_LIST_SIZE`; the buffer was added although the
total after the insertion is not under the ceiling. -/
theorem pool_ceiling_counterexample :
    PoolRun (2 ^ 32) poolAfterBig ∧ freshPool.pool_size = 0 ∧
    poolAfterBig.pool_size = 314572800 ∧ MAX_POOL_LIST_SIZE < poolAfterBig.pool_size ∧
    poolAfterBig.pool_lists (poolKey bigBlock.size) = [bigBlock.mem_ppal] :=
  ⟨PoolRun.destructor okDriver freshPool poolAfterBig bigBlock []
      (PoolRun.new_size okDriver freshPool freshPool (300 * 1024 * 1024) bigBlock
        (PoolRun.init false) (by decide) rfl)
      (by decide) rfl,
    by decide, by decide, by decide, by decide⟩

/-- C17, amended. In every pool state reached by constructions and
destructions of blocks whose byte size is below a bound `B ≤ 2^32`,
`pool_size` is below `MAX_POOL_LIST_SIZE + B`: the ceiling is overshot by
less than one buffer. A destructor (of either build) adds the buffer to the
pool only when `pool_size` before the insertion is below the ceiling: from a
pool at or above the ceiling it leaves the pool as it was. -/
theorem pool_ceiling_soft (bound : Nat) (pool : Pool) (hb : bound ≤ 2 ^ 32)
    (h : PoolRun bound pool) :
    pool.pool_size < MAX_POOL_LIST_SIZE + bound ∧
    (∀ (d : Driver) (b : GPUMirroredMemoryBlock) (pool1 : Pool) (log : List Effect),
      MAX_POOL_LIST_SIZE ≤ pool.pool_size →
      GPUMirroredMemoryBlockBase.destructor d pool b = .ok (pool1, log) → pool1 = pool) ∧
    (∀ b : GPUMirroredMemoryBlock, MAX_POOL_LIST_SIZE ≤ pool.pool_size →
      (destructor_host_only pool b).1 = pool) := by
  refine ⟨(poolRun_invariant bound hb pool h).2, ?_, ?_⟩
  · intro d b pool1 log hfull hdes
    rcases destructor_pool hdes with h1 | ⟨hlt, _⟩
    · exact h1
    · omega
  · intro b hfull
    rcases destructor_host_only_pool pool b with h1 | ⟨hlt, _⟩
    · exact h1
    · omega

/-- C17, amended, at the pool left by the destruction of the 300-megabyte
block. -/
theorem pool_ceiling_soft_witness :
    2 ^ 32 ≤ 2 ^ 32 ∧ PoolRun (2 ^ 32) poolAfterBig ∧
    poolAfterBig.pool_size < MAX_POOL_LIST_SIZE + 2 ^ 32 ∧
    (∀ (d : Driver) (b : GPUMirroredMemoryBlock) (pool1 : Pool) (log : List Effect),
      MAX_POOL_LIST_SIZE ≤ poolAfterBig.pool_size →
      GPUMirroredMemoryBlockBase.destructor d poolAfterBig b = .ok (pool1, log) →
      pool1 = poolAfterBig) ∧
    (∀ b : GPUMirroredMemoryBlock, MAX_POOL_LIST_SIZE ≤ poolAfterBig.pool_size →
      (destructor_host_only poolAfterBig b).1 = poolAfterBig) :=
  have h : PoolRun (2 ^ 32) poolAfterBig :=
    PoolRun.destructor okDriver freshPool poolAfterBig bigBlock []
      (PoolRun.new_size okDriver freshPool freshPool (300 * 1024 * 1024) bigBlock
        (PoolRun.init false) (by decide) rfl)
      (by decide) rfl
  ⟨Nat.le_refl _, h, pool_ceiling_soft (2 ^ 32) poolAfterBig (Nat.le_refl _) h⟩

/-! ## C18: the key of the free lists -/

/-- C18 fails on the code. A block of 5 floats (20 bytes, buffer at 1024) is
destroyed into the empty pool; the key of its free list is 20. A block of
`2^30 + 5` floats has `2^32 + 20` bytes and the same key, so its constructor
takes the 20-byte buffer from the pool instead of allocating (empty log), and
`pool_size -= size` wraps around. -/
theorem pool_key_truncation :
    fiveFloats.size = 20 ∧ fiveFloats.mem_ppal = 1024 ∧
    fiveFloats.log = [Effect.aligned_malloc 20] ∧
    poolAfterFiveFloats.pool_size = 20 ∧ poolAfterFiveFloats.pool_lists (poolKey 20) = [1024] ∧
    poolKey (2 ^ 32 + 20) = poolKey 20 ∧
    manyFloats.size = 2 ^ 32 + 20 ∧ manyFloats.mem_ppal = 1024 ∧ manyFloats.log = [] ∧
    (poolOfNew (GPUMirroredMemoryBlock.new_size 4 okDriver poolAfterFiveFloats (2 ^ 30 + 5))
      poolAfterFiveFloats).pool_size = 2 ^ 64 - 2 ^ 32 :=
  ⟨by decide, by decide, by decide, by decide, by decide, by decide, by decide, by decide,
    by decide, by decide⟩

/-! ## C19: pinning -/

/-- C19. With a driver whose calls succeed, `pinnedMemoryPageLock` ends the
process exactly when the block is const or mmapped, with "Impossible to set as
pinned a const or mmapped memory block" and the block as it was; otherwise it
returns a block marked pinned whose status byte and size are unchanged. With
any driver `d2`, whenever the call ends the process the host pointer, the
pinned flag and the status byte (validity flags included) of the block are
unchanged, and the exit is the one above exactly when the block is const or
mmapped (the only other exit is a failing `cudaHostAlloc`). -/
theorem pinHost_failure_condition (d d2 : Driver) (b : GPUMirroredMemoryBlock)
    (hd : d.succeeds) :
    (if b.isConst || b.isMMapped
      then pinnedMemoryPageLock d b = .error ⟨Exit.pinForbidden, b⟩
      else ∃ b1, pinnedMemoryPageLock d b = .ok b1 ∧ b1.pinned = true ∧
        b1.status = b.status ∧ b1.size = b.size ∧ some b1.mem_ppal = d.cudaHostAlloc) ∧
    (∀ a, pinnedMemoryPageLock d2 b = .error a →
      a.block.mem_ppal = b.mem_ppal ∧ a.block.pinned = b.pinned ∧
      a.block.status = b.status ∧
      (a.exit = Exit.pinForbidden ↔ (b.isConst || b.isMMapped) = true) ∧
      (a.exit = Exit.pinForbidden ∨ (a.exit = Exit.copyHtoD ∧ d2.cudaHostAlloc = none))) := by
  obtain ⟨_, _, _, _, hpin, _⟩ := hd
  obtain ⟨p, hp⟩ := Option.isSome_iff_exists.mp hpin
  constructor
  · cases hc : (b.isConst || b.isMMapped)
    · simp only [Bool.false_eq_true, if_false, pinnedMemoryPageLock, hc, hp]
      exact ⟨_, rfl, rfl, rfl, rfl, rfl⟩
    · simp [pinnedMemoryPageLock, hc]
  · intro a ha
    unfold pinnedMemoryPageLock at ha
    split at ha
    · rename_i hc
      cases ha
      exact ⟨rfl, rfl, rfl, by simp [hc], Or.inl rfl⟩
    · rename_i hc
      simp only at ha
      split at ha
      · cases ha
      · rename_i hnone
        cases ha
        refine ⟨rfl, rfl, rfl, ?_, Or.inr ⟨rfl, hnone⟩⟩
        constructor
        · intro h
          have hne : Exit.copyHtoD ≠ Exit.pinForbidden := by decide
          exact absurd h hne
        · intro h
          exact absurd h hc

/-- C19 at the sample block (pinned) with a driver whose calls succeed, and
with a driver whose `cudaHostAlloc` fails. -/
theorem pinHost_failure_condition_witness :
    okDriver.succeeds ∧
    (if sampleBlock.isConst || sampleBlock.isMMapped
      then pinnedMemoryPageLock okDriver sampleBlock = .error ⟨Exit.pinForbidden, sampleBlock⟩
      else ∃ b1, pinnedMemoryPageLock okDriver sampleBlock = .ok b1 ∧ b1.pinned = true ∧
        b1.status = sampleBlock.status ∧ b1.size = sampleBlock.size ∧
        some b1.mem_ppal = okDriver.cudaHostAlloc) ∧
    (∀ a, pinnedMemoryPageLock noPinDriver sampleBlock = .error a →
      a.block.mem_ppal = sampleBlock.mem_ppal ∧ a.block.pinned = sampleBlock.pinned ∧
      a.block.status = sampleBlock.status ∧
      (a.exit = Exit.pinForbidden ↔ (sampleBlock.isConst || sampleBlock.isMMapped) = true) ∧
      (a.exit = Exit.pinForbidden ∨
        (a.exit = Exit.copyHtoD ∧ noPinDriver.cudaHostAlloc = none))) :=
  ⟨by decide, pinHost_failure_condition okDriver noPinDriver sampleBlock (by decide)⟩

/-! ## C20: blocks built from a reader -/

theorem getGPUForWrite_total (d : Driver) (b : GPUMirroredMemoryBlock) (hd : d.succeeds)
    (hc : b.isConst = false) : ∃ b1, getGPUForWrite d b = .ok (b1, b1.mem_gpu) := by
  obtain ⟨halloc, _, hhd, hasync, _⟩ := hd
  obtain ⟨h, halloc⟩ := Option.isSome_iff_exists.mp halloc
  by_cases hm : b.mem_gpu = 0 <;> cases hpin : b.pinned <;>
    simp only [getGPUForWrite, allocMemGPU, copyPPALtoGPU, hc, hm, halloc, hhd,
      hasync, hpin, Bool.not_false, Bool.not_true, if_true, if_false, Bool.false_eq_true] <;>
    exact ⟨_, rfl⟩

theorem getGPUForReadAndWrite_total (d : Driver) (b : GPUMirroredMemoryBlock)
    (hd : d.succeeds) (hc : b.isConst = false) :
    ∃ b1, getGPUForReadAndWrite d b = .ok (b1, b1.mem_gpu) := by
  cases hp : b.getUpdatedGPU
  · obtain ⟨b1, h1, _⟩ := getGPUForRead_stale d b hd hp
    have hu : updateMemGPU d b = .ok b1 := by
      unfold getGPUForRead at h1
      split at h1
      · cases h1
      · rename_i b2 hu
        simp only [Except.ok.injEq, Prod.mk.injEq] at h1
        rw [← h1.1]
        exact hu
    exact ⟨b1.unsetUpdatedPPAL, by simp [getGPUForReadAndWrite, hc, hu]⟩
  · exact ⟨b.unsetUpdatedPPAL, by simp [getGPUForReadAndWrite, hc, updateMemGPU, hp]⟩

theorem new_reader_shape {r r1 : MMappedDataReader} {b : GPUMirroredMemoryBlock}
    (h : GPUMirroredMemoryBlockBase.new_reader r = .ok (b, r1)) :
    b.isConst = false ∧ b.isMMapped = true ∧ b.isAllocated = false ∧
      b.getUpdatedPPAL = true ∧ b.getUpdatedGPU = false ∧ b.mem_gpu = 0 ∧ b.pinned = false ∧
      b.mem_ppal = r.base + r.pos + SIZEOF_SIZE_T := by
  unfold GPUMirroredMemoryBlockBase.new_reader MMappedDataReader.get_size_t
    MMappedDataReader.get_char at h
  split at h
  · cases h
  · rename_i sz r2 h1
    split at h1
    · simp only [Except.ok.injEq, Prod.mk.injEq] at h1
      obtain ⟨_, hr2⟩ := h1
      subst hr2
      simp only at h
      split at h
      · cases h
      · rename_i p content r3 h2
        split at h2
        · simp only [Except.ok.injEq, Prod.mk.injEq] at h2
          obtain ⟨hp, _, _⟩ := h2
          subst hp
          cases h
          refine ⟨?_, ?_, ?_, ?_, ?_, rfl, rfl, rfl⟩ <;> simp <;>
            simp [isConst, isAllocated, blank, CONST_MASK, ALLOC_MASK]
        · cases h2
    · cases h1

/-- C20 as stated fails: the block built from the sample reader is mmapped but
not const, and every mutable accessor returns on it; the host ones return
pointers into the mapped region (offset 11 of the region at 9000). -/
theorem segment_block_mutable_counterexample :
    GPUMirroredMemoryBlockBase.new_reader sampleReader = .ok (segmentBlock, sampleReaderAfter) ∧
    segmentBlock.isMMapped = true ∧ segmentBlock.isConst = false ∧
    segmentBlock.mem_ppal = 9011 ∧
    getPPALForWrite segmentBlock = .ok (segmentBlock.setUpdatedPPAL.unsetUpdatedGPU, 9011) ∧
    getPPALForReadAndWrite okDriver segmentBlock = .ok (segmentBlock.unsetUpdatedGPU, 9011) ∧
    GPUMirroredMemoryBlock.get 1 okDriver segmentBlock 2
      = .ok (segmentBlock.unsetUpdatedGPU, 9013) ∧
    getGPUForWrite okDriver segmentBlock
      = .ok (blockOf (getGPUForWrite okDriver segmentBlock), 4096) ∧
    getGPUForReadAndWrite okDriver segmentBlock
      = .ok (blockOf (getGPUForReadAndWrite okDriver segmentBlock), 4096) :=
  ⟨rfl, by decide, by decide, by decide, rfl, rfl, rfl, rfl, rfl⟩

/-- C20, amended. The reader constructor sets the mmapped bit and leaves the
const bit clear, and the mutable accessors test the const bit only. So on
every block `b` built from a reader, with a driver whose calls succeed, each
of `getPPALForWrite`, `getPPALForReadAndWrite`, `get`, `getGPUForWrite` and
`getGPUForReadAndWrite` returns, the host ones with a pointer into the mapped
region; only `pinnedMemoryPageLock` is refused. In every later state `b'` of
the block the const bit is still clear and `getPPALForWrite` still returns. -/
theorem segment_blocks_are_mutable (sizeofT pos : Nat) (d : Driver)
    (r r1 : MMappedDataReader) (b b' : GPUMirroredMemoryBlock) (hd : d.succeeds)
    (h : GPUMirroredMemoryBlockBase.new_reader r = .ok (b, r1))
    (hs : Relation.ReflTransGen Step b b') :
    b.isMMapped = true ∧ b.isConst = false ∧
    b.mem_ppal = r.base + r.pos + SIZEOF_SIZE_T ∧
    getPPALForWrite b = .ok (b.setUpdatedPPAL.unsetUpdatedGPU, b.mem_ppal) ∧
    getPPALForReadAndWrite d b = .ok (b.unsetUpdatedGPU, b.mem_ppal) ∧
    GPUMirroredMemoryBlock.get sizeofT d b pos
      = .ok (b.unsetUpdatedGPU, b.mem_ppal + pos * sizeofT) ∧
    (∃ b1, getGPUForWrite d b = .ok (b1, b1.mem_gpu)) ∧
    (∃ b1, getGPUForReadAndWrite d b = .ok (b1, b1.mem_gpu)) ∧
    pinnedMemoryPageLock d b = .error ⟨Exit.pinForbidden, b⟩ ∧
    b'.isConst = false ∧
    getPPALForWrite b' = .ok (b'.setUpdatedPPAL.unsetUpdatedGPU, b'.mem_ppal) := by
  obtain ⟨hc, hm, _, hp, _, _, _, hptr⟩ := new_reader_shape h
  have hc' : b'.isConst = false := (steps_sameBuild hs).2.1.trans hc
  refine ⟨hm, hc, hptr, getPPALForWrite_ok b hc, ?_, ?_, getGPUForWrite_total d b hd hc,
    getGPUForReadAndWrite_total d b hd hc, ?_, hc', getPPALForWrite_ok b' hc'⟩
  · simp [getPPALForReadAndWrite, hc, updateMemPPAL, hp]
  · simp [GPUMirroredMemoryBlock.get, updateMemPPAL, hp]
  · simp [pinnedMemoryPageLock, hm]

/-- C20, amended, at the block built from the sample reader and its state
after a host write. -/
theorem segment_blocks_are_mutable_witness :
    okDriver.succeeds ∧
    GPUMirroredMemoryBlockBase.new_reader sampleReader = .ok (segmentBlock, sampleReaderAfter) ∧
    Relation.ReflTransGen Step segmentBlock (blockOf (getPPALForWrite segmentBlock)) ∧
    segmentBlock.isMMapped = true ∧ segmentBlock.isConst = false ∧
    segmentBlock.mem_ppal = sampleReader.base + sampleReader.pos + SIZEOF_SIZE_T ∧
    getPPALForWrite segmentBlock
      = .ok (segmentBlock.setUpdatedPPAL.unsetUpdatedGPU, segmentBlock.mem_ppal) ∧
    getPPALForReadAndWrite okDriver segmentBlock
      = .ok (segmentBlock.unsetUpdatedGPU, segmentBlock.mem_ppal) ∧
    GPUMirroredMemoryBlock.get 1 okDriver segmentBlock 2
      = .ok (segmentBlock.unsetUpdatedGPU, segmentBlock.mem_ppal + 2 * 1) ∧
    (∃ b1, getGPUForWrite okDriver segmentBlock = .ok (b1, b1.mem_gpu)) ∧
    (∃ b1, getGPUForReadAndWrite okDriver segmentBlock = .ok (b1, b1.mem_gpu)) ∧
    pinnedMemoryPageLock okDriver segmentBlock = .error ⟨Exit.pinForbidden, segmentBlock⟩ ∧
    (blockOf (getPPALForWrite segmentBlock)).isConst = false ∧
    getPPALForWrite (blockOf (getPPALForWrite segmentBlock))
      = .ok ((blockOf (getPPALForWrite segmentBlock)).setUpdatedPPAL.unsetUpdatedGPU,
          (blockOf (getPPALForWrite segmentBlock)).mem_ppal) :=
  have hs : Relation.ReflTransGen Step segmentBlock (blockOf (getPPALForWrite segmentBlock)) :=
    Relation.ReflTransGen.single
      (Step.getPPALForWrite segmentBlock (blockOf (getPPALForWrite segmentBlock)) 9011 rfl)
  ⟨by decide, rfl, hs,
    segment_blocks_are_mutable 1 2 okDriver sampleReader sampleReaderAfter segmentBlock
      (blockOf (getPPALForWrite segmentBlock)) (by decide) rfl hs⟩

/-! ## C21: the state a constructor leaves -/

theorem blank_flags (sz mem : Nat) (content : Nat → Nat) :
    (blank sz mem content).isConst = false ∧ (blank sz mem content).isAllocated = false ∧
      (blank sz mem content).isMMapped = false := by
  simp [blank, isConst, isAllocated, isMMapped, CONST_MASK, ALLOC_MASK, MMAP_MASK]

theorem new_reader_total (r : MMappedDataReader)
    (hhdr : r.pos + SIZEOF_SIZE_T ≤ r.data.length)
    (hpay : r.pos + SIZEOF_SIZE_T + size_t_value ((r.data.drop r.pos).take SIZEOF_SIZE_T)
      ≤ r.data.length) :
    ∃ b r1, GPUMirroredMemoryBlockBase.new_reader r = .ok (b, r1) ∧
      b.size = size_t_value ((r.data.drop r.pos).take SIZEOF_SIZE_T) ∧
      b.mmapped_data = r.addr ∧ r1.refs = r.refs + 1 ∧
      r1.pos = r.pos + SIZEOF_SIZE_T + b.size := by
  simp only [GPUMirroredMemoryBlockBase.new_reader, MMappedDataReader.get_size_t,
    MMappedDataReader.get_char, hhdr, hpay, if_true]
  exact ⟨_, _, rfl, rfl, rfl, rfl, rfl⟩

/-- C21. The two wrapping constructors and, when they return (the anonymous
`mmap` does not fail; the reader holds the header and the payload it
announces), the fresh-allocation and the reader constructor leave the host
side valid, the device side stale, no device storage and the block not pinned.
The mutable wrap clears isConst, isAllocated and isMMapped; the const wrap
sets isConst and clears the other two; the fresh allocation sets isAllocated
and clears isConst; the reader constructor sets isMMapped, clears isAllocated
and isConst, takes the size from the header, points into the mapped region,
stores the address of the reader and adds one reference to it. -/
theorem initial_state (d : Driver) (pool : Pool) (sz mem : Nat) (content : Nat → Nat)
    (r : MMappedDataReader) (hmap : d.mmap ≠ MAP_FAILED)
    (hhdr : r.pos + SIZEOF_SIZE_T ≤ r.data.length)
    (hpay : r.pos + SIZEOF_SIZE_T + size_t_value ((r.data.drop r.pos).take SIZEOF_SIZE_T)
      ≤ r.data.length) :
    (InitialState (GPUMirroredMemoryBlockBase.new_mem sz mem content) ∧
      (GPUMirroredMemoryBlockBase.new_mem sz mem content).isConst = false ∧
      (GPUMirroredMemoryBlockBase.new_mem sz mem content).isAllocated = false ∧
      (GPUMirroredMemoryBlockBase.new_mem sz mem content).isMMapped = false ∧
      (GPUMirroredMemoryBlockBase.new_mem sz mem content).size = sz ∧
      (GPUMirroredMemoryBlockBase.new_mem sz mem content).mem_ppal = mem) ∧
    (InitialState (GPUMirroredMemoryBlockBase.new_const_mem sz mem content) ∧
      (GPUMirroredMemoryBlockBase.new_const_mem sz mem content).isConst = true ∧
      (GPUMirroredMemoryBlockBase.new_const_mem sz mem content).isAllocated = false ∧
      (GPUMirroredMemoryBlockBase.new_const_mem sz mem content).isMMapped = false ∧
      (GPUMirroredMemoryBlockBase.new_const_mem sz mem content).size = sz ∧
      (GPUMirroredMemoryBlockBase.new_const_mem sz mem content).mem_ppal = mem) ∧
    (∃ b pool1, GPUMirroredMemoryBlockBase.new_size d pool sz = .ok (b, pool1) ∧
      InitialState b ∧ b.isAllocated = true ∧ b.isConst = false ∧ b.size = sz) ∧
    (∃ b r1, GPUMirroredMemoryBlockBase.new_reader r = .ok (b, r1) ∧
      InitialState b ∧ b.isMMapped = true ∧ b.isAllocated = false ∧ b.isConst = false ∧
      b.size = size_t_value ((r.data.drop r.pos).take SIZEOF_SIZE_T) ∧
      b.mem_ppal = r.base + r.pos + SIZEOF_SIZE_T ∧
      b.mmapped_data = r.addr ∧ r1.refs = r.refs + 1) := by
  obtain ⟨hbc, hba, hbm⟩ := blank_flags sz mem content
  refine ⟨?_, ?_, ?_, ?_⟩
  · refine ⟨⟨?_, ?_, rfl, rfl⟩, ?_, ?_, ?_, rfl, rfl⟩ <;>
      simp [GPUMirroredMemoryBlockBase.new_mem, hbc, hba, hbm]
  · refine ⟨⟨?_, ?_, rfl, rfl⟩, ?_, ?_, ?_, rfl, rfl⟩ <;>
      simp [GPUMirroredMemoryBlockBase.new_const_mem, hba, hbm]
  · obtain ⟨hdc, hda, hdm⟩ := blank_flags sz 0 d.hostJunk
    cases hl : pool.pool_lists (poolKey sz) with
    | nil =>
      cases hu : pool.use_mmap_allocation
      · simp only [GPUMirroredMemoryBlockBase.new_size, hl, hu, Bool.not_false, if_true]
        refine ⟨_, _, rfl, ⟨?_, ?_, rfl, rfl⟩, ?_, ?_, rfl⟩
        · exact getUpdatedPPAL_setUpdatedPPAL _
        · show ((blank sz 0 d.hostJunk).setAllocated.unsetUpdatedGPU.setUpdatedPPAL).getUpdatedGPU
            = false
          simp
        · show ((blank sz 0 d.hostJunk).setAllocated.unsetUpdatedGPU.setUpdatedPPAL).isAllocated
            = true
          simp
        · show ((blank sz 0 d.hostJunk).setAllocated.unsetUpdatedGPU.setUpdatedPPAL).isConst
            = false
          simp [hdc]
      · simp only [GPUMirroredMemoryBlockBase.new_size, hl, hu, hmap, Bool.not_true,
          Bool.false_eq_true, if_false]
        refine ⟨_, _, rfl, ⟨?_, ?_, rfl, rfl⟩, ?_, ?_, rfl⟩
        · show ((blank sz 0 d.hostJunk).setAllocated.unsetUpdatedGPU.setUpdatedPPAL.setMMapped
            ).getUpdatedPPAL = true
          simp
        · show ((blank sz 0 d.hostJunk).setAllocated.unsetUpdatedGPU.setUpdatedPPAL.setMMapped
            ).getUpdatedGPU = false
          simp
        · show ((blank sz 0 d.hostJunk).setAllocated.unsetUpdatedGPU.setUpdatedPPAL.setMMapped
            ).isAllocated = true
          simp
        · show ((blank sz 0 d.hostJunk).setAllocated.unsetUpdatedGPU.setUpdatedPPAL.setMMapped
            ).isConst = false
          simp [hdc]
    | cons p rest =>
      simp only [GPUMirroredMemoryBlockBase.new_size, hl]
      refine ⟨_, _, rfl, ⟨?_, ?_, rfl, rfl⟩, ?_, ?_, rfl⟩
      · exact getUpdatedPPAL_setUpdatedPPAL _
      · show ((blank sz 0 d.hostJunk).setAllocated.unsetUpdatedGPU.setUpdatedPPAL).getUpdatedGPU
          = false
        simp
      · show ((blank sz 0 d.hostJunk).setAllocated.unsetUpdatedGPU.setUpdatedPPAL).isAllocated
          = true
        simp
      · show ((blank sz 0 d.hostJunk).setAllocated.unsetUpdatedGPU.setUpdatedPPAL).isConst
          = false
        simp [hdc]
  · obtain ⟨b, r1, hnr, hsz, hmd, hrf, _⟩ := new_reader_total r hhdr hpay
    obtain ⟨hc, hm, ha, hp, hg, hmg, hpin, hptr⟩ := new_reader_shape hnr
    exact ⟨b, r1, hnr, ⟨hp, hg, hmg, hpin⟩, hm, ha, hc, hsz, hptr, hmd, hrf⟩

/-- C21 at the sample values: a wrap of 4 bytes at 1000, a fresh allocation of
16 bytes from the empty pool, and the sample reader. -/
theorem initial_state_witness :
    okDriver.mmap ≠ MAP_FAILED ∧
    sampleReader.pos + SIZEOF_SIZE_T ≤ sampleReader.data.length ∧
    sampleReader.pos + SIZEOF_SIZE_T +
        size_t_value ((sampleReader.data.drop sampleReader.pos).take SIZEOF_SIZE_T)
      ≤ sampleReader.data.length ∧
    (GPUMirroredMemoryBlockBase.new_const_mem 4 1000 (fun i => i + 1)).isConst = true ∧
    (∃ b pool1, GPUMirroredMemoryBlockBase.new_size okDriver freshPool 16 = .ok (b, pool1) ∧
      InitialState b ∧ b.isAllocated = true ∧ b.isConst = false ∧ b.size = 16) ∧
    (∃ b r1, GPUMirroredMemoryBlockBase.new_reader sampleReader = .ok (b, r1) ∧
      InitialState b ∧ b.isMMapped = true ∧ b.isAllocated = false ∧ b.isConst = false ∧
      b.size = size_t_value ((sampleReader.data.drop sampleReader.pos).take SIZEOF_SIZE_T) ∧
      b.mem_ppal = sampleReader.base + sampleReader.pos + SIZEOF_SIZE_T ∧
      b.mmapped_data = sampleReader.addr ∧ r1.refs = sampleReader.refs + 1) :=
  have h := initial_state okDriver freshPool 16 1000 (fun i => i + 1) sampleReader
    (by decide) (by decide) (by decide)
  ⟨by decide, by decide, by decide, h.2.1.2.1, h.2.2.1, h.2.2.2⟩

/-! ## C22: the element count -/

theorem new_reader_size {r r1 : MMappedDataReader} {b : GPUMirroredMemoryBlock}
    (h : GPUMirroredMemoryBlockBase.new_reader r = .ok (b, r1)) :
    b.size = size_t_value ((r.data.drop r.pos).take SIZEOF_SIZE_T) := by
  unfold GPUMirroredMemoryBlockBase.new_reader MMappedDataReader.get_size_t
    MMappedDataReader.get_char at h
  split at h
  · cases h
  · rename_i sz r2 h1
    split at h1
    · simp only [Except.ok.injEq, Prod.mk.injEq] at h1
      obtain ⟨hsz, hr2⟩ := h1
      subst hr2
      simp only at h
      split at h
      · cases h
      · rename_i p content r3 h2
        split at h2
        · cases h
          exact hsz.symm
        · cases h2
    · cases h1

theorem new_size_size {d : Driver} {pool pool1 : Pool} {sz : Nat} {b : GPUMirroredMemoryBlock}
    (h : GPUMirroredMemoryBlockBase.new_size d pool sz = .ok (b, pool1)) : b.size = sz := by
  unfold GPUMirroredMemoryBlockBase.new_size at h
  simp only at h
  split at h
  · split at h
    · cases h; rfl
    · split at h
      · cases h
      · cases h; rfl
  · cases h; rfl

theorem hugeReader_block :
    ∃ b r1, GPUMirroredMemoryBlockBase.new_reader hugeReader = .ok (b, r1) ∧
      b.size = 2 ^ 32 := by
  have hlen : (size_t_bytes (2 ^ 32)).length = SIZEOF_SIZE_T := size_t_bytes_length _
  have hdata : hugeReader.data = size_t_bytes (2 ^ 32) ++ List.replicate (2 ^ 32) 0 := rfl
  have hpos : hugeReader.pos = 0 := rfl
  have htake : (hugeReader.data.drop hugeReader.pos).take SIZEOF_SIZE_T
      = size_t_bytes (2 ^ 32) := by
    rw [hpos, List.drop_zero, hdata, ← hlen, List.take_left]
  have hval : size_t_value ((hugeReader.data.drop hugeReader.pos).take SIZEOF_SIZE_T)
      = 2 ^ 32 := by
    rw [htake]
    exact size_t_value_bytes (2 ^ 32) (by norm_num)
  have hl : hugeReader.data.length = SIZEOF_SIZE_T + 2 ^ 32 := by
    rw [hdata, List.length_append, hlen, List.length_replicate]
  obtain ⟨b, r1, h, hs, _⟩ := new_reader_total hugeReader
    (by rw [hl, hpos]; omega) (by rw [hval, hl, hpos]; omega)
  exact ⟨b, r1, h, hs.trans hval⟩

/-- C22 as stated fails: the block rebuilt from a reader whose header is
`2^32` has `2^32` bytes, and with one-byte elements `getSize` reports 0, not
`2^32`. The same happens to a block of `2^30` floats seen as bytes through
`reinterpretAs`. -/
theorem element_count_counterexample :
    (blockOfReader (GPUMirroredMemoryBlockBase.new_reader hugeReader)).size = 2 ^ 32 ∧
    getSize 1 (blockOfReader (GPUMirroredMemoryBlockBase.new_reader hugeReader)) = 0 ∧
    (GPUMirroredMemoryBlock.new_mem 4 (2 ^ 30) 1000 (fun _ => 0)).size / 1 = 2 ^ 32 ∧
    getSize 1 (reinterpretAs (GPUMirroredMemoryBlock.new_mem 4 (2 ^ 30) 1000 (fun _ => 0)))
      = 0 := by
  obtain ⟨b, r1, h, hs⟩ := hugeReader_block
  rw [h]
  refine ⟨hs, ?_, by decide, by decide⟩
  show b.size / 1 % 2 ^ 32 = 0
  rw [hs]
  norm_num

/-- C22, amended. For every element size `s > 0`, `getSize` is
`floor(byteSize / s)` reduced modulo `2^32` (its result is an `unsigned int`),
hence exact whenever `floor(byteSize / s)` is below `2^32`. A typed block
constructed with `n` elements, `n` an `unsigned int` and `n * s` a `size_t`,
has byte size `n * s` and reports `n`; a block rebuilt from a reader reports
`floor(N / s)` modulo `2^32` for the header `N` it has read. -/
theorem element_count (s n mem : Nat) (content : Nat → Nat) (b b2 : GPUMirroredMemoryBlock)
    (r r1 : MMappedDataReader) (hs : 0 < s) (hn : n < 2 ^ 32) (hns : n * s < 2 ^ 64)
    (hr : GPUMirroredMemoryBlockBase.new_reader r = .ok (b2, r1)) :
    getSize s b = b.size / s % 2 ^ 32 ∧
    (b.size / s < 2 ^ 32 → getSize s b = b.size / s) ∧
    (GPUMirroredMemoryBlock.new_mem s n mem content).size = n * s ∧
    getSize s (GPUMirroredMemoryBlock.new_mem s n mem content) = n ∧
    (GPUMirroredMemoryBlock.new_const_mem s n mem content).size = n * s ∧
    getSize s (GPUMirroredMemoryBlock.new_const_mem s n mem content) = n ∧
    (∀ (d : Driver) (pool pool1 : Pool) (b3 : GPUMirroredMemoryBlock),
      GPUMirroredMemoryBlock.new_size s d pool n = .ok (b3, pool1) →
      b3.size = n * s ∧ getSize s b3 = n) ∧
    getSize s b2 = size_t_value ((r.data.drop r.pos).take SIZEOF_SIZE_T) / s % 2 ^ 32 := by
  have hmod : n * s % 2 ^ 64 = n * s := Nat.mod_eq_of_lt hns
  have hdiv : n * s / s % 2 ^ 32 = n := by
    rw [Nat.mul_div_cancel n hs]
    exact Nat.mod_eq_of_lt hn
  refine ⟨rfl, ?_, ?_, ?_, ?_, ?_, ?_, ?_⟩
  · intro h
    exact Nat.mod_eq_of_lt h
  · show n * s % 2 ^ 64 = n * s
    exact hmod
  · show n * s % 2 ^ 64 / s % 2 ^ 32 = n
    rw [hmod]; exact hdiv
  · show n * s % 2 ^ 64 = n * s
    exact hmod
  · show n * s % 2 ^ 64 / s % 2 ^ 32 = n
    rw [hmod]; exact hdiv
  · intro d pool pool1 b3 h3
    have h3s : b3.size = n * s % 2 ^ 64 := new_size_size h3
    refine ⟨h3s.trans hmod, ?_⟩
    show b3.size / s % 2 ^ 32 = n
    rw [h3s, hmod]; exact hdiv
  · show b2.size / s % 2 ^ 32 = _
    rw [new_reader_size hr]

/-- C22, amended, at a block of 5 floats and at the block rebuilt from the
sample reader. -/
theorem element_count_witness :
    0 < 4 ∧ 5 < 2 ^ 32 ∧ 5 * 4 < 2 ^ 64 ∧
    GPUMirroredMemoryBlockBase.new_reader sampleReader = .ok (segmentBlock, sampleReaderAfter) ∧
    getSize 4 fiveFloats = fiveFloats.size / 4 % 2 ^ 32 ∧
    (GPUMirroredMemoryBlock.new_mem 4 5 1000 (fun _ => 0)).size = 5 * 4 ∧
    getSize 4 (GPUMirroredMemoryBlock.new_mem 4 5 1000 (fun _ => 0)) = 5 ∧
    getSize 4 segmentBlock =
      size_t_value ((sampleReader.data.drop sampleReader.pos).take SIZEOF_SIZE_T) / 4
        % 2 ^ 32 :=
  have h := element_count 4 5 1000 (fun _ => 0) fiveFloats segmentBlock sampleReader
    sampleReaderAfter (by decide) (by decide) (by decide) rfl
  ⟨by decide, by decide, by decide, rfl, h.1, h.2.2.1, h.2.2.2.1, h.2.2.2.2.2.2.2⟩

/-! ## C23: what serialisation writes -/

theorem updateMemPPAL_copiesHtoD {d : Driver} {b b1 : GPUMirroredMemoryBlockBase}
    (h : updateMemPPAL d b = .ok b1) : copiesHtoD b1.log = copiesHtoD b.log := by
  unfold updateMemPPAL at h
  split at h
  · simp only at h
    split at h
    · cases h
    · split at h <;> split at h <;> cases h <;>
        simp [copiesHtoD, Effect.htod]
  · cases h; rfl

/-- C23. On a block in a state in which `updateMemPPAL` can return, with a
driver whose calls succeed, the non-const `toMMappedDataWriter` first makes
the host side valid (the log gains one device-to-host copy of `size` bytes
exactly when the host side was stale, and no host-to-device copy; the validity
of the device side is unchanged) and then calls `put(&size)` and
`put(mem_ppal, size)` in that order: the writer gains the 8 bytes of `size`
followed by the `size` host bytes, which are the logical contents of the
block, and nothing else. Through a const-qualified handle the same two `put`
calls are made when the host side is valid; when it is stale the process ends
with "Impossible to update memory from a const pointer" before any `put`, the
block unchanged. -/
theorem serialize_wire_format (d : Driver) (b : GPUMirroredMemoryBlock)
    (w : MMappedDataWriter) (hd : d.succeeds)
    (hg : b.getUpdatedPPAL = true ∨ b.mem_gpu ≠ 0) :
    (∃ b1, toMMappedDataWriter d b w
        = .ok (b1, (w.put_size_t b.size).put b1.hostMem b.size) ∧
      b1.getUpdatedPPAL = true ∧ b1.getUpdatedGPU = b.getUpdatedGPU ∧
      copiesDtoH b1.log = copiesDtoH b.log ++ (if b.getUpdatedPPAL then [] else [b.size]) ∧
      copiesHtoD b1.log = copiesHtoD b.log ∧
      hostBytes b1 = logicalBytes b ∧
      ((w.put_size_t b.size).put b1.hostMem b.size).data
        = w.data ++ size_t_bytes b.size ++ logicalBytes b) ∧
    toMMappedDataWriter_const b w =
      (if b.getUpdatedPPAL then .ok ((w.put_size_t b.size).put b.hostMem b.size)
        else .error ⟨Exit.constSerialize, b⟩) ∧
    ((w.put_size_t b.size).put b.hostMem b.size).data
      = w.data ++ size_t_bytes b.size ++ hostBytes b := by
  obtain ⟨b1, hu, hs1, hb1, hp1, hg1, hl1⟩ := updateMemPPAL_total d b hd hg
  refine ⟨⟨b1, ?_, hp1, hg1, hl1, updateMemPPAL_copiesHtoD hu, hb1, ?_⟩, ?_, ?_⟩
  · simp [toMMappedDataWriter, hu, hs1]
  · have : (List.range b.size).map b1.hostMem = logicalBytes b := hs1 ▸ hb1
    simp [MMappedDataWriter.put, MMappedDataWriter.put_size_t, this]
  · cases hp : b.getUpdatedPPAL <;> simp [toMMappedDataWriter_const, hp]
  · simp [MMappedDataWriter.put, MMappedDataWriter.put_size_t, hostBytes]

/-- C23 at the sample block after a device write (host side stale) and the
sample writer. -/
theorem serialize_wire_format_witness :
    okDriver.succeeds ∧ (sampleOnDevice.getUpdatedPPAL = true ∨ sampleOnDevice.mem_gpu ≠ 0) ∧
    (∃ b1, toMMappedDataWriter okDriver sampleOnDevice sampleWriter
        = .ok (b1, (sampleWriter.put_size_t sampleOnDevice.size).put b1.hostMem
            sampleOnDevice.size) ∧
      b1.getUpdatedPPAL = true ∧ b1.getUpdatedGPU = sampleOnDevice.getUpdatedGPU ∧
      copiesDtoH b1.log = copiesDtoH sampleOnDevice.log ++
        (if sampleOnDevice.getUpdatedPPAL then [] else [sampleOnDevice.size]) ∧
      copiesHtoD b1.log = copiesHtoD sampleOnDevice.log ∧
      hostBytes b1 = logicalBytes sampleOnDevice ∧
      ((sampleWriter.put_size_t sampleOnDevice.size).put b1.hostMem sampleOnDevice.size).data
        = sampleWriter.data ++ size_t_bytes sampleOnDevice.size ++
            logicalBytes sampleOnDevice) ∧
    toMMappedDataWriter_const sampleOnDevice sampleWriter =
      .error ⟨Exit.constSerialize, sampleOnDevice⟩ :=
  have h := serialize_wire_format okDriver sampleOnDevice sampleWriter (by decide) (by decide)
  ⟨by decide, by decide, h.1, rfl⟩

/-! ## C25: the fields fixed by the constructor -/

/-- C25. From any block, after any finite number of steps (the six pointer
accessors, `get` and `operator[]`, `toMMappedDataWriter`,
`pinnedMemoryPageLock`, stores of the caller), `size`, `isConst`,
`isAllocated` and `isMMapped` are what they were; in particular they keep in
every reachable state the values the constructor gave them. The `const`
overloads return no new block at all. -/
theorem frozen_fields (b0 b : GPUMirroredMemoryBlock)
    (hs : Relation.ReflTransGen Step b0 b) :
    b.size = b0.size ∧ b.isConst = b0.isConst ∧ b.isAllocated = b0.isAllocated ∧
      b.isMMapped = b0.isMMapped :=
  steps_sameBuild hs

/-- C25 at the sample const block and its state after a device read. -/
theorem frozen_fields_witness :
    Relation.ReflTransGen Step sampleConstBlock sampleConstMirrored ∧
    sampleConstMirrored.size = sampleConstBlock.size ∧
    sampleConstMirrored.isConst = sampleConstBlock.isConst ∧
    sampleConstMirrored.isAllocated = sampleConstBlock.isAllocated ∧
    sampleConstMirrored.isMMapped = sampleConstBlock.isMMapped :=
  have h : Relation.ReflTransGen Step sampleConstBlock sampleConstMirrored :=
    Relation.ReflTransGen.single
      (Step.getGPUForRead okDriver sampleConstBlock sampleConstMirrored 4096 rfl)
  ⟨h, frozen_fields sampleConstBlock sampleConstMirrored h⟩

/-! ## C24: outstanding transfers -/

theorem updateMemPPAL_pending {d : Driver} {b b1 : GPUMirroredMemoryBlockBase}
    (h : updateMemPPAL d b = .ok b1) :
    b1.pinned = b.pinned ∧
      b1.pending = (if b.getUpdatedPPAL then b.pending
        else if b.pinned then false else b.pending) := by
  unfold updateMemPPAL at h
  split at h
  · rename_i hp
    simp at hp
    simp only at h
    split at h
    · cases h
    · split at h
      · rename_i hpin
        have hpin' : b.pinned = false := by simpa using hpin
        split at h
        · cases h
          exact ⟨rfl, by simp [hp, hpin']⟩
        · cases h
      · rename_i hpin
        have hpin' : b.pinned = true := by simpa using hpin
        split at h
        · cases h
          exact ⟨rfl, by simp [hp, hpin']⟩
        · cases h
  · rename_i hp
    simp at hp
    cases h
    exact ⟨rfl, by simp [hp]⟩

theorem allocMemGPU_pending {d : Driver} {b b1 : GPUMirroredMemoryBlockBase} {fresh : Bool}
    (h : allocMemGPU d b = .ok (b1, fresh)) :
    b1.pinned = b.pinned ∧ b1.pending = b.pending := by
  unfold allocMemGPU at h
  split at h
  · split at h
    · cases h; exact ⟨rfl, rfl⟩
    · cases h
  · cases h; exact ⟨rfl, rfl⟩

theorem copyPPALtoGPU_pending {d : Driver} {b b1 : GPUMirroredMemoryBlockBase}
    (h : copyPPALtoGPU d b = .ok b1) :
    b1.pinned = b.pinned ∧ b1.pending = (if b.pinned then true else b.pending) := by
  unfold copyPPALtoGPU at h
  split at h
  · rename_i hpin
    have hpin' : b.pinned = false := by simpa using hpin
    split at h
    · cases h; exact ⟨rfl, by simp [hpin']⟩
    · cases h
  · rename_i hpin
    have hpin' : b.pinned = true := by simpa using hpin
    split at h
    · cases h; exact ⟨rfl, by simp [hpin']⟩
    · cases h

theorem updateMemGPU_pending {d : Driver} {b b1 : GPUMirroredMemoryBlockBase}
    (h : updateMemGPU d b = .ok b1) :
    b1.pinned = b.pinned ∧
      b1.pending = (if b.getUpdatedGPU then b.pending
        else if b.pinned then true else b.pending) := by
  unfold updateMemGPU at h
  split at h
  · rename_i hp
    simp at hp
    split at h
    · cases h
    · rename_i b2 fresh ha
      obtain ⟨ha1, ha2⟩ := allocMemGPU_pending ha
      obtain ⟨hc1, hc2⟩ := copyPPALtoGPU_pending h
      simp only [pinned_setUpdatedGPU, pending_setUpdatedGPU] at hc1 hc2
      exact ⟨hc1.trans ha1, by rw [hc2, ha1, ha2]; simp [hp]⟩
  · rename_i hp
    simp at hp
    cases h
    exact ⟨rfl, by simp [hp]⟩

theorem pendingOnlyIfPinned_of_eq {b b1 : GPUMirroredMemoryBlock}
    (hpin : b1.pinned = b.pinned) (hpen : b1.pending = true → b.pending = true ∨ b.pinned = true)
    (h : PendingOnlyIfPinned b) : PendingOnlyIfPinned b1 := by
  intro h1
  rw [hpin]
  rcases hpen h1 with h2 | h2
  · exact h h2
  · exact h2

theorem updateMemPPAL_keeps {d : Driver} {b b1 : GPUMirroredMemoryBlockBase}
    (h : updateMemPPAL d b = .ok b1) (hb : PendingOnlyIfPinned b) :
    PendingOnlyIfPinned b1 := by
  obtain ⟨h1, h2⟩ := updateMemPPAL_pending h
  refine pendingOnlyIfPinned_of_eq h1 ?_ hb
  intro hp
  rw [h2] at hp
  split at hp
  · exact Or.inl hp
  · split at hp
    · cases hp
    · exact Or.inl hp

theorem updateMemGPU_keeps {d : Driver} {b b1 : GPUMirroredMemoryBlockBase}
    (h : updateMemGPU d b = .ok b1) (hb : PendingOnlyIfPinned b) :
    PendingOnlyIfPinned b1 := by
  obtain ⟨h1, h2⟩ := updateMemGPU_pending h
  refine pendingOnlyIfPinned_of_eq h1 ?_ hb
  intro hp
  rw [h2] at hp
  split at hp
  · exact Or.inl hp
  · split at hp
    · rename_i hpin
      exact Or.inr hpin
    · exact Or.inl hp

theorem step_keeps_pendingOnlyIfPinned {b b1 : GPUMirroredMemoryBlock} (h : Step b b1)
    (hb : PendingOnlyIfPinned b) : PendingOnlyIfPinned b1 := by
  cases h with
  | getPPALForRead d _ _ p h =>
    unfold getPPALForRead at h
    split at h
    · cases h
    · rename_i b2 hu
      cases h
      exact updateMemPPAL_keeps hu hb
  | getPPALForWrite _ _ p h =>
    unfold getPPALForWrite at h
    split at h
    · cases h
    · cases h
      exact hb
  | getPPALForReadAndWrite d _ _ p h =>
    unfold getPPALForReadAndWrite at h
    split at h
    · cases h
    · split at h
      · cases h
      · rename_i b2 hu
        cases h
        have h2 : PendingOnlyIfPinned b2 := updateMemPPAL_keeps hu hb
        exact h2
  | getGPUForRead d _ _ p h =>
    unfold getGPUForRead at h
    split at h
    · cases h
    · rename_i b2 hu
      cases h
      exact updateMemGPU_keeps hu hb
  | getGPUForWrite d _ _ p h =>
    unfold getGPUForWrite at h
    split at h
    · cases h
    · split at h
      · cases h
      · rename_i b2 fresh ha
        obtain ⟨ha1, ha2⟩ := allocMemGPU_pending ha
        split at h
        · cases h
        · rename_i b3 hc
          cases h
          have h3 : PendingOnlyIfPinned b3 := by
            cases fresh
            · simp at hc
              cases hc
              exact pendingOnlyIfPinned_of_eq ha1 (fun hp => Or.inl (ha2 ▸ hp)) hb
            · simp at hc
              obtain ⟨hc1, hc2⟩ := copyPPALtoGPU_pending hc
              refine pendingOnlyIfPinned_of_eq (hc1.trans ha1) ?_ hb
              intro hp
              rw [hc2] at hp
              split at hp
              · rename_i hpin
                exact Or.inr (ha1 ▸ hpin)
              · exact Or.inl (ha2 ▸ hp)
          exact h3
  | getGPUForReadAndWrite d _ _ p h =>
    unfold getGPUForReadAndWrite at h
    split at h
    · cases h
    · split at h
      · cases h
      · rename_i b2 hu
        cases h
        have h2 : PendingOnlyIfPinned b2 := updateMemGPU_keeps hu hb
        exact h2
  | get sizeofT d _ _ pos p h =>
    unfold GPUMirroredMemoryBlock.get at h
    split at h
    · cases h
    · rename_i b2 hu
      cases h
      have h2 : PendingOnlyIfPinned b2 := updateMemPPAL_keeps hu hb
      exact h2
  | toMMappedDataWriter d _ _ w w1 h =>
    unfold toMMappedDataWriter at h
    split at h
    · cases h
    · rename_i b2 hu
      cases h
      exact updateMemPPAL_keeps hu hb
  | pinnedMemoryPageLock d _ _ h =>
    unfold pinnedMemoryPageLock at h
    split at h
    · cases h
    · simp only at h
      split at h
      · cases h
        intro _
        rfl
      · cases h
  | storeHost _ v => exact hb
  | storeDevice _ v => exact hb

theorem constructed_not_pending {b : GPUMirroredMemoryBlock} (h : Constructed b) :
    b.pending = false := by
  cases h with
  | new_size d pool sz b pool1 h =>
    unfold GPUMirroredMemoryBlockBase.new_size at h
    simp only at h
    split at h
    · split at h
      · cases h; rfl
      · split at h
        · cases h
        · cases h; rfl
    · cases h; rfl
  | new_mem sz mem content => rfl
  | new_const_mem sz mem content => rfl
  | new_reader r r1 b h =>
    unfold GPUMirroredMemoryBlockBase.new_reader at h
    split at h
    · cases h
    · split at h
      · cases h
      · cases h; rfl

theorem reachable_pendingOnlyIfPinned {b : GPUMirroredMemoryBlock} (h : Reachable b) :
    PendingOnlyIfPinned b := by
  induction h with
  | init b hc =>
    intro hp
    rw [constructed_not_pending hc] at hp
    cases hp
  | step b b1 _ hs ih => exact step_keeps_pendingOnlyIfPinned hs ih

theorem samplePinned_reachable : Reachable samplePinned :=
  Reachable.step sampleBlock samplePinned
    (Reachable.init _ (Constructed.new_mem 4 1000 (fun i => i + 1)))
    (Step.pinnedMemoryPageLock okDriver sampleBlock samplePinned rfl)

/-- C24 as stated fails: on the pinned sample block, whose device side is
stale, `getGPUForRead` returns the device pointer 4096 in a state whose
pending-transfer flag is set: the synchronisation precedes the asynchronous
host-to-device copy, and nothing follows that copy. -/
theorem transfer_barrier_counterexample :
    Reachable samplePinned ∧ samplePinned.pinned = true ∧ samplePinned.pending = false ∧
    getGPUForRead okDriver samplePinned = .ok (samplePinnedMirrored, 4096) ∧
    samplePinnedMirrored.pending = true ∧
    samplePinnedMirrored.log =
      [Effect.aligned_free 1000, Effect.cudaHostAlloc 4, Effect.cuMemAlloc 4,
       Effect.cudaThreadSynchronize, Effect.cudaMemcpyAsyncHtoD 4] :=
  ⟨samplePinned_reachable, by decide, by decide, rfl, by decide, by decide⟩

/-- C24, amended. In every reachable state a transfer can be outstanding only
on a pinned block; an accessor that has to copy device-to-host
(`getPPALForRead`, `getPPALForReadAndWrite`, `get` on a stale host side)
returns with no transfer outstanding; `getPPALForWrite`, which copies nothing,
leaves the pending flag as it found it; and on a pinned block with a stale
device side `getGPUForRead` and `getGPUForReadAndWrite` return with the
host-to-device copy still outstanding, and with a driver whose calls succeed
`getGPUForRead` does return there. -/
theorem transfer_barrier (d : Driver) (b : GPUMirroredMemoryBlock) (h : Reachable b) :
    (b.pending = true → b.pinned = true) ∧
    (∀ b1 p, getPPALForRead d b = .ok (b1, p) → b.getUpdatedPPAL = false →
      b1.pending = false) ∧
    (∀ b1 p, getPPALForReadAndWrite d b = .ok (b1, p) → b.getUpdatedPPAL = false →
      b1.pending = false) ∧
    (∀ sizeofT pos b1 p, GPUMirroredMemoryBlock.get sizeofT d b pos = .ok (b1, p) →
      b.getUpdatedPPAL = false → b1.pending = false) ∧
    (∀ b1 p, getPPALForWrite b = .ok (b1, p) → b1.pending = b.pending) ∧
    (∀ b1 p, getGPUForRead d b = .ok (b1, p) → b.pinned = true →
      b.getUpdatedGPU = false → b1.pending = true) ∧
    (∀ b1 p, getGPUForReadAndWrite d b = .ok (b1, p) → b.pinned = true →
      b.getUpdatedGPU = false → b1.pending = true) ∧
    (d.succeeds → b.pinned = true → b.getUpdatedGPU = false →
      ∃ b1, getGPUForRead d b = .ok (b1, b1.mem_gpu) ∧ b1.pending = true) := by
  have hinv := reachable_pendingOnlyIfPinned h
  have hhost : ∀ b2, updateMemPPAL d b = .ok b2 → b.getUpdatedPPAL = false →
      b2.pending = false := by
    intro b2 hu hp
    obtain ⟨_, h2⟩ := updateMemPPAL_pending hu
    rw [h2]
    simp only [hp, Bool.false_eq_true, if_false]
    split
    · rfl
    · rename_i hpin
      cases hpen : b.pending
      · rfl
      · exact absurd (hinv hpen) hpin
  have hdev : ∀ b2, updateMemGPU d b = .ok b2 → b.pinned = true →
      b.getUpdatedGPU = false → b2.pending = true := by
    intro b2 hu hpin hg
    obtain ⟨_, h2⟩ := updateMemGPU_pending hu
    rw [h2]
    simp [hg, hpin]
  have hread : ∀ b1 p, getGPUForRead d b = .ok (b1, p) → b.pinned = true →
      b.getUpdatedGPU = false → b1.pending = true := by
    intro b1 p hr hpin hg
    unfold getGPUForRead at hr
    split at hr
    · cases hr
    · rename_i b2 hu
      cases hr
      exact hdev _ hu hpin hg
  refine ⟨hinv, ?_, ?_, ?_, ?_, hread, ?_, ?_⟩
  · intro b1 p hr hp
    unfold getPPALForRead at hr
    split at hr
    · cases hr
    · rename_i b2 hu
      cases hr
      exact hhost _ hu hp
  · intro b1 p hr hp
    unfold getPPALForReadAndWrite at hr
    split at hr
    · cases hr
    · split at hr
      · cases hr
      · rename_i b2 hu
        cases hr
        exact hhost b2 hu hp
  · intro sizeofT pos b1 p hr hp
    unfold GPUMirroredMemoryBlock.get at hr
    split at hr
    · cases hr
    · rename_i b2 hu
      cases hr
      exact hhost b2 hu hp
  · intro b1 p hr
    unfold getPPALForWrite at hr
    split at hr
    · cases hr
    · cases hr
      rfl
  · intro b1 p hr hpin hg
    unfold getGPUForReadAndWrite at hr
    split at hr
    · cases hr
    · split at hr
      · cases hr
      · rename_i b2 hu
        cases hr
        exact hdev b2 hu hpin hg
  · intro hd hpin hg
    obtain ⟨b1, h1, _⟩ := getGPUForRead_stale d b hd hg
    exact ⟨b1, h1, hread _ _ h1 hpin hg⟩

/-- C24, amended, at the pinned sample block and at the mirrored sample
block. -/
theorem transfer_barrier_witness :
    Reachable samplePinned ∧
    ((samplePinned.pending = true → samplePinned.pinned = true) ∧
    (∀ b1 p, getPPALForRead okDriver samplePinned = .ok (b1, p) →
      samplePinned.getUpdatedPPAL = false → b1.pending = false) ∧
    (∀ b1 p, getPPALForReadAndWrite okDriver samplePinned = .ok (b1, p) →
      samplePinned.getUpdatedPPAL = false → b1.pending = false) ∧
    (∀ sizeofT pos b1 p,
      GPUMirroredMemoryBlock.get sizeofT okDriver samplePinned pos = .ok (b1, p) →
      samplePinned.getUpdatedPPAL = false → b1.pending = false) ∧
    (∀ b1 p, getPPALForWrite samplePinned = .ok (b1, p) →
      b1.pending = samplePinned.pending) ∧
    (∀ b1 p, getGPUForRead okDriver samplePinned = .ok (b1, p) →
      samplePinned.pinned = true → samplePinned.getUpdatedGPU = false →
      b1.pending = true) ∧
    (∀ b1 p, getGPUForReadAndWrite okDriver samplePinned = .ok (b1, p) →
      samplePinned.pinned = true → samplePinned.getUpdatedGPU = false →
      b1.pending = true) ∧
    (okDriver.succeeds → samplePinned.pinned = true → samplePinned.getUpdatedGPU = false →
      ∃ b1, getGPUForRead okDriver samplePinned = .ok (b1, b1.mem_gpu) ∧
        b1.pending = true)) :=
  ⟨samplePinned_reachable, transfer_barrier okDriver samplePinned samplePinned_reachable⟩

/-! ## C26: pinning and the contents -/

/-- C26 as stated fails: the sample block is neither const nor mmapped, its
host side is valid and holds 1, 2, 3, 4; after `pinnedMemoryPageLock` the
host side is still marked valid, `getPPALForRead` copies nothing and returns
the new page-locked region, whose bytes are those the allocation left there
(here 0, 0, 0, 0). -/
theorem pinHost_discards_contents_counterexample :
    sampleBlock.isConst = false ∧ sampleBlock.isMMapped = false ∧
    sampleBlock.getUpdatedPPAL = true ∧
    getPPALForRead okDriver sampleBlock = .ok (sampleBlock, 1000) ∧
    hostBytes sampleBlock = [1, 2, 3, 4] ∧
    pinnedMemoryPageLock okDriver sampleBlock = .ok samplePinned ∧
    samplePinned.log = [Effect.aligned_free 1000, Effect.cudaHostAlloc 4] ∧
    getPPALForRead okDriver samplePinned = .ok (samplePinned, 8192) ∧
    hostBytes samplePinned = [0, 0, 0, 0] :=
  ⟨by decide, by decide, by decide, rfl, by decide, rfl, by decide, rfl, by decide⟩

/-- C26, amended. On every block that is neither const nor mmapped and whose
host side is valid, with a driver whose calls succeed, `pinnedMemoryPageLock`
returns a pinned block with the same validity flags and the same device
bytes, whose host pointer is the fresh page-locked region; nothing is copied
into that region, so `getPPALForRead` right after it returns the bytes the
allocation left there (`hostJunk`), whatever the host bytes were before. The
calls it makes are `aligned_free` of the old host buffer, when the old pointer
is not null, and `cudaHostAlloc` of `size` bytes. -/
theorem pinHost_fresh_region (d : Driver) (b : GPUMirroredMemoryBlock) (hd : d.succeeds)
    (hc : b.isConst = false) (hm : b.isMMapped = false) (hp : b.getUpdatedPPAL = true) :
    ∃ b1, pinnedMemoryPageLock d b = .ok b1 ∧ b1.pinned = true ∧
      b1.getUpdatedPPAL = true ∧ b1.getUpdatedGPU = b.getUpdatedGPU ∧
      some b1.mem_ppal = d.cudaHostAlloc ∧
      b1.deviceMem = b.deviceMem ∧
      copiesDtoH b1.log = copiesDtoH b.log ∧ copiesHtoD b1.log = copiesHtoD b.log ∧
      getPPALForRead d b1 = .ok (b1, b1.mem_ppal) ∧
      hostBytes b1 = (List.range b.size).map d.hostJunk ∧
      b1.log = (if b.mem_ppal ≠ 0 then b.log ++ [Effect.aligned_free b.mem_ppal]
        else b.log) ++ [Effect.cudaHostAlloc b.size] := by
  obtain ⟨_, _, _, _, hpin, _⟩ := hd
  obtain ⟨p, hpa⟩ := Option.isSome_iff_exists.mp hpin
  have hpin1 : pinnedMemoryPageLock d b =
      .ok { b with
            mem_ppal := p
            hostMem := d.hostJunk
            pinned := true
            log := (if b.mem_ppal ≠ 0 then b.log ++ [Effect.aligned_free b.mem_ppal]
              else b.log) ++ [Effect.cudaHostAlloc b.size] } := by
    simp [pinnedMemoryPageLock, hc, hm, hpa]
  refine ⟨_, hpin1, rfl, hp, rfl, hpa.symm, rfl, ?_, ?_, ?_, rfl, rfl⟩
  · by_cases h0 : b.mem_ppal = 0 <;> simp [copiesDtoH, Effect.dtoh, h0]
  · by_cases h0 : b.mem_ppal = 0 <;> simp [copiesHtoD, Effect.htod, h0]
  · exact getPPALForRead_valid d _ hp

/-- C26, amended, at the sample block. -/
theorem pinHost_fresh_region_witness :
    okDriver.succeeds ∧ sampleBlock.isConst = false ∧ sampleBlock.isMMapped = false ∧
    sampleBlock.getUpdatedPPAL = true ∧
    ∃ b1, pinnedMemoryPageLock okDriver sampleBlock = .ok b1 ∧ b1.pinned = true ∧
      b1.getUpdatedPPAL = true ∧ b1.getUpdatedGPU = sampleBlock.getUpdatedGPU ∧
      some b1.mem_ppal = okDriver.cudaHostAlloc ∧
      b1.deviceMem = sampleBlock.deviceMem ∧
      copiesDtoH b1.log = copiesDtoH sampleBlock.log ∧
      copiesHtoD b1.log = copiesHtoD sampleBlock.log ∧
      getPPALForRead okDriver b1 = .ok (b1, b1.mem_ppal) ∧
      hostBytes b1 = (List.range sampleBlock.size).map okDriver.hostJunk ∧
      b1.log = (if sampleBlock.mem_ppal ≠ 0
        then sampleBlock.log ++ [Effect.aligned_free sampleBlock.mem_ppal]
        else sampleBlock.log) ++ [Effect.cudaHostAlloc sampleBlock.size] :=
  ⟨by decide, by decide, by decide, by decide,
    pinHost_fresh_region okDriver sampleBlock (by decide) (by decide) (by decide) (by decide)⟩

/-! ## C27: the host side of a const block -/

theorem getGPUForWrite_not_const {d : Driver} {b b1 : GPUMirroredMemoryBlock} {p : Nat}
    (h : getGPUForWrite d b = .ok (b1, p)) : b.isConst = false := by
  unfold getGPUForWrite at h
  split at h
  · cases h
  · rename_i hc
    simpa using hc

theorem getGPUForReadAndWrite_not_const {d : Driver} {b b1 : GPUMirroredMemoryBlock} {p : Nat}
    (h : getGPUForReadAndWrite d b = .ok (b1, p)) : b.isConst = false := by
  unfold getGPUForReadAndWrite at h
  split at h
  · cases h
  · rename_i hc
    simpa using hc

theorem const_step_host {b b1 : GPUMirroredMemoryBlock} (h : Step b b1)
    (hc : b.isConst = true) (hp : b.getUpdatedPPAL = true) : b1.getUpdatedPPAL = true := by
  cases h with
  | getPPALForRead d _ _ p h => exact (getPPALForRead_flags h).1
  | getPPALForWrite _ _ p h => exact (getPPALForWrite_flags h).1
  | getPPALForReadAndWrite d _ _ p h => exact (getPPALForReadAndWrite_flags h).1
  | getGPUForRead d _ _ p h => rw [(getGPUForRead_flags h).2]; exact hp
  | getGPUForWrite d _ _ p h =>
    have := getGPUForWrite_not_const h
    simp [hc] at this
  | getGPUForReadAndWrite d _ _ p h =>
    have := getGPUForReadAndWrite_not_const h
    simp [hc] at this
  | get sizeofT d _ _ pos p h => exact (get_flags h).1
  | toMMappedDataWriter d _ _ w w1 h => exact (toMMappedDataWriter_flags h).1
  | pinnedMemoryPageLock d _ _ h =>
    rw [getUpdatedPPAL_congr (pinnedMemoryPageLock_status h)]; exact hp
  | storeHost _ v => exact hp
  | storeDevice _ v => exact hp

theorem const_steps_host {b0 b : GPUMirroredMemoryBlock}
    (h : Relation.ReflTransGen Step b0 b) (hc : b0.isConst = true)
    (hp : b0.getUpdatedPPAL = true) : b.getUpdatedPPAL = true := by
  induction h with
  | refl => exact hp
  | tail hs hstep ih =>
    exact const_step_host hstep ((steps_sameBuild hs).2.1.trans hc) ih

theorem getGPUForRead_abort_host {d : Driver} {b : GPUMirroredMemoryBlock} {a : Abort}
    (h : getGPUForRead d b = .error a) : a.block.getUpdatedPPAL = b.getUpdatedPPAL := by
  unfold getGPUForRead updateMemGPU allocMemGPU copyPPALtoGPU at h
  split at h
  · rename_i e he
    cases h
    split at he
    · split at he
      · rename_i e2 ha
        cases he
        split at ha
        · split at ha
          · cases ha
          · cases ha; rfl
        · cases ha
      · rename_i b2 fresh ha
        have hst : b2.status = b.status := by
          split at ha
          · split at ha
            · cases ha; rfl
            · cases ha
          · cases ha; rfl
        split at he
        · split at he
          · cases he
          · cases he
            show (b2.setUpdatedGPU).getUpdatedPPAL = b.getUpdatedPPAL
            rw [getUpdatedPPAL_setUpdatedGPU]
            exact getUpdatedPPAL_congr hst
        · split at he
          · cases he
          · cases he
            show (b2.setUpdatedGPU).getUpdatedPPAL = b.getUpdatedPPAL
            rw [getUpdatedPPAL_setUpdatedGPU]
            exact getUpdatedPPAL_congr hst
    · cases he
  · cases h

/-- C27. In every state of a block built by the const-pointer constructor,
any number of steps later, the host side is valid, so the `const` overloads
of `getPPALForRead`, `get` and `operator[]` return. The calls that end the
process leave it valid as well: the four mutable pointer accessors and
`pinnedMemoryPageLock` end with the block unchanged, and a failing driver call
inside `getGPUForRead` ends with the host-valid bit still set. -/
theorem const_host_always_valid (sz mem sizeofT pos : Nat) (content : Nat → Nat) (d : Driver)
    (b : GPUMirroredMemoryBlock)
    (h : Relation.ReflTransGen Step (GPUMirroredMemoryBlockBase.new_const_mem sz mem content) b) :
    b.getUpdatedPPAL = true ∧
    getPPALForRead_const b = .ok b.mem_ppal ∧
    get_const sizeofT b pos = .ok (b.mem_ppal + pos * sizeofT) ∧
    operator_index_const sizeofT b pos = .ok (b.mem_ppal + pos * sizeofT) ∧
    getPPALForWrite b = .error ⟨Exit.constWrite, b⟩ ∧
    getPPALForReadAndWrite d b = .error ⟨Exit.constWrite, b⟩ ∧
    getGPUForWrite d b = .error ⟨Exit.constWrite, b⟩ ∧
    getGPUForReadAndWrite d b = .error ⟨Exit.constWrite, b⟩ ∧
    pinnedMemoryPageLock d b = .error ⟨Exit.pinForbidden, b⟩ ∧
    (∀ a, getGPUForRead d b = .error a → a.block.getUpdatedPPAL = true) := by
  have hc : b.isConst = true :=
    (steps_sameBuild h).2.1.trans (isConst_new_const_mem sz mem content)
  have hp : b.getUpdatedPPAL = true :=
    const_steps_host h (isConst_new_const_mem sz mem content)
      (new_const_mem_flags sz mem content).1
  refine ⟨hp, ?_, ?_, ?_, ?_, ?_, ?_, ?_, ?_, ?_⟩
  · simp [getPPALForRead_const, hp]
  · simp [get_const, updateMemPPAL_const, hp]
  · simp [operator_index_const, get_const, updateMemPPAL_const, hp]
  · simp [getPPALForWrite, hc]
  · simp [getPPALForReadAndWrite, hc]
  · simp [getGPUForWrite, hc]
  · simp [getGPUForReadAndWrite, hc]
  · simp [pinnedMemoryPageLock, hc]
  · intro a ha
    rw [getGPUForRead_abort_host ha]; exact hp

/-- C27 at the sample const block after a device read and an indexed access. -/
theorem const_host_always_valid_witness :
    Relation.ReflTransGen Step
      (GPUMirroredMemoryBlockBase.new_const_mem 4 1000 (fun i => i + 1))
      sampleConstMirrored.unsetUpdatedGPU ∧
    sampleConstMirrored.unsetUpdatedGPU.getUpdatedPPAL = true ∧
    getPPALForRead_const sampleConstMirrored.unsetUpdatedGPU
      = .ok sampleConstMirrored.unsetUpdatedGPU.mem_ppal :=
  have h : Relation.ReflTransGen Step
      (GPUMirroredMemoryBlockBase.new_const_mem 4 1000 (fun i => i + 1))
      sampleConstMirrored.unsetUpdatedGPU :=
    Relation.ReflTransGen.tail
      (Relation.ReflTransGen.single
        (Step.getGPUForRead okDriver sampleConstBlock sampleConstMirrored 4096 rfl))
      (Step.get 1 okDriver sampleConstMirrored sampleConstMirrored.unsetUpdatedGPU 2 1002 rfl)
  have t := const_host_always_valid 4 1000 1 2 (fun i => i + 1) okDriver
    sampleConstMirrored.unsetUpdatedGPU h
  ⟨h, t.1, t.2.1⟩

/-! ## C28: device validity implies device storage -/

theorem stepBy_step {d : Driver} {b b1 : GPUMirroredMemoryBlock} (h : StepBy d b b1) :
    Step b b1 := by
  cases h with
  | getPPALForRead _ _ p h => exact Step.getPPALForRead d _ _ p h
  | getPPALForWrite _ _ p h => exact Step.getPPALForWrite _ _ p h
  | getPPALForReadAndWrite _ _ p h => exact Step.getPPALForReadAndWrite d _ _ p h
  | getGPUForRead _ _ p h => exact Step.getGPUForRead d _ _ p h
  | getGPUForWrite _ _ p h => exact Step.getGPUForWrite d _ _ p h
  | getGPUForReadAndWrite _ _ p h => exact Step.getGPUForReadAndWrite d _ _ p h
  | get sizeofT _ _ pos p h => exact Step.get sizeofT d _ _ pos p h
  | toMMappedDataWriter _ _ w w1 h => exact Step.toMMappedDataWriter d _ _ w w1 h
  | pinnedMemoryPageLock _ _ h => exact Step.pinnedMemoryPageLock d _ _ h
  | storeHost _ v => exact Step.storeHost _ v
  | storeDevice _ v => exact Step.storeDevice _ v

theorem reachableNonZero_reachable {b : GPUMirroredMemoryBlock} (h : ReachableNonZero b) :
    Reachable b := by
  induction h with
  | init b hc => exact Reachable.init b hc
  | step d b b1 _ _ hs ih => exact Reachable.step b b1 ih (stepBy_step hs)

theorem reachable_valid {b : GPUMirroredMemoryBlock} (h : Reachable b) :
    (b.getUpdatedPPAL || b.getUpdatedGPU) = true := by
  induction h with
  | init b hc => simp [(constructed_flags hc).1]
  | step b b1 _ hs ih => exact step_valid hs ih

theorem updateMemPPAL_mem_gpu {d : Driver} {b b1 : GPUMirroredMemoryBlockBase}
    (h : updateMemPPAL d b = .ok b1) : b1.mem_gpu = b.mem_gpu := by
  unfold updateMemPPAL at h
  split at h
  · simp only at h
    split at h
    · cases h
    · split at h <;> split at h <;> cases h <;> rfl
  · cases h; rfl

theorem allocMemGPU_mem_gpu {d : Driver} {b b1 : GPUMirroredMemoryBlockBase} {fresh : Bool}
    (h : allocMemGPU d b = .ok (b1, fresh)) (hd : d.handleNonZero) : b1.mem_gpu ≠ 0 := by
  unfold allocMemGPU at h
  split at h
  · split at h
    · rename_i hnd ha
      cases h
      intro h0
      apply hd
      rw [ha]
      exact congrArg some h0
    · cases h
  · rename_i hm
    cases h
    exact hm

theorem copyPPALtoGPU_mem_gpu {d : Driver} {b b1 : GPUMirroredMemoryBlockBase}
    (h : copyPPALtoGPU d b = .ok b1) : b1.mem_gpu = b.mem_gpu := by
  unfold copyPPALtoGPU at h
  split at h <;> split at h <;> cases h <;> rfl

theorem updateMemGPU_mem_gpu {d : Driver} {b b1 : GPUMirroredMemoryBlockBase}
    (h : updateMemGPU d b = .ok b1) (hd : d.handleNonZero)
    (hb : b.getUpdatedGPU = true → b.mem_gpu ≠ 0) : b1.mem_gpu ≠ 0 := by
  unfold updateMemGPU at h
  split at h
  · split at h
    · cases h
    · rename_i b2 fresh ha
      rw [copyPPALtoGPU_mem_gpu h]
      have h2 : b2.mem_gpu ≠ 0 := allocMemGPU_mem_gpu ha hd
      exact h2
  · rename_i hp
    simp at hp
    cases h
    exact hb hp

theorem pinnedMemoryPageLock_mem_gpu {d : Driver} {b b1 : GPUMirroredMemoryBlockBase}
    (h : pinnedMemoryPageLock d b = .ok b1) : b1.mem_gpu = b.mem_gpu := by
  unfold pinnedMemoryPageLock at h
  split at h
  · cases h
  · simp only at h
    split at h
    · cases h; rfl
    · cases h

theorem stepBy_device_storage {d : Driver} {b b1 : GPUMirroredMemoryBlock}
    (h : StepBy d b b1) (hd : d.handleNonZero)
    (hb : b.getUpdatedGPU = true → b.mem_gpu ≠ 0) :
    b1.getUpdatedGPU = true → b1.mem_gpu ≠ 0 := by
  cases h with
  | getPPALForRead _ _ p h =>
    unfold getPPALForRead at h
    split at h
    · cases h
    · rename_i b2 hu
      cases h
      rw [(updateMemPPAL_flags hu).2, updateMemPPAL_mem_gpu hu]
      exact hb
  | getPPALForWrite _ _ p h =>
    intro hg
    rw [(getPPALForWrite_flags h).2] at hg
    cases hg
  | getPPALForReadAndWrite _ _ p h =>
    intro hg
    rw [(getPPALForReadAndWrite_flags h).2] at hg
    cases hg
  | getGPUForRead _ _ p h =>
    unfold getGPUForRead at h
    split at h
    · cases h
    · rename_i b2 hu
      cases h
      intro _
      exact updateMemGPU_mem_gpu hu hd hb
  | getGPUForWrite _ _ p h =>
    unfold getGPUForWrite at h
    split at h
    · cases h
    · split at h
      · cases h
      · rename_i b2 fresh ha
        split at h
        · cases h
        · rename_i b3 hc
          cases h
          intro _
          have h2 := allocMemGPU_mem_gpu ha hd
          have h3 : b3.mem_gpu = b2.mem_gpu := by
            cases fresh
            · simp at hc
              rw [hc]
            · simp at hc
              exact copyPPALtoGPU_mem_gpu hc
          have h4 : b3.mem_gpu ≠ 0 := by rw [h3]; exact h2
          exact h4
  | getGPUForReadAndWrite _ _ p h =>
    unfold getGPUForReadAndWrite at h
    split at h
    · cases h
    · split at h
      · cases h
      · rename_i b2 hu
        cases h
        intro _
        have h2 : b2.mem_gpu ≠ 0 := updateMemGPU_mem_gpu hu hd hb
        exact h2
  | get sizeofT _ _ pos p h =>
    intro hg
    rw [(get_flags h).2] at hg
    cases hg
  | toMMappedDataWriter _ _ w w1 h =>
    unfold toMMappedDataWriter at h
    split at h
    · cases h
    · rename_i b2 hu
      cases h
      rw [(updateMemPPAL_flags hu).2, updateMemPPAL_mem_gpu hu]
      exact hb
  | pinnedMemoryPageLock _ _ h =>
    rw [getUpdatedGPU_congr (pinnedMemoryPageLock_status h), pinnedMemoryPageLock_mem_gpu h]
    exact hb
  | storeHost _ v => exact hb
  | storeDevice _ v => exact hb

theorem constructed_mem_gpu {b : GPUMirroredMemoryBlock} (h : Constructed b) :
    b.getUpdatedGPU = false := (constructed_flags h).2

theorem reachableNonZero_device_storage {b : GPUMirroredMemoryBlock}
    (h : ReachableNonZero b) : b.getUpdatedGPU = true → b.mem_gpu ≠ 0 := by
  induction h with
  | init b hc =>
    intro hg
    rw [constructed_mem_gpu hc] at hg
    cases hg
  | step d b b1 _ hd hs ih => exact stepBy_device_storage hs hd ih

theorem sampleOnDevice_reachableNonZero : ReachableNonZero sampleOnDevice :=
  ReachableNonZero.step okDriver sampleBlock sampleOnDevice
    (ReachableNonZero.init _ (Constructed.new_mem 4 1000 (fun i => i + 1)))
    (by decide)
    (StepBy.getGPUForWrite sampleBlock sampleOnDevice 4096 rfl)

/-- C28. In every state reached from a constructor by steps whose successful
device allocations return a non-zero handle, a valid device side has device
storage (`mem_gpu ≠ 0`); hence whenever the host side is stale the device side
is valid and allocated, `updateMemPPAL` never ends at its assertion
`mem_gpu != 0`, and with a driver whose calls succeed it returns after one
copy of `size` bytes that leaves the device bytes in the host region. -/
theorem device_valid_has_storage (d : Driver) (b : GPUMirroredMemoryBlock)
    (h : ReachableNonZero b) :
    (b.getUpdatedGPU = true → b.mem_gpu ≠ 0) ∧
    (b.getUpdatedPPAL = false →
      b.getUpdatedGPU = true ∧ b.mem_gpu ≠ 0 ∧
      (∀ a, updateMemPPAL d b = .error a → a.exit ≠ Exit.assertFailed) ∧
      (d.succeeds → ∃ b1, updateMemPPAL d b = .ok b1 ∧
        (∀ i, i < b.size → b1.hostMem i = b.deviceMem i) ∧
        copiesDtoH b1.log = copiesDtoH b.log ++ [b.size])) := by
  have hdev := reachableNonZero_device_storage h
  refine ⟨hdev, ?_⟩
  intro hp
  have hv := reachable_valid (reachableNonZero_reachable h)
  have hg : b.getUpdatedGPU = true := by simpa [hp] using hv
  have hm : b.mem_gpu ≠ 0 := hdev hg
  refine ⟨hg, hm, ?_, ?_⟩
  · intro a ha
    have hm2 : (b.setUpdatedPPAL).mem_gpu ≠ 0 := hm
    have h1 : Exit.copyDtoH ≠ Exit.assertFailed := by decide
    have h2 : Exit.copyDtoHAsync ≠ Exit.assertFailed := by decide
    unfold updateMemPPAL at ha
    simp only [hp, Bool.not_false, if_true, hm2, if_false] at ha
    split at ha
    · split at ha
      · cases ha
      · cases ha
        exact h1
    · split at ha
      · cases ha
      · cases ha
        exact h2
  · intro hd
    obtain ⟨b1, h1, _, _, _, _, _, hh, hl, _⟩ := getPPALForRead_stale d b hd hp hm
    have hu : updateMemPPAL d b = .ok b1 := by
      unfold getPPALForRead at h1
      split at h1
      · cases h1
      · rename_i b2 hu
        simp only [Except.ok.injEq, Prod.mk.injEq] at h1
        rw [← h1.1]
        exact hu
    exact ⟨b1, hu, hh, hl⟩

/-- C28 at the sample block after `getGPUForWrite`, whose host side is
stale. -/
theorem device_valid_has_storage_witness :
    ReachableNonZero sampleOnDevice ∧ sampleOnDevice.getUpdatedPPAL = false ∧
    (sampleOnDevice.getUpdatedGPU = true → sampleOnDevice.mem_gpu ≠ 0) ∧
    (sampleOnDevice.getUpdatedPPAL = false →
      sampleOnDevice.getUpdatedGPU = true ∧ sampleOnDevice.mem_gpu ≠ 0 ∧
      (∀ a, updateMemPPAL okDriver sampleOnDevice = .error a →
        a.exit ≠ Exit.assertFailed) ∧
      (okDriver.succeeds → ∃ b1, updateMemPPAL okDriver sampleOnDevice = .ok b1 ∧
        (∀ i, i < sampleOnDevice.size → b1.hostMem i = sampleOnDevice.deviceMem i) ∧
        copiesDtoH b1.log = copiesDtoH sampleOnDevice.log ++ [sampleOnDevice.size])) :=
  ⟨sampleOnDevice_reachableNonZero, by decide,
    device_valid_has_storage okDriver sampleOnDevice sampleOnDevice_reachableNonZero⟩

/-! ## C29: the accounting of the pool -/

theorem poolKey_lt (sz : Nat) : poolKey sz < 2 ^ 32 :=
  Nat.mod_lt _ (by norm_num)

theorem update_at_key_keeps_large (f : Nat → List Nat) (sz : Nat) (l : List Nat)
    (hf : ∀ k, 2 ^ 32 ≤ k → f k = []) :
    ∀ k, 2 ^ 32 ≤ k → Function.update f (poolKey sz) l k = [] := by
  intro k hk
  have hne : k ≠ poolKey sz := by
    have := poolKey_lt sz
    omega
  rw [Function.update_noteq hne]
  exact hf k hk

theorem poolRun_keys (bound : Nat) (pool : Pool) (h : PoolRun bound pool) :
    ∀ k, 2 ^ 32 ≤ k → pool.pool_lists k = [] := by
  induction h with
  | init v => intro k _; rfl
  | new_size d pool pool1 sz b _ hsz hn ih =>
    unfold GPUMirroredMemoryBlockBase.new_size at hn
    simp only at hn
    split at hn
    · split at hn
      · cases hn; exact ih
      · split at hn
        · cases hn
        · cases hn; exact ih
    · cases hn
      exact update_at_key_keeps_large pool.pool_lists sz _ ih
  | destructor d pool pool1 b log _ hsz hd ih =>
    rcases destructor_pool hd with h1 | ⟨_, h1⟩
    · rw [h1]; exact ih
    · rw [h1]
      exact update_at_key_keeps_large pool.pool_lists b.size _ ih
  | destructor_host_only pool b _ hsz ih =>
    rcases destructor_host_only_pool pool b with h1 | ⟨_, h1⟩
    · rw [h1]; exact ih
    · rw [h1]
      exact update_at_key_keeps_large pool.pool_lists b.size _ ih
  | setUseMMapAllocation pool v _ ih => exact ih

/-- C29. In every pool state reached by constructions and destructions of
blocks of byte size below `2^32`, `pool_size` is the sum over all keys `k` of
`k` times the length of the free list for `k` (the lists for keys from `2^32`
on are empty). When the constructor for a size `sz < 2^32` finds a buffer in
the pool, `sz ≤ pool_size`, so `pool_size -= size` does not wrap; the
constructor returns the buffer at the front of the list for `sz`, that list
loses exactly that buffer, every other list is unchanged, and the accounting
holds again. -/
theorem pool_accounting (d : Driver) (pool : Pool) (sz : Nat) (h : PoolRun (2 ^ 32) pool)
    (hsz : sz < 2 ^ 32) :
    pool.pool_size = pooledBytes pool ∧
    (∀ k, 2 ^ 32 ≤ k → pool.pool_lists k = []) ∧
    (∀ p rest, pool.pool_lists (poolKey sz) = p :: rest →
      sz ≤ pool.pool_size ∧
      ∃ b pool1, GPUMirroredMemoryBlockBase.new_size d pool sz = .ok (b, pool1) ∧
        b.mem_ppal = p ∧ b.size = sz ∧ b.log = [] ∧
        pool1.pool_size = pool.pool_size - sz ∧
        pool1.pool_lists (poolKey sz) = rest ∧
        (∀ k, k ≠ poolKey sz → pool1.pool_lists k = pool.pool_lists k) ∧
        pool1.pool_size = pooledBytes pool1) := by
  obtain ⟨hacc, hlt⟩ := poolRun_invariant (2 ^ 32) (Nat.le_refl _) pool h
  refine ⟨hacc, poolRun_keys (2 ^ 32) pool h, ?_⟩
  intro p rest hl
  have hge := pooledBytes_ge pool (poolKey sz) (poolKey_lt sz)
  rw [hl, poolKey_of_lt sz hsz] at hge
  simp only [List.length_cons, Nat.mul_add, Nat.mul_one] at hge
  have hle : sz ≤ pool.pool_size := by rw [hacc]; omega
  obtain ⟨hacc1, _⟩ := pool_remove_invariant (2 ^ 32) (Nat.le_refl _) pool sz p rest hsz
    hacc hlt hl
  have hmax : MAX_POOL_LIST_SIZE = 209715200 := rfl
  have hmod : (pool.pool_size + 2 ^ 64 - sz) % 2 ^ 64 = pool.pool_size - sz := by
    norm_num at hsz hlt ⊢
    omega
  refine ⟨hle, _, _, new_size_hit d pool sz p rest hl, rfl, rfl, rfl, hmod, ?_, ?_, hacc1⟩
  · show Function.update pool.pool_lists (poolKey sz) rest (poolKey sz) = rest
    exact Function.update_same _ _ _
  · intro k hk
    show Function.update pool.pool_lists (poolKey sz) rest k = pool.pool_lists k
    exact Function.update_noteq hk _ _

/-- C29 at the pool left by the destruction of the block of 1024 bytes. -/
theorem pool_accounting_witness :
    PoolRun (2 ^ 32) poolAfterKilo ∧ 1024 < 2 ^ 32 ∧
    poolAfterKilo.pool_size = pooledBytes poolAfterKilo ∧
    (∀ k, 2 ^ 32 ≤ k → poolAfterKilo.pool_lists k = []) ∧
    (∀ p rest, poolAfterKilo.pool_lists (poolKey 1024) = p :: rest →
      1024 ≤ poolAfterKilo.pool_size ∧
      ∃ b pool1, GPUMirroredMemoryBlockBase.new_size okDriver poolAfterKilo 1024
          = .ok (b, pool1) ∧
        b.mem_ppal = p ∧ b.size = 1024 ∧ b.log = [] ∧
        pool1.pool_size = poolAfterKilo.pool_size - 1024 ∧
        pool1.pool_lists (poolKey 1024) = rest ∧
        (∀ k, k ≠ poolKey 1024 → pool1.pool_lists k = poolAfterKilo.pool_lists k) ∧
        pool1.pool_size = pooledBytes pool1) :=
  have h : PoolRun (2 ^ 32) poolAfterKilo :=
    PoolRun.destructor okDriver freshPool poolAfterKilo kiloBlock []
      (PoolRun.new_size okDriver freshPool freshPool 1024 kiloBlock
        (PoolRun.init false) (by decide) rfl)
      (by decide) rfl
  ⟨h, by decide, pool_accounting okDriver poolAfterKilo 1024 h (by decide)⟩

/-! ## C30: the older block of package `math` and the block of `mathcore` -/

theorem math_getUpdatedPPAL_setUpdatedPPAL (b : Math.GPUMirroredMemoryBlock) :
    b.setUpdatedPPAL.getUpdatedPPAL = true := by
  simp only [Math.GPUMirroredMemoryBlock.getUpdatedPPAL, Math.GPUMirroredMemoryBlock.setUpdatedPPAL,
    flag_bit0, Nat.testBit_or]
  have h1 : Nat.testBit 1 0 = true := by decide
  simp [*]

theorem math_getUpdatedGPU_setUpdatedPPAL (b : Math.GPUMirroredMemoryBlock) :
    b.setUpdatedPPAL.getUpdatedGPU = b.getUpdatedGPU := by
  simp only [Math.GPUMirroredMemoryBlock.getUpdatedGPU, Math.GPUMirroredMemoryBlock.setUpdatedPPAL,
    flag_bit1, Nat.testBit_or]
  have h1 : Nat.testBit 1 1 = false := by decide
  simp [*]

theorem math_getUpdatedPPAL_setUpdatedGPU (b : Math.GPUMirroredMemoryBlock) :
    b.setUpdatedGPU.getUpdatedPPAL = b.getUpdatedPPAL := by
  simp only [Math.GPUMirroredMemoryBlock.getUpdatedPPAL, Math.GPUMirroredMemoryBlock.setUpdatedGPU,
    flag_bit0, Nat.testBit_or]
  have h1 : Nat.testBit 2 0 = false := by decide
  simp [*]

theorem math_getUpdatedGPU_setUpdatedGPU (b : Math.GPUMirroredMemoryBlock) :
    b.setUpdatedGPU.getUpdatedGPU = true := by
  simp only [Math.GPUMirroredMemoryBlock.getUpdatedGPU, Math.GPUMirroredMemoryBlock.setUpdatedGPU,
    flag_bit1, Nat.testBit_or]
  have h1 : Nat.testBit 2 1 = true := by decide
  simp [*]

theorem math_getUpdatedPPAL_unsetUpdatedPPAL (b : Math.GPUMirroredMemoryBlock) :
    b.unsetUpdatedPPAL.getUpdatedPPAL = false := by
  simp only [Math.GPUMirroredMemoryBlock.getUpdatedPPAL, Math.GPUMirroredMemoryBlock.unsetUpdatedPPAL,
    flag_bit0, Nat.testBit_and]
  have h1 : Nat.testBit 254 0 = false := by decide
  simp [*]

theorem math_getUpdatedGPU_unsetUpdatedPPAL (b : Math.GPUMirroredMemoryBlock) :
    b.unsetUpdatedPPAL.getUpdatedGPU = b.getUpdatedGPU := by
  simp only [Math.GPUMirroredMemoryBlock.getUpdatedGPU, Math.GPUMirroredMemoryBlock.unsetUpdatedPPAL,
    flag_bit1, Nat.testBit_and]
  have h1 : Nat.testBit 254 1 = true := by decide
  simp [*]

theorem math_getUpdatedPPAL_unsetUpdatedGPU (b : Math.GPUMirroredMemoryBlock) :
    b.unsetUpdatedGPU.getUpdatedPPAL = b.getUpdatedPPAL := by
  simp only [Math.GPUMirroredMemoryBlock.getUpdatedPPAL, Math.GPUMirroredMemoryBlock.unsetUpdatedGPU,
    flag_bit0, Nat.testBit_and]
  have h1 : Nat.testBit 253 0 = true := by decide
  simp [*]

theorem math_getUpdatedGPU_unsetUpdatedGPU (b : Math.GPUMirroredMemoryBlock) :
    b.unsetUpdatedGPU.getUpdatedGPU = false := by
  simp only [Math.GPUMirroredMemoryBlock.getUpdatedGPU, Math.GPUMirroredMemoryBlock.unsetUpdatedGPU,
    flag_bit1, Nat.testBit_and]
  have h1 : Nat.testBit 253 1 = false := by decide
  simp [*]

theorem math_getUpdatedPPAL_congr {b1 b2 : Math.GPUMirroredMemoryBlock}
    (h : b1.updated = b2.updated) : b1.getUpdatedPPAL = b2.getUpdatedPPAL := by
  simp only [Math.GPUMirroredMemoryBlock.getUpdatedPPAL, h]

theorem math_getUpdatedGPU_congr {b1 b2 : Math.GPUMirroredMemoryBlock}
    (h : b1.updated = b2.updated) : b1.getUpdatedGPU = b2.getUpdatedGPU := by
  simp only [Math.GPUMirroredMemoryBlock.getUpdatedGPU, h]

/-- Agreement depends only on the size, the pin, the status bits, whether the
device handle is null, and the copies of the log. -/
theorem agree_of_fields {sizeofT : Nat} {o o1 : Math.GPUMirroredMemoryBlock}
    {b b1 : GPUMirroredMemoryBlock} (h : Agree sizeofT o b)
    (hos : o1.size = o.size) (hbs : b1.size = b.size)
    (hop : o1.pinned = o.pinned) (hbp : b1.pinned = b.pinned)
    (hou : o1.updated = o.updated) (hbu : b1.status = b.status)
    (hm : b1.mem_gpu = 0 ↔ o1.mem_gpu = 0)
    (hhd : copiesHtoD b1.log = copiesHtoD o1.log)
    (hdh : copiesDtoH b1.log = copiesDtoH o1.log) : Agree sizeofT o1 b1 := by
  obtain ⟨h1, h2, h3, h4, h5, _, _, _⟩ := h
  refine ⟨?_, ?_, ?_, ?_, ?_, hm, hhd, hdh⟩
  · rw [hbs, h1]
    simp only [Math.GPUMirroredMemoryBlock.bytes, hos]
  · rw [hbp, hop, h2]
  · rw [isConst_congr hbu, h3]
  · rw [getUpdatedPPAL_congr hbu, math_getUpdatedPPAL_congr hou, h4]
  · rw [getUpdatedGPU_congr hbu, math_getUpdatedGPU_congr hou, h5]

theorem agree_setUpdatedPPAL {sizeofT : Nat} {o : Math.GPUMirroredMemoryBlock}
    {b : GPUMirroredMemoryBlock} (h : Agree sizeofT o b) :
    Agree sizeofT o.setUpdatedPPAL b.setUpdatedPPAL := by
  obtain ⟨h1, h2, h3, h4, h5, h6, h7, h8⟩ := h
  refine ⟨h1, h2, ?_, ?_, ?_, h6, h7, h8⟩
  · simp [h3]
  · simp [math_getUpdatedPPAL_setUpdatedPPAL]
  · simp [math_getUpdatedGPU_setUpdatedPPAL, h5]

theorem agree_setUpdatedGPU {sizeofT : Nat} {o : Math.GPUMirroredMemoryBlock}
    {b : GPUMirroredMemoryBlock} (h : Agree sizeofT o b) :
    Agree sizeofT o.setUpdatedGPU b.setUpdatedGPU := by
  obtain ⟨h1, h2, h3, h4, h5, h6, h7, h8⟩ := h
  refine ⟨h1, h2, ?_, ?_, ?_, h6, h7, h8⟩
  · simp [h3]
  · simp [math_getUpdatedPPAL_setUpdatedGPU, h4]
  · simp [math_getUpdatedGPU_setUpdatedGPU]

theorem agree_unsetUpdatedPPAL {sizeofT : Nat} {o : Math.GPUMirroredMemoryBlock}
    {b : GPUMirroredMemoryBlock} (h : Agree sizeofT o b) :
    Agree sizeofT o.unsetUpdatedPPAL b.unsetUpdatedPPAL := by
  obtain ⟨h1, h2, h3, h4, h5, h6, h7, h8⟩ := h
  refine ⟨h1, h2, ?_, ?_, ?_, h6, h7, h8⟩
  · simp [h3]
  · simp [math_getUpdatedPPAL_unsetUpdatedPPAL]
  · simp [math_getUpdatedGPU_unsetUpdatedPPAL, h5]

theorem agree_unsetUpdatedGPU {sizeofT : Nat} {o : Math.GPUMirroredMemoryBlock}
    {b : GPUMirroredMemoryBlock} (h : Agree sizeofT o b) :
    Agree sizeofT o.unsetUpdatedGPU b.unsetUpdatedGPU := by
  obtain ⟨h1, h2, h3, h4, h5, h6, h7, h8⟩ := h
  refine ⟨h1, h2, ?_, ?_, ?_, h6, h7, h8⟩
  · simp [h3]
  · simp [math_getUpdatedPPAL_unsetUpdatedGPU, h4]
  · simp [math_getUpdatedGPU_unsetUpdatedGPU]

theorem agree_log_append {sizeofT : Nat} {o : Math.GPUMirroredMemoryBlock}
    {b : GPUMirroredMemoryBlock} (h : Agree sizeofT o b) (f : Nat → List Effect) :
    copiesHtoD (b.log ++ f b.size) = copiesHtoD (o.log ++ f (o.bytes sizeofT)) ∧
    copiesDtoH (b.log ++ f b.size) = copiesDtoH (o.log ++ f (o.bytes sizeofT)) := by
  obtain ⟨h1, _, _, _, _, _, h7, h8⟩ := h
  rw [copiesHtoD_append, copiesHtoD_append, copiesDtoH_append, copiesDtoH_append, h1, h7, h8]
  exact ⟨rfl, rfl⟩

theorem agree_updateMemPPAL {sizeofT : Nat} (d : Driver) {o : Math.GPUMirroredMemoryBlock}
    {b : GPUMirroredMemoryBlock} (h : Agree sizeofT o b) :
    AgreeState sizeofT (o.updateMemPPAL sizeofT d) (updateMemPPAL d b) := by
  have h1 := agree_setUpdatedPPAL h
  have hm : (b.setUpdatedPPAL).mem_gpu = 0 ↔ (o.setUpdatedPPAL).mem_gpu = 0 := h1.2.2.2.2.2.1
  have hpin : (b.setUpdatedPPAL).pinned = (o.setUpdatedPPAL).pinned := h1.2.1
  unfold Math.GPUMirroredMemoryBlock.updateMemPPAL updateMemPPAL
  rw [h.2.2.2.1]
  cases hop : o.getUpdatedPPAL
  · simp only [Bool.not_false, if_true]
    by_cases hmo : (o.setUpdatedPPAL).mem_gpu = 0
    · simp only [hmo, hm.mpr hmo, if_true]
      exact ⟨rfl, h1⟩
    · have hmb : ¬ (b.setUpdatedPPAL).mem_gpu = 0 := fun hb => hmo (hm.mp hb)
      simp only [hmo, hmb, if_false, hpin]
      cases hopin : (o.setUpdatedPPAL).pinned
      · simp only [Bool.not_false, if_true]
        cases hdrv : d.cuMemcpyDtoH
        · simp only [Bool.false_eq_true, if_false]
          exact ⟨rfl, h1⟩
        · simp only [if_true]
          exact agree_of_fields h1 rfl rfl hopin.symm (hpin.trans hopin).symm rfl rfl hm
            (agree_log_append h1 (fun n => [Effect.cuMemcpyDtoH n])).1
            (agree_log_append h1 (fun n => [Effect.cuMemcpyDtoH n])).2
      · simp only [Bool.not_true, Bool.false_eq_true, if_false]
        cases hdrv : d.cudaMemcpyAsync
        · simp only [Bool.false_eq_true, if_false]
          exact ⟨rfl, h1⟩
        · simp only [if_true]
          exact agree_of_fields h1 rfl rfl hopin.symm (hpin.trans hopin).symm rfl rfl hm
            (agree_log_append h1
              (fun n => [Effect.cudaMemcpyAsyncDtoH n, Effect.cudaThreadSynchronize])).1
            (agree_log_append h1
              (fun n => [Effect.cudaMemcpyAsyncDtoH n, Effect.cudaThreadSynchronize])).2
  · simp only [Bool.not_true, Bool.false_eq_true, if_false]
    exact h

theorem agree_copyPPALtoGPU {sizeofT : Nat} (d : Driver) {o : Math.GPUMirroredMemoryBlock}
    {b : GPUMirroredMemoryBlock} (h : Agree sizeofT o b) :
    AgreeState sizeofT (o.copyPPALtoGPU sizeofT d) (copyPPALtoGPU d b) := by
  have hm : b.mem_gpu = 0 ↔ o.mem_gpu = 0 := h.2.2.2.2.2.1
  have hpin : b.pinned = o.pinned := h.2.1
  unfold Math.GPUMirroredMemoryBlock.copyPPALtoGPU copyPPALtoGPU
  rw [h.2.1]
  cases hopin : o.pinned
  · simp only [Bool.not_false, if_true]
    cases hdrv : d.cuMemcpyHtoD
    · simp only [Bool.false_eq_true, if_false]
      exact ⟨rfl, h⟩
    · simp only [if_true]
      exact agree_of_fields h rfl rfl hopin.symm (hpin.trans hopin).symm rfl rfl hm
        (agree_log_append h (fun n => [Effect.cuMemcpyHtoD n])).1
        (agree_log_append h (fun n => [Effect.cuMemcpyHtoD n])).2
  · simp only [Bool.not_true, Bool.false_eq_true, if_false]
    cases hdrv : d.cudaMemcpyAsync
    · simp only [Bool.false_eq_true, if_false]
      exact ⟨rfl, agree_of_fields h rfl rfl hopin.symm (hpin.trans hopin).symm rfl rfl hm
        (agree_log_append h (fun _ => [Effect.cudaThreadSynchronize])).1
        (agree_log_append h (fun _ => [Effect.cudaThreadSynchronize])).2⟩
    · simp only [if_true]
      exact agree_of_fields h rfl rfl hopin.symm (hpin.trans hopin).symm rfl rfl hm
        (agree_log_append h
          (fun n => [Effect.cudaThreadSynchronize, Effect.cudaMemcpyAsyncHtoD n])).1
        (agree_log_append h
          (fun n => [Effect.cudaThreadSynchronize, Effect.cudaMemcpyAsyncHtoD n])).2

/-- Both versions of `allocMemGPU` end alike and return the same boolean. -/
theorem agree_allocMemGPU {sizeofT : Nat} (d : Driver) {o : Math.GPUMirroredMemoryBlock}
    {b : GPUMirroredMemoryBlock} (h : Agree sizeofT o b) :
    (∃ o1 b1 fresh, o.allocMemGPU sizeofT d = .ok (o1, fresh) ∧
      allocMemGPU d b = .ok (b1, fresh) ∧ Agree sizeofT o1 b1) ∨
    (∃ a a1, o.allocMemGPU sizeofT d = .error a ∧ allocMemGPU d b = .error a1 ∧
      a.exit.code = a1.exit.code ∧ Agree sizeofT a.block a1.block) := by
  have hm : b.mem_gpu = 0 ↔ o.mem_gpu = 0 := h.2.2.2.2.2.1
  unfold Math.GPUMirroredMemoryBlock.allocMemGPU allocMemGPU
  by_cases hmo : o.mem_gpu = 0
  · simp only [hmo, hm.mpr hmo, if_true]
    cases hdrv : d.cuMemAlloc with
    | none => exact Or.inr ⟨_, _, rfl, rfl, rfl, h⟩
    | some hnd =>
      exact Or.inl ⟨_, _, true, rfl, rfl,
        agree_of_fields h rfl rfl rfl rfl rfl rfl Iff.rfl
          (agree_log_append h (fun n => [Effect.cuMemAlloc n])).1
          (agree_log_append h (fun n => [Effect.cuMemAlloc n])).2⟩
  · have hmb : ¬ b.mem_gpu = 0 := fun hb => hmo (hm.mp hb)
    simp only [hmo, hmb, if_false]
    exact Or.inl ⟨_, _, false, rfl, rfl, h⟩

theorem agree_updateMemGPU {sizeofT : Nat} (d : Driver) {o : Math.GPUMirroredMemoryBlock}
    {b : GPUMirroredMemoryBlock} (h : Agree sizeofT o b) :
    AgreeState sizeofT (o.updateMemGPU sizeofT d) (updateMemGPU d b) := by
  unfold Math.GPUMirroredMemoryBlock.updateMemGPU updateMemGPU
  rw [h.2.2.2.2.1]
  cases hop : o.getUpdatedGPU
  · simp only [Bool.not_false, if_true]
    rcases agree_allocMemGPU d h with ⟨o1, b1, fresh, ho, hb, h1⟩ | ⟨a, a1, ho, hb, hc, h1⟩
    · rw [ho, hb]
      exact agree_copyPPALtoGPU d (agree_setUpdatedGPU h1)
    · rw [ho, hb]
      exact ⟨hc, h1⟩
  · simp only [Bool.not_true, Bool.false_eq_true, if_false]
    exact h

theorem agreeOutcome_of_state {sizeofT : Nat}
    {x : Except Math.Abort Math.GPUMirroredMemoryBlock}
    {y : Except Abort GPUMirroredMemoryBlockBase}
    (f : Math.GPUMirroredMemoryBlock → Math.GPUMirroredMemoryBlock × Nat)
    (g : GPUMirroredMemoryBlockBase → GPUMirroredMemoryBlock × Nat) :
    AgreeState sizeofT x y →
    (∀ o1 b1, Agree sizeofT o1 b1 → Agree sizeofT (f o1).1 (g b1).1) →
    AgreeOutcome sizeofT
      (match x with
        | .error e => .error e
        | .ok o1 => .ok (f o1))
      (match y with
        | .error e => .error e
        | .ok b1 => .ok (g b1)) := by
  intro h hfg
  cases x with
  | error a =>
    cases y with
    | error a1 => exact h
    | ok b1 => exact h
  | ok o1 =>
    cases y with
    | error a1 => exact h
    | ok b1 => exact hfg o1 b1 h

theorem agree_getPPALForRead {sizeofT : Nat} (d : Driver) {o : Math.GPUMirroredMemoryBlock}
    {b : GPUMirroredMemoryBlock} (h : Agree sizeofT o b) :
    AgreeOutcome sizeofT (o.getPPALForRead sizeofT d) (getPPALForRead d b) := by
  unfold Math.GPUMirroredMemoryBlock.getPPALForRead getPPALForRead
  exact agreeOutcome_of_state (fun o1 => (o1, o1.mem_ppal)) (fun b1 => (b1, b1.mem_ppal))
    (agree_updateMemPPAL d h) (fun _ _ h1 => h1)

theorem agree_getGPUForRead {sizeofT : Nat} (d : Driver) {o : Math.GPUMirroredMemoryBlock}
    {b : GPUMirroredMemoryBlock} (h : Agree sizeofT o b) :
    AgreeOutcome sizeofT (o.getGPUForRead sizeofT d) (getGPUForRead d b) := by
  unfold Math.GPUMirroredMemoryBlock.getGPUForRead getGPUForRead
  exact agreeOutcome_of_state (fun o1 => (o1, o1.mem_gpu)) (fun b1 => (b1, b1.mem_gpu))
    (agree_updateMemGPU d h) (fun _ _ h1 => h1)

theorem agree_getPPALForWrite {sizeofT : Nat} {o : Math.GPUMirroredMemoryBlock}
    {b : GPUMirroredMemoryBlock} (h : Agree sizeofT o b) :
    AgreeOutcome sizeofT o.getPPALForWrite (getPPALForWrite b) := by
  unfold Math.GPUMirroredMemoryBlock.getPPALForWrite getPPALForWrite
  simp only [h.2.2.1, Bool.false_eq_true, if_false]
  exact agree_unsetUpdatedGPU (agree_setUpdatedPPAL h)

theorem agree_getPPALForReadAndWrite {sizeofT : Nat} (d : Driver)
    {o : Math.GPUMirroredMemoryBlock} {b : GPUMirroredMemoryBlock} (h : Agree sizeofT o b) :
    AgreeOutcome sizeofT (o.getPPALForReadAndWrite sizeofT d) (getPPALForReadAndWrite d b) := by
  unfold Math.GPUMirroredMemoryBlock.getPPALForReadAndWrite getPPALForReadAndWrite
  simp only [h.2.2.1, Bool.false_eq_true, if_false]
  exact agreeOutcome_of_state (fun o1 => (o1.unsetUpdatedGPU, o1.unsetUpdatedGPU.mem_ppal))
    (fun b1 => (b1.unsetUpdatedGPU, b1.unsetUpdatedGPU.mem_ppal))
    (agree_updateMemPPAL d h) (fun _ _ h1 => agree_unsetUpdatedGPU h1)

theorem agree_getGPUForReadAndWrite {sizeofT : Nat} (d : Driver)
    {o : Math.GPUMirroredMemoryBlock} {b : GPUMirroredMemoryBlock} (h : Agree sizeofT o b) :
    AgreeOutcome sizeofT (o.getGPUForReadAndWrite sizeofT d) (getGPUForReadAndWrite d b) := by
  unfold Math.GPUMirroredMemoryBlock.getGPUForReadAndWrite getGPUForReadAndWrite
  simp only [h.2.2.1, Bool.false_eq_true, if_false]
  exact agreeOutcome_of_state (fun o1 => (o1.unsetUpdatedPPAL, o1.unsetUpdatedPPAL.mem_gpu))
    (fun b1 => (b1.unsetUpdatedPPAL, b1.unsetUpdatedPPAL.mem_gpu))
    (agree_updateMemGPU d h) (fun _ _ h1 => agree_unsetUpdatedPPAL h1)

theorem agree_getGPUForWrite {sizeofT : Nat} (d : Driver) {o : Math.GPUMirroredMemoryBlock}
    {b : GPUMirroredMemoryBlock} (h : Agree sizeofT o b) :
    AgreeOutcome sizeofT (o.getGPUForWrite sizeofT d) (getGPUForWrite d b) := by
  unfold Math.GPUMirroredMemoryBlock.getGPUForWrite getGPUForWrite
  simp only [h.2.2.1, Bool.false_eq_true, if_false]
  rcases agree_allocMemGPU d h with ⟨o1, b1, fresh, ho, hb, h1⟩ | ⟨a, a1, ho, hb, hc, h1⟩
  · rw [ho, hb]
    simp only
    have h2 : AgreeState sizeofT
        (if fresh = true then o1.copyPPALtoGPU sizeofT d else .ok o1)
        (if fresh = true then copyPPALtoGPU d b1 else .ok b1) := by
      cases fresh
      · simp only [Bool.false_eq_true, if_false]
        exact h1
      · simp only [if_true]
        exact agree_copyPPALtoGPU d h1
    exact agreeOutcome_of_state
      (fun o2 => (o2.setUpdatedGPU.unsetUpdatedPPAL, o2.setUpdatedGPU.unsetUpdatedPPAL.mem_gpu))
      (fun b2 => (b2.setUpdatedGPU.unsetUpdatedPPAL, b2.setUpdatedGPU.unsetUpdatedPPAL.mem_gpu))
      h2 (fun _ _ h3 => agree_unsetUpdatedPPAL (agree_setUpdatedGPU h3))
  · rw [ho, hb]
    exact ⟨hc, h1⟩

theorem mathSample_agree : Agree 4 mathSample mathcoreSample := by
  unfold Agree
  exact ⟨by decide, by decide, by decide, by decide, by decide, by decide, by decide,
    by decide⟩

/-- C30. Take a block of the older `math` version and a non-const block of the
`mathcore` version that agree: same validity flags, device storage allocated
in both or in neither, both pinned or neither, the same copies so far, and the
byte count of the newer one equal to `sizeof(T)*size` of the older one. Then
with the same answers of the driver each of the six accessors ends alike in
both versions: both return, or both end the process with the same exit
status, and the two states agree again, so the same flags and allocation
result and the same copies, of the same byte counts, have been made. The byte
count is `sizeof(T)` times the element count whenever that product fits a
`size_t`. -/
theorem versions_agree (sizeofT : Nat) (d : Driver) (o : Math.GPUMirroredMemoryBlock)
    (b : GPUMirroredMemoryBlock) (h : Agree sizeofT o b) :
    AgreeOutcome sizeofT (o.getPPALForRead sizeofT d) (getPPALForRead d b) ∧
    AgreeOutcome sizeofT o.getPPALForWrite (getPPALForWrite b) ∧
    AgreeOutcome sizeofT (o.getPPALForReadAndWrite sizeofT d) (getPPALForReadAndWrite d b) ∧
    AgreeOutcome sizeofT (o.getGPUForRead sizeofT d) (getGPUForRead d b) ∧
    AgreeOutcome sizeofT (o.getGPUForWrite sizeofT d) (getGPUForWrite d b) ∧
    AgreeOutcome sizeofT (o.getGPUForReadAndWrite sizeofT d) (getGPUForReadAndWrite d b) ∧
    (sizeofT * o.size < 2 ^ 64 → b.size = sizeofT * o.size) := by
  refine ⟨agree_getPPALForRead d h, agree_getPPALForWrite h, agree_getPPALForReadAndWrite d h,
    agree_getGPUForRead d h, agree_getGPUForWrite d h, agree_getGPUForReadAndWrite d h, ?_⟩
  intro hlt
  rw [h.1, Math.GPUMirroredMemoryBlock.bytes, Nat.mod_eq_of_lt hlt]

/-- C30 at two fresh blocks of four floats. -/
theorem versions_agree_witness :
    Agree 4 mathSample mathcoreSample ∧
    (AgreeOutcome 4 (mathSample.getPPALForRead 4 okDriver)
      (getPPALForRead okDriver mathcoreSample) ∧
    AgreeOutcome 4 mathSample.getPPALForWrite (getPPALForWrite mathcoreSample) ∧
    AgreeOutcome 4 (mathSample.getPPALForReadAndWrite 4 okDriver)
      (getPPALForReadAndWrite okDriver mathcoreSample) ∧
    AgreeOutcome 4 (mathSample.getGPUForRead 4 okDriver)
      (getGPUForRead okDriver mathcoreSample) ∧
    AgreeOutcome 4 (mathSample.getGPUForWrite 4 okDriver)
      (getGPUForWrite okDriver mathcoreSample) ∧
    AgreeOutcome 4 (mathSample.getGPUForReadAndWrite 4 okDriver)
      (getGPUForReadAndWrite okDriver mathcoreSample) ∧
    (4 * mathSample.size < 2 ^ 64 → mathcoreSample.size = 4 * mathSample.size)) :=
  ⟨mathSample_agree, versions_agree 4 okDriver mathSample mathcoreSample mathSample_agree⟩

end AprilANN
